import Mathlib

/-!
# SM5502 micro-USB switch driver: cable classification and transition engine

Shallow embedding of `drivers/extcon/extcon-sm5502.c`.

* C `int` values are `Int`; the bit operators are computed on the 32-bit
  two's-complement representation (`toU32` / `ofU32`).
* A byte handed to `i2c_smbus_write_byte_data` is truncated to 8 bits (`u8`).
* The I2C device is an `I2cClient`: what a read of a register returns (a byte,
  or a negative errno on a transport error) and what a write returns.  During
  one pass the register contents are those of the client; successive passes
  may be run against different clients.
* Every observable action (register read, register write, Cable Sink call,
  MHL / OTG collaborator call, lock operation) is appended to `State.trace`.
* Conditional compilation (`#if defined(CONFIG_...)`) is a `Config` record that
  the functions consult where the source has the preprocessor test.
-/

namespace SM5502

/-! ## Machine integers -/

/-- The 32-bit two's-complement bit pattern of a C `int`. -/
def toU32 (a : Int) : Nat := (a % 4294967296).toNat

/-- The C `int` whose 32-bit two's-complement bit pattern is `n`. -/
def ofU32 (n : Nat) : Int :=
  if n % 4294967296 < 2147483648 then ((n % 4294967296 : Nat) : Int)
  else ((n % 4294967296 : Nat) : Int) - 4294967296

/-- C `a & b` on `int`. -/
def band (a b : Int) : Int := ofU32 (toU32 a &&& toU32 b)

/-- C `a | b` on `int`. -/
def bor (a b : Int) : Int := ofU32 (toU32 a ||| toU32 b)

/-- C `~a` on `int`. -/
def bnot (a : Int) : Int := -a - 1

/-- C `a << n` on `int`, for the small constants of the source (no overflow). -/
def shl (a : Int) (n : Nat) : Int := a * ((2 ^ n : Nat) : Int)

/-- Conversion of an `int` argument to the `u8 value` parameter of
`i2c_smbus_write_byte_data`. -/
def u8 (v : Int) : Nat := (v % 256).toNat

/-! ## Register map and bit masks (`#define`s of the source) -/

def REG_CONTROL : Nat := 0x02
def REG_INT1 : Nat := 0x03
def REG_INT2 : Nat := 0x04
def REG_ADC : Nat := 0x07
def REG_DEVICE_TYPE1 : Nat := 0x0a
def REG_DEVICE_TYPE2 : Nat := 0x0b
def REG_MANUAL_SW1 : Nat := 0x13
def REG_MANUAL_SW2 : Nat := 0x14
def REG_DEVICE_TYPE3 : Nat := 0x15
def REG_VBUSINVALID : Nat := 0x1D
def REG_CARKIT_STATUS : Nat := 0x0E

def DATA_NONE : Int := 0x00

def CON_SWITCH_OPEN : Int := shl 1 4
def CON_RAW_DATA : Int := shl 1 3
def CON_MANUAL_SW : Int := shl 1 2
def CON_WAIT : Int := shl 1 1
def CON_INT_MASK : Int := shl 1 0
def CON_MASK : Int := bor (bor (bor CON_SWITCH_OPEN CON_RAW_DATA) CON_MANUAL_SW) CON_WAIT

def DEV_USB_OTG : Int := shl 1 7
def DEV_DEDICATED_CHG : Int := shl 1 6
def DEV_USB_CHG : Int := shl 1 5
def DEV_CAR_KIT : Int := shl 1 4
def DEV_UART : Int := shl 1 3
def DEV_USB : Int := shl 1 2
def DEV_T1_UART_MASK : Int := DEV_UART
def DEV_T1_CHARGER_MASK : Int := bor DEV_DEDICATED_CHG DEV_CAR_KIT
def DEV_CARKIT_CHARGER1_MASK : Int := shl 1 1

def DEV_AUDIO_DOCK : Int := shl 1 8
def DEV_AV : Int := shl 1 6
def DEV_JIG_UART_OFF : Int := shl 1 3
def DEV_JIG_UART_ON : Int := shl 1 2
def DEV_JIG_USB_OFF : Int := shl 1 1
def DEV_JIG_USB_ON : Int := shl 1 0
def DEV_T2_USB_MASK : Int := bor DEV_JIG_USB_OFF DEV_JIG_USB_ON
def DEV_T2_UART_MASK : Int := DEV_JIG_UART_OFF
def DEV_T2_JIG_ALL_MASK : Int :=
  bor (bor (bor DEV_JIG_USB_OFF DEV_JIG_USB_ON) DEV_JIG_UART_OFF) DEV_JIG_UART_ON

def DEV_MHL : Int := shl 1 0
def DEV_VBUSIN_VALID : Int := shl 1 1
def DEV_NON_STANDARD : Int := shl 1 2
def DEV_AV_VBUS : Int := shl 1 4
def DEV_U200_CHARGER : Int := shl 1 6
def DEV_T3_CHARGER_MASK : Int := DEV_U200_CHARGER

def SW_UART : Int := bor (shl 3 5) (shl 3 2)
def SW_AUDIO : Int := bor (bor (shl 2 5) (shl 2 2)) (shl 1 0)
def SW_DHOST : Int := bor (bor (shl 1 5) (shl 1 2)) (shl 1 0)
def SW_ALL_OPEN : Int := 0
def SW_ALL_OPEN_WITH_VBUS : Int := bor (bor (shl 0 5) (shl 0 2)) (shl 1 0)

def INT_DETACH : Int := shl 1 1
def INT_ATTACH : Int := shl 1 0
def INT_VBUSOUT_ON : Int := shl 1 7
def INT_RESERVED_ATTACH : Int := shl 1 1
def INT_VBUSOUT_OFF : Int := shl 1 0

def ADC_OTG : Int := 0x00
def ADC_AUDIO_DOCK : Int := 0x12
def ADC_DESKDOCK : Int := 0x1a
def ADC_JIG_UART_OFF : Int := 0x1c
def ADC_OPEN : Int := 0x1f

/-- Modelled from the spec: the header `linux/extcon/extcon-sm5502.h`, which
declares the `attach` / `detach` constants, is not among the sources.  The Cable
Sink takes `attached: bool`; `attach` is the true value. -/
def attach : Int := 1

/-- Modelled from the spec: the header `linux/extcon/extcon-sm5502.h` is not
among the sources; `detach` is the false value of `attached: bool`. -/
def detach : Int := 0

/-- Modelled from the spec: the `extcon_cable_name[]` table and its `EXTCON_*`
indices come from a header that is not among the sources.  One constructor per
index the driver uses; distinct indices name distinct cable identities. -/
inductive Cable
  | USB
  | CHARGE_DOWNSTREAM
  | JIG_UARTOFF_VB
  | JIG_UARTOFF
  | TA
  | USB_HOST
  | DESKDOCK_VB
  | DESKDOCK
  | CARDOCK
  | JIG_UARTON
  | AUDIODOCK
  | MHL
  | INCOMPATIBLE
  deriving DecidableEq, Repr

/-! ## Observable actions -/

/-- One observable action of the driver. -/
inductive Event
  /-- The call `i2c_smbus_read_byte_data(client, reg)` and what it returned. -/
  | read (reg : Nat) (ret : Int)
  /-- The call `i2c_smbus_write_byte_data(client, reg, value)` and what it returned. -/
  | write (reg : Nat) (value : Nat) (ret : Int)
  /-- The Cable Sink call `extcon_set_cable_state(edev, name, state)`. -/
  | cable (name : Cable) (state : Bool)
  /-- The collaborator call `mhl_onoff_ex(enable)`. -/
  | mhl_onoff (enable : Bool)
  /-- The collaborator call `sec_otg_notify(HNOTIFY_OTG_POWER_ON / _OFF)`. -/
  | otg_notify (power_on : Bool)
  /-- The call `mutex_lock(&usbsw->mutex)`. -/
  | mutex_lock
  /-- The call `mutex_unlock(&usbsw->mutex)`. -/
  | mutex_unlock
  deriving DecidableEq, Repr

/-- Build configuration: one field per `CONFIG_*` symbol the engine tests, and
the boot-time flag `poweroff_charging` owned by the platform. -/
structure Config where
  USB_HOST_NOTIFY : Bool
  MUIC_SUPPORT_RUSTPROOF : Bool
  VIDEO_MHL_V2 : Bool
  MHL_D3_SUPPORT : Bool
  SEC_FACTORY : Bool
  poweroff_charging : Bool
  deriving DecidableEq, Repr

/-- The Register Access Port: the value `i2c_smbus_read_byte_data` returns for a
register (a byte, or a negative errno) and the value
`i2c_smbus_write_byte_data` returns for a register and a byte. -/
structure I2cClient where
  read : Nat → Int
  write : Nat → Nat → Int

/-- The fields of `struct sm5502_usbsw` that the engine reads or writes. -/
structure Usbsw where
  dev1 : Int
  dev2 : Int
  dev3 : Int
  mansw : Int
  vbus : Int
  dev_id : Int
  carkit_dev : Int
  jig_state : Int
  adc : Int
  is_rustproof : Bool
  deriving DecidableEq, Repr

/-- The driver instance (`usbsw`, which `local_usbsw` aliases), the exported
global `uart_sm5502_connecting`, and the trace of observable actions so far. -/
structure State where
  usbsw : Usbsw
  uart_sm5502_connecting : Int
  trace : List Event
  deriving DecidableEq, Repr

/-- The instance as `kzalloc` leaves it. -/
def Usbsw.zero : Usbsw :=
  { dev1 := 0, dev2 := 0, dev3 := 0, mansw := 0, vbus := 0, dev_id := 0,
    carkit_dev := 0, jig_state := 0, adc := 0, is_rustproof := false }

/-! ## External collaborators -/

def i2c_smbus_read_byte_data (client : I2cClient) (reg : Nat) (st : State) : Int × State :=
  (client.read reg, { st with trace := st.trace ++ [Event.read reg (client.read reg)] })

def i2c_smbus_write_byte_data (client : I2cClient) (reg : Nat) (value : Int) (st : State) :
    Int × State :=
  (client.write reg (u8 value),
    { st with trace := st.trace ++ [Event.write reg (u8 value) (client.write reg (u8 value))] })

def extcon_set_cable_state (name : Cable) (state : Int) (st : State) : State :=
  { st with trace := st.trace ++ [Event.cable name (decide (state ≠ 0))] }

def mhl_onoff_ex (enable : Int) (st : State) : State :=
  { st with trace := st.trace ++ [Event.mhl_onoff (decide (enable ≠ 0))] }

def sec_otg_notify (power_on : Bool) (st : State) : State :=
  { st with trace := st.trace ++ [Event.otg_notify power_on] }

def mutex_lock (st : State) : State :=
  { st with trace := st.trace ++ [Event.mutex_lock] }

def mutex_unlock (st : State) : State :=
  { st with trace := st.trace ++ [Event.mutex_unlock] }

/-! ## The driver -/

def sm5502_disable_interrupt (client : I2cClient) (st : State) : State :=
  let (value, st) := i2c_smbus_read_byte_data client REG_CONTROL st
  let value := bor value CON_INT_MASK
  (i2c_smbus_write_byte_data client REG_CONTROL value st).2

def sm5502_enable_interrupt (client : I2cClient) (st : State) : State :=
  let (value, st) := i2c_smbus_read_byte_data client REG_CONTROL st
  let value := band value (bnot CON_INT_MASK)
  (i2c_smbus_write_byte_data client REG_CONTROL value st).2

def sm5502_dock_control (client : I2cClient) (dock_type : Cable) (state : Int) (path : Int)
    (st : State) : State :=
  if state ≠ 0 then
    let st := { st with usbsw := { st.usbsw with mansw := path } }
    let st := extcon_set_cable_state dock_type state st
    let (_, st) := i2c_smbus_write_byte_data client REG_MANUAL_SW1 path st
    let (ret, st) := i2c_smbus_read_byte_data client REG_CONTROL st
    if ret < 0 then st
    else (i2c_smbus_write_byte_data client REG_CONTROL (band ret (bnot CON_MANUAL_SW)) st).2
  else
    let st := extcon_set_cable_state dock_type state st
    let (ret, st) := i2c_smbus_read_byte_data client REG_CONTROL st
    (i2c_smbus_write_byte_data client REG_CONTROL (bor (bor ret CON_MANUAL_SW) CON_RAW_DATA) st).2

/-- Compiled only with `CONFIG_USB_HOST_NOTIFY`. -/
def sm5502_set_otg (client : I2cClient) (state : Int) (st : State) : State :=
  if state = attach then
    let (_, st) := i2c_smbus_write_byte_data client REG_MANUAL_SW1 0x25 st
    let (_, st) := i2c_smbus_write_byte_data client REG_MANUAL_SW2 0x00 st
    let (ret, st) := i2c_smbus_read_byte_data client REG_CONTROL st
    let ret := band ret 0xFB
    (i2c_smbus_write_byte_data client REG_CONTROL ret st).2
  else
    let (_, st) := i2c_smbus_write_byte_data client REG_MANUAL_SW2 0x00 st
    let (_, st) := i2c_smbus_write_byte_data client REG_MANUAL_SW1 SW_ALL_OPEN st
    let (ret, st) := i2c_smbus_read_byte_data client REG_CONTROL st
    let ret := bor ret 0x04
    (i2c_smbus_write_byte_data client REG_CONTROL ret st).2

def check_sm5502_jig_state (st : State) : Int :=
  st.usbsw.jig_state

/-- Compiled only with `CONFIG_MUIC_SUPPORT_RUSTPROOF`. -/
def muic_rustproof_feature (client : I2cClient) (state : Int) (st : State) : State :=
  if state ≠ 0 then
    let (_, st) := i2c_smbus_write_byte_data client REG_MANUAL_SW1 SW_ALL_OPEN_WITH_VBUS st
    let (val, st) := i2c_smbus_read_byte_data client REG_CONTROL st
    let val := band val 0xFB
    (i2c_smbus_write_byte_data client REG_CONTROL val st).2
  else
    let (_, st) := i2c_smbus_write_byte_data client REG_MANUAL_SW2 0x00 st
    let (_, st) := i2c_smbus_write_byte_data client REG_MANUAL_SW1 SW_ALL_OPEN st
    let (val, st) := i2c_smbus_read_byte_data client REG_CONTROL st
    let val := bor val 0x04
    (i2c_smbus_write_byte_data client REG_CONTROL val st).2

/-- The cable decision of `sm5502_attach_dev`: the `if ... else if` chain (from
the comment `USB` down to `Incompatible`) that follows the register reads, on
the values `val1`, `val2`, `val3`, `val4`, `vbus`, `adc` the function holds at
that point. -/
def sm5502_attach_dev_decision (cfg : Config) (client : I2cClient)
    (val1 val2 val3 val4 vbus adc : Int) (st : State) : State :=
  /- USB -/
  if band val1 DEV_USB ≠ 0 ∨ band val2 DEV_T2_USB_MASK ≠ 0 ∨
      band val4 DEV_CARKIT_CHARGER1_MASK ≠ 0 then
    extcon_set_cable_state Cable.USB attach st
  /- D+,D-open -/
  else if band val3 DEV_NON_STANDARD ≠ 0 then
    extcon_set_cable_state Cable.USB attach st
  /- USB_CDP -/
  else if band val1 DEV_USB_CHG ≠ 0 then
    extcon_set_cable_state Cable.CHARGE_DOWNSTREAM attach st
  /- UART -/
  else if band val1 DEV_T1_UART_MASK ≠ 0 ∨ band val2 DEV_T2_UART_MASK ≠ 0 then
    let st := { st with uart_sm5502_connecting := 1 }
    if cfg.MUIC_SUPPORT_RUSTPROOF = true ∧ st.usbsw.is_rustproof = true then
      muic_rustproof_feature client attach st
    else
      let (_, st) := i2c_smbus_write_byte_data client REG_MANUAL_SW1 SW_UART st
      if band vbus DEV_VBUSIN_VALID ≠ 0 then
        extcon_set_cable_state Cable.JIG_UARTOFF_VB attach st
      else
        extcon_set_cable_state Cable.JIG_UARTOFF attach st
  /- CHARGER -/
  else if band val1 DEV_T1_CHARGER_MASK ≠ 0 ∨ band val3 DEV_T3_CHARGER_MASK ≠ 0 then
    extcon_set_cable_state Cable.TA attach st
  /- for SAMSUNG OTG: #if defined(CONFIG_USB_HOST_NOTIFY) -/
  else if cfg.USB_HOST_NOTIFY = true ∧ (band val1 DEV_USB_OTG ≠ 0 ∧ adc = ADC_OTG) then
    let st := sm5502_set_otg client attach st
    extcon_set_cable_state Cable.USB_HOST attach st
  /- Desk Dock -/
  else if band val2 DEV_AV ≠ 0 ∨ band val3 DEV_AV_VBUS ≠ 0 then
    if band vbus DEV_VBUSIN_VALID ≠ 0 then
      sm5502_dock_control client Cable.DESKDOCK_VB attach SW_AUDIO st
    else
      sm5502_dock_control client Cable.DESKDOCK attach SW_AUDIO st
  /- MHL: #if defined(CONFIG_VIDEO_MHL_V2) -/
  else if cfg.VIDEO_MHL_V2 = true ∧ band val3 DEV_MHL ≠ 0 then
    let st := sm5502_disable_interrupt client st
    let st := if ¬ (cfg.poweroff_charging = true) then mhl_onoff_ex 1 st else st
    sm5502_enable_interrupt client st
  /- Car Dock -/
  else if band val2 DEV_JIG_UART_ON ≠ 0 then
    if cfg.SEC_FACTORY = true then
      sm5502_dock_control client Cable.CARDOCK attach SW_UART st
    else if cfg.MUIC_SUPPORT_RUSTPROOF = true then
      if st.usbsw.is_rustproof = true then
        muic_rustproof_feature client attach st
      else st
    else
      extcon_set_cable_state Cable.JIG_UARTON attach st
  /- Audio Dock: #if defined(CONFIG_USB_HOST_NOTIFY) -/
  else if cfg.USB_HOST_NOTIFY = true ∧ band val2 DEV_AUDIO_DOCK ≠ 0 then
    sm5502_dock_control client Cable.AUDIODOCK attach SW_DHOST st
  /- Incompatible -/
  else if band vbus DEV_VBUSIN_VALID ≠ 0 then
    extcon_set_cable_state Cable.INCOMPATIBLE attach st
  else st

def sm5502_attach_dev (cfg : Config) (client : I2cClient) (st : State) : Int × State :=
  let (val1, st) := i2c_smbus_read_byte_data client REG_DEVICE_TYPE1 st
  if val1 < 0 then (val1, st) else
  let (val2, st) := i2c_smbus_read_byte_data client REG_DEVICE_TYPE2 st
  if val2 < 0 then (val2, st) else
  let st := { st with usbsw := { st.usbsw with
    jig_state := if band val2 DEV_T2_JIG_ALL_MASK ≠ 0 then 1 else 0 } }
  let (val3, st) := i2c_smbus_read_byte_data client REG_DEVICE_TYPE3 st
  if val3 < 0 then (val3, st) else
  let (val4, st) := i2c_smbus_read_byte_data client REG_CARKIT_STATUS st
  if val4 < 0 then (val4, st) else
  let (vbus, st) := i2c_smbus_read_byte_data client REG_VBUSINVALID st
  if vbus < 0 then (vbus, st) else
  let (adc, st) := i2c_smbus_read_byte_data client REG_ADC st
  -- #if defined(CONFIG_USB_HOST_NOTIFY)
  let val2 := if cfg.USB_HOST_NOTIFY = true ∧ adc = ADC_AUDIO_DOCK then DEV_AUDIO_DOCK else val2
  let val1 := if cfg.USB_HOST_NOTIFY = true ∧ adc = ADC_AUDIO_DOCK then 0 else val1
  let st := sm5502_attach_dev_decision cfg client val1 val2 val3 val4 vbus adc st
  let st := { st with usbsw := { st.usbsw with
    dev1 := val1, dev2 := val2, dev3 := val3, adc := adc, vbus := vbus, carkit_dev := val4 } }
  (adc, st)

/-- The cable decision of `sm5502_detach_dev`: the `if ... else if` chain over the
retained fields of `usbsw` that precedes the control-register write. -/
def sm5502_detach_dev_decision (cfg : Config) (client : I2cClient) (st : State) : State :=
  let usbsw := st.usbsw
  /- USB -/
  if band usbsw.dev1 DEV_USB ≠ 0 ∨ band usbsw.dev2 DEV_T2_USB_MASK ≠ 0 ∨
      band usbsw.carkit_dev DEV_CARKIT_CHARGER1_MASK ≠ 0 then
    extcon_set_cable_state Cable.USB detach st
  else if band usbsw.dev1 DEV_USB_CHG ≠ 0 then
    extcon_set_cable_state Cable.CHARGE_DOWNSTREAM detach st
  /- D+,D-open -/
  else if band usbsw.dev3 DEV_NON_STANDARD ≠ 0 then
    extcon_set_cable_state Cable.USB detach st
  /- UART -/
  else if band usbsw.dev1 DEV_T1_UART_MASK ≠ 0 ∨ band usbsw.dev2 DEV_T2_UART_MASK ≠ 0 then
    if cfg.MUIC_SUPPORT_RUSTPROOF = true ∧ usbsw.is_rustproof = true then
      muic_rustproof_feature client detach st
    else
      let st :=
        if band usbsw.vbus DEV_VBUSIN_VALID ≠ 0 then
          extcon_set_cable_state Cable.JIG_UARTOFF_VB detach st
        else
          extcon_set_cable_state Cable.JIG_UARTOFF detach st
      { st with uart_sm5502_connecting := 0 }
  /- CHARGER -/
  else if band usbsw.dev1 DEV_T1_CHARGER_MASK ≠ 0 ∨
      band usbsw.dev3 DEV_T3_CHARGER_MASK ≠ 0 then
    extcon_set_cable_state Cable.TA detach st
  /- for SAMSUNG OTG: #if defined(CONFIG_USB_HOST_NOTIFY) -/
  else if cfg.USB_HOST_NOTIFY = true ∧ band usbsw.dev1 DEV_USB_OTG ≠ 0 then
    let st := sm5502_set_otg client detach st
    extcon_set_cable_state Cable.USB_HOST detach st
  /- Desk Dock -/
  else if band usbsw.dev2 DEV_AV ≠ 0 ∨ band usbsw.dev3 DEV_AV_VBUS ≠ 0 then
    if band usbsw.vbus DEV_VBUSIN_VALID ≠ 0 then
      sm5502_dock_control client Cable.DESKDOCK_VB detach SW_ALL_OPEN st
    else
      sm5502_dock_control client Cable.DESKDOCK detach SW_ALL_OPEN st
  /- MHL: #if defined(CONFIG_MHL_D3_SUPPORT) -/
  else if cfg.MHL_D3_SUPPORT = true ∧ band usbsw.dev3 DEV_MHL ≠ 0 then
    let st := mhl_onoff_ex 0 st
    extcon_set_cable_state Cable.MHL detach st
  /- Car Dock -/
  else if band usbsw.dev2 DEV_JIG_UART_ON ≠ 0 then
    if cfg.SEC_FACTORY = true then
      sm5502_dock_control client Cable.CARDOCK detach SW_ALL_OPEN st
    else if cfg.MUIC_SUPPORT_RUSTPROOF = true then
      if usbsw.is_rustproof = true then
        muic_rustproof_feature client detach st
      else st
    else
      extcon_set_cable_state Cable.JIG_UARTON detach st
  /- Audio Dock: #if defined(CONFIG_USB_HOST_NOTIFY) -/
  else if cfg.USB_HOST_NOTIFY = true ∧ band usbsw.dev2 DEV_AUDIO_DOCK ≠ 0 then
    sm5502_dock_control client Cable.AUDIODOCK detach SW_ALL_OPEN st
  /- Incompatible -/
  else if band usbsw.vbus DEV_VBUSIN_VALID ≠ 0 then
    extcon_set_cable_state Cable.INCOMPATIBLE detach st
  else st

def sm5502_detach_dev (cfg : Config) (client : I2cClient) (st : State) : Int × State :=
  let st := sm5502_detach_dev_decision cfg client st
  let (_, st) := i2c_smbus_write_byte_data client REG_CONTROL CON_MASK st
  let st := { st with usbsw := { st.usbsw with
    dev1 := 0, dev2 := 0, dev3 := 0, adc := 0, vbus := 0, carkit_dev := 0, jig_state := 0 } }
  (0, st)

def sm5502_irq_thread (cfg : Config) (client : I2cClient) (st : State) : State :=
  let st := mutex_lock st
  let st := sm5502_disable_interrupt client st
  let (intr1, st) := i2c_smbus_read_byte_data client REG_INT1 st
  let (intr2, st) := i2c_smbus_read_byte_data client REG_INT2 st
  let st := sm5502_enable_interrupt client st
  let (adc, st) := i2c_smbus_read_byte_data client REG_ADC st
  let st :=
    /- interrupt both attach and detach -/
    if intr1 = INT_ATTACH + INT_DETACH then
      let (val1, st) := i2c_smbus_read_byte_data client REG_DEVICE_TYPE1 st
      let (val3, st) := i2c_smbus_read_byte_data client REG_DEVICE_TYPE3 st
      let (vbus, st) := i2c_smbus_read_byte_data client REG_VBUSINVALID st
      if adc = ADC_OPEN ∧ val1 = DATA_NONE ∧ (val3 = DATA_NONE ∨ vbus = 0x00) then
        (sm5502_detach_dev cfg client st).2
      else
        (sm5502_attach_dev cfg client st).2
    /- interrupt attach -/
    else if band intr1 INT_ATTACH ≠ 0 ∨ band intr2 INT_RESERVED_ATTACH ≠ 0 then
      (sm5502_attach_dev cfg client st).2
    /- interrupt detach -/
    else if band intr1 INT_DETACH ≠ 0 then
      (sm5502_detach_dev cfg client st).2
    else if intr2 = INT_VBUSOUT_ON then
      let st := if cfg.USB_HOST_NOTIFY = true then sec_otg_notify true st else st
      if adc = ADC_JIG_UART_OFF then
        (sm5502_attach_dev cfg client st).2
      else if adc = ADC_DESKDOCK then
        extcon_set_cable_state Cable.TA attach st
      else st
    else if intr2 = INT_VBUSOUT_OFF then
      let st := if cfg.USB_HOST_NOTIFY = true then sec_otg_notify false st else st
      if adc = ADC_JIG_UART_OFF then
        (sm5502_detach_dev cfg client st).2
      else if adc = ADC_DESKDOCK then
        extcon_set_cable_state Cable.TA detach st
      else st
    else st
  mutex_unlock st

def sm5502_init_detect (cfg : Config) (client : I2cClient) (st : State) : State :=
  let st := mutex_lock st
  let (_, st) := sm5502_attach_dev cfg client st
  let st := mutex_unlock st
  let (_, st) := i2c_smbus_read_byte_data client REG_INT1 st
  let (_, st) := i2c_smbus_read_byte_data client REG_INT2 st
  st

def sm5502_resume (cfg : Config) (client : I2cClient) (st : State) : Int × State :=
  let (ldev1, st) := i2c_smbus_read_byte_data client REG_DEVICE_TYPE1 st
  if ldev1 < 0 then (0, st) else
  let (ldev2, st) := i2c_smbus_read_byte_data client REG_DEVICE_TYPE2 st
  if ldev2 < 0 then (0, st) else
  let (ldev3, st) := i2c_smbus_read_byte_data client REG_DEVICE_TYPE3 st
  if ldev3 < 0 then (0, st) else
  let (_, st) := i2c_smbus_read_byte_data client REG_INT1 st
  let (_, st) := i2c_smbus_read_byte_data client REG_INT2 st
  if st.usbsw.dev1 ≠ ldev1 ∨ st.usbsw.dev2 ≠ ldev2 ∨ st.usbsw.dev3 ≠ ldev3 then
    let st := mutex_lock st
    let (_, st) := sm5502_attach_dev cfg client st
    let st := mutex_unlock st
    (0, st)
  else (0, st)

/-- Compiled only with `CONFIG_MUIC_SUPPORT_RUSTPROOF`; `buf` is the text written
to the `uart_en` attribute. -/
def uart_en_store (cfg : Config) (client : I2cClient) (buf : List Char) (st : State) : State :=
  let st :=
    if buf.head? = some '1' then
      let st := { st with usbsw := { st.usbsw with is_rustproof := false } }
      muic_rustproof_feature client detach st
    else
      { st with usbsw := { st.usbsw with is_rustproof := true } }
  /- reinvoke the attach detection function to set proper paths -/
  (sm5502_attach_dev cfg client st).2

/-! ## Observations on traces and states -/

/-- The Cable Sink call an event is, if it is one. -/
def Event.cableCall : Event → Option (Cable × Bool)
  | Event.cable name state => some (name, state)
  | _ => none

/-- The register write `(reg, value)` an event is, if it is one. -/
def Event.regWrite : Event → Option (Nat × Nat)
  | Event.write reg value _ => some (reg, value)
  | _ => none

/-- The Cable Sink calls `(identity, attached)` of a trace, in order. -/
def cableCalls (es : List Event) : List (Cable × Bool) := es.filterMap Event.cableCall

/-- The register writes `(register, byte)` of a trace, in order. -/
def regWrites (es : List Event) : List (Nat × Nat) := es.filterMap Event.regWrite

/-- The events a run from `st` to `st'` appended to the trace. -/
def eventsSince (st st' : State) : List Event := st'.trace.drop st.trace.length

/-! ## Events of the helper routines and of the two decisions

Each list below is the sequence of events the routine of the same name appends
to the trace; the lemmas `*_eq` further down prove it. -/

def muic_rustproof_feature_events (client : I2cClient) (state : Int) : List Event :=
  if state ≠ 0 then
    [Event.write REG_MANUAL_SW1 (u8 SW_ALL_OPEN_WITH_VBUS)
        (client.write REG_MANUAL_SW1 (u8 SW_ALL_OPEN_WITH_VBUS)),
      Event.read REG_CONTROL (client.read REG_CONTROL),
      Event.write REG_CONTROL (u8 (band (client.read REG_CONTROL) 0xFB))
        (client.write REG_CONTROL (u8 (band (client.read REG_CONTROL) 0xFB)))]
  else
    [Event.write REG_MANUAL_SW2 (u8 0x00) (client.write REG_MANUAL_SW2 (u8 0x00)),
      Event.write REG_MANUAL_SW1 (u8 SW_ALL_OPEN) (client.write REG_MANUAL_SW1 (u8 SW_ALL_OPEN)),
      Event.read REG_CONTROL (client.read REG_CONTROL),
      Event.write REG_CONTROL (u8 (bor (client.read REG_CONTROL) 0x04))
        (client.write REG_CONTROL (u8 (bor (client.read REG_CONTROL) 0x04)))]

def sm5502_set_otg_events (client : I2cClient) (state : Int) : List Event :=
  if state = attach then
    [Event.write REG_MANUAL_SW1 (u8 0x25) (client.write REG_MANUAL_SW1 (u8 0x25)),
      Event.write REG_MANUAL_SW2 (u8 0x00) (client.write REG_MANUAL_SW2 (u8 0x00)),
      Event.read REG_CONTROL (client.read REG_CONTROL),
      Event.write REG_CONTROL (u8 (band (client.read REG_CONTROL) 0xFB))
        (client.write REG_CONTROL (u8 (band (client.read REG_CONTROL) 0xFB)))]
  else
    [Event.write REG_MANUAL_SW2 (u8 0x00) (client.write REG_MANUAL_SW2 (u8 0x00)),
      Event.write REG_MANUAL_SW1 (u8 SW_ALL_OPEN) (client.write REG_MANUAL_SW1 (u8 SW_ALL_OPEN)),
      Event.read REG_CONTROL (client.read REG_CONTROL),
      Event.write REG_CONTROL (u8 (bor (client.read REG_CONTROL) 0x04))
        (client.write REG_CONTROL (u8 (bor (client.read REG_CONTROL) 0x04)))]

def sm5502_dock_control_events (client : I2cClient) (dock_type : Cable) (state : Int)
    (path : Int) : List Event :=
  if state ≠ 0 then
    [Event.cable dock_type true,
      Event.write REG_MANUAL_SW1 (u8 path) (client.write REG_MANUAL_SW1 (u8 path)),
      Event.read REG_CONTROL (client.read REG_CONTROL)] ++
    (if client.read REG_CONTROL < 0 then []
     else [Event.write REG_CONTROL (u8 (band (client.read REG_CONTROL) (bnot CON_MANUAL_SW)))
        (client.write REG_CONTROL (u8 (band (client.read REG_CONTROL) (bnot CON_MANUAL_SW))))])
  else
    [Event.cable dock_type false,
      Event.read REG_CONTROL (client.read REG_CONTROL),
      Event.write REG_CONTROL (u8 (bor (bor (client.read REG_CONTROL) CON_MANUAL_SW) CON_RAW_DATA))
        (client.write REG_CONTROL
          (u8 (bor (bor (client.read REG_CONTROL) CON_MANUAL_SW) CON_RAW_DATA)))]

def sm5502_disable_interrupt_events (client : I2cClient) : List Event :=
  [Event.read REG_CONTROL (client.read REG_CONTROL),
    Event.write REG_CONTROL (u8 (bor (client.read REG_CONTROL) CON_INT_MASK))
      (client.write REG_CONTROL (u8 (bor (client.read REG_CONTROL) CON_INT_MASK)))]

def sm5502_enable_interrupt_events (client : I2cClient) : List Event :=
  [Event.read REG_CONTROL (client.read REG_CONTROL),
    Event.write REG_CONTROL (u8 (band (client.read REG_CONTROL) (bnot CON_INT_MASK)))
      (client.write REG_CONTROL (u8 (band (client.read REG_CONTROL) (bnot CON_INT_MASK))))]

/-- The MHL negotiation step of the attach pass: `mhl_onoff_ex(1)` unless
`poweroff_charging` is set. -/
def mhl_start_events (cfg : Config) : List Event :=
  if ¬ (cfg.poweroff_charging = true) then [Event.mhl_onoff true] else []

/-! ## The attach pass in three steps: reads, decision, store -/

/-- The value of `val1` when the attach decision starts (after the audio-dock
override compiled with `CONFIG_USB_HOST_NOTIFY`). -/
def attach_val1 (cfg : Config) (client : I2cClient) : Int :=
  if cfg.USB_HOST_NOTIFY = true ∧ client.read REG_ADC = ADC_AUDIO_DOCK then 0
  else client.read REG_DEVICE_TYPE1

/-- The value of `val2` when the attach decision starts (after the audio-dock
override compiled with `CONFIG_USB_HOST_NOTIFY`). -/
def attach_val2 (cfg : Config) (client : I2cClient) : Int :=
  if cfg.USB_HOST_NOTIFY = true ∧ client.read REG_ADC = ADC_AUDIO_DOCK then DEV_AUDIO_DOCK
  else client.read REG_DEVICE_TYPE2

/-- The value the attach pass writes to `usbsw->jig_state`. -/
def attach_jig (client : I2cClient) : Int :=
  if band (client.read REG_DEVICE_TYPE2) DEV_T2_JIG_ALL_MASK ≠ 0 then 1 else 0

/-- The six register reads of a complete attach pass. -/
def attach_reads (client : I2cClient) : List Event :=
  [Event.read REG_DEVICE_TYPE1 (client.read REG_DEVICE_TYPE1),
    Event.read REG_DEVICE_TYPE2 (client.read REG_DEVICE_TYPE2),
    Event.read REG_DEVICE_TYPE3 (client.read REG_DEVICE_TYPE3),
    Event.read REG_CARKIT_STATUS (client.read REG_CARKIT_STATUS),
    Event.read REG_VBUSINVALID (client.read REG_VBUSINVALID),
    Event.read REG_ADC (client.read REG_ADC)]

/-- The state in which the attach decision starts. -/
def attach_pre (client : I2cClient) (st : State) : State :=
  { st with
    usbsw := { st.usbsw with jig_state := attach_jig client }
    trace := st.trace ++ attach_reads client }

/-- The final assignments of the attach pass to the retained fields. -/
def attach_store (cfg : Config) (client : I2cClient) (st : State) : State :=
  { st with usbsw := { st.usbsw with
      dev1 := attach_val1 cfg client, dev2 := attach_val2 cfg client,
      dev3 := client.read REG_DEVICE_TYPE3, adc := client.read REG_ADC,
      vbus := client.read REG_VBUSINVALID, carkit_dev := client.read REG_CARKIT_STATUS } }

/-- The final assignments of the detach pass: the control-register write and
the zeroing of the retained fields. -/
def detach_store (client : I2cClient) (st : State) : State :=
  { st with
    usbsw := { st.usbsw with
      dev1 := 0, dev2 := 0, dev3 := 0, adc := 0, vbus := 0, carkit_dev := 0, jig_state := 0 }
    trace := st.trace ++
      [Event.write REG_CONTROL (u8 CON_MASK) (client.write REG_CONTROL (u8 CON_MASK))] }

/-- The identity the attach decision announces to the Cable Sink, if any:
the chain of `sm5502_attach_dev` with each branch replaced by the cable name it
passes to `extcon_set_cable_state` (`none` where the branch makes no call). -/
def attach_identity (cfg : Config) (is_rustproof : Bool)
    (val1 val2 val3 val4 vbus adc : Int) : Option Cable :=
  if band val1 DEV_USB ≠ 0 ∨ band val2 DEV_T2_USB_MASK ≠ 0 ∨
      band val4 DEV_CARKIT_CHARGER1_MASK ≠ 0 then some Cable.USB
  else if band val3 DEV_NON_STANDARD ≠ 0 then some Cable.USB
  else if band val1 DEV_USB_CHG ≠ 0 then some Cable.CHARGE_DOWNSTREAM
  else if band val1 DEV_T1_UART_MASK ≠ 0 ∨ band val2 DEV_T2_UART_MASK ≠ 0 then
    if cfg.MUIC_SUPPORT_RUSTPROOF = true ∧ is_rustproof = true then none
    else if band vbus DEV_VBUSIN_VALID ≠ 0 then some Cable.JIG_UARTOFF_VB
    else some Cable.JIG_UARTOFF
  else if band val1 DEV_T1_CHARGER_MASK ≠ 0 ∨ band val3 DEV_T3_CHARGER_MASK ≠ 0 then
    some Cable.TA
  else if cfg.USB_HOST_NOTIFY = true ∧ (band val1 DEV_USB_OTG ≠ 0 ∧ adc = ADC_OTG) then
    some Cable.USB_HOST
  else if band val2 DEV_AV ≠ 0 ∨ band val3 DEV_AV_VBUS ≠ 0 then
    if band vbus DEV_VBUSIN_VALID ≠ 0 then some Cable.DESKDOCK_VB else some Cable.DESKDOCK
  else if cfg.VIDEO_MHL_V2 = true ∧ band val3 DEV_MHL ≠ 0 then none
  else if band val2 DEV_JIG_UART_ON ≠ 0 then
    if cfg.SEC_FACTORY = true then some Cable.CARDOCK
    else if cfg.MUIC_SUPPORT_RUSTPROOF = true then none
    else some Cable.JIG_UARTON
  else if cfg.USB_HOST_NOTIFY = true ∧ band val2 DEV_AUDIO_DOCK ≠ 0 then some Cable.AUDIODOCK
  else if band vbus DEV_VBUSIN_VALID ≠ 0 then some Cable.INCOMPATIBLE
  else none

/-- The identity the detach decision retracts from the Cable Sink, if any: the
chain of `sm5502_detach_dev` over the retained fields with each branch replaced
by the cable name it passes to `extcon_set_cable_state`. -/
def detach_identity (cfg : Config) (usbsw : Usbsw) : Option Cable :=
  if band usbsw.dev1 DEV_USB ≠ 0 ∨ band usbsw.dev2 DEV_T2_USB_MASK ≠ 0 ∨
      band usbsw.carkit_dev DEV_CARKIT_CHARGER1_MASK ≠ 0 then some Cable.USB
  else if band usbsw.dev1 DEV_USB_CHG ≠ 0 then some Cable.CHARGE_DOWNSTREAM
  else if band usbsw.dev3 DEV_NON_STANDARD ≠ 0 then some Cable.USB
  else if band usbsw.dev1 DEV_T1_UART_MASK ≠ 0 ∨ band usbsw.dev2 DEV_T2_UART_MASK ≠ 0 then
    if cfg.MUIC_SUPPORT_RUSTPROOF = true ∧ usbsw.is_rustproof = true then none
    else if band usbsw.vbus DEV_VBUSIN_VALID ≠ 0 then some Cable.JIG_UARTOFF_VB
    else some Cable.JIG_UARTOFF
  else if band usbsw.dev1 DEV_T1_CHARGER_MASK ≠ 0 ∨
      band usbsw.dev3 DEV_T3_CHARGER_MASK ≠ 0 then some Cable.TA
  else if cfg.USB_HOST_NOTIFY = true ∧ band usbsw.dev1 DEV_USB_OTG ≠ 0 then
    some Cable.USB_HOST
  else if band usbsw.dev2 DEV_AV ≠ 0 ∨ band usbsw.dev3 DEV_AV_VBUS ≠ 0 then
    if band usbsw.vbus DEV_VBUSIN_VALID ≠ 0 then some Cable.DESKDOCK_VB
    else some Cable.DESKDOCK
  else if cfg.MHL_D3_SUPPORT = true ∧ band usbsw.dev3 DEV_MHL ≠ 0 then some Cable.MHL
  else if band usbsw.dev2 DEV_JIG_UART_ON ≠ 0 then
    if cfg.SEC_FACTORY = true then some Cable.CARDOCK
    else if cfg.MUIC_SUPPORT_RUSTPROOF = true then none
    else some Cable.JIG_UARTON
  else if cfg.USB_HOST_NOTIFY = true ∧ band usbsw.dev2 DEV_AUDIO_DOCK ≠ 0 then
    some Cable.AUDIODOCK
  else if band usbsw.vbus DEV_VBUSIN_VALID ≠ 0 then some Cable.INCOMPATIBLE
  else none

/-- The Cable Sink calls that report `identity` (if any) with the given state. -/
def announce (identity : Option Cable) (attached : Bool) : List (Cable × Bool) :=
  match identity with
  | some c => [(c, attached)]
  | none => []

/-- All five checked register reads of the attach pass succeed. -/
def attach_reads_ok (client : I2cClient) : Bool :=
  decide (0 ≤ client.read REG_DEVICE_TYPE1) && decide (0 ≤ client.read REG_DEVICE_TYPE2) &&
  decide (0 ≤ client.read REG_DEVICE_TYPE3) && decide (0 ≤ client.read REG_CARKIT_STATUS) &&
  decide (0 ≤ client.read REG_VBUSINVALID)

/-- The identity an attach pass over the registers of `client` announces. -/
def attach_pass_identity (cfg : Config) (client : I2cClient) (is_rustproof : Bool) :
    Option Cable :=
  if attach_reads_ok client = true then
    attach_identity cfg is_rustproof (attach_val1 cfg client) (attach_val2 cfg client)
      (client.read REG_DEVICE_TYPE3) (client.read REG_CARKIT_STATUS)
      (client.read REG_VBUSINVALID) (client.read REG_ADC)
  else none

/-! ## Session State and concrete inputs -/

/-- The Session State of the engine: the retained register snapshot and the
cached jig flag. -/
structure Session where
  dev1 : Int
  dev2 : Int
  dev3 : Int
  adc : Int
  vbus : Int
  carkit_dev : Int
  jig_state : Int
  deriving DecidableEq, Repr

/-- The Session State held in a driver state. -/
def State.session (st : State) : Session :=
  { dev1 := st.usbsw.dev1, dev2 := st.usbsw.dev2, dev3 := st.usbsw.dev3,
    adc := st.usbsw.adc, vbus := st.usbsw.vbus, carkit_dev := st.usbsw.carkit_dev,
    jig_state := check_sm5502_jig_state st }

/-- The empty Session State: every retained field and the jig flag zero. -/
def Session.empty : Session :=
  { dev1 := 0, dev2 := 0, dev3 := 0, adc := 0, vbus := 0, carkit_dev := 0, jig_state := 0 }

/-- The engine at initialisation: zeroed instance with the given override
setting, flag `uart_sm5502_connecting` zero, nothing observed yet. -/
def State.init (is_rustproof : Bool) : State :=
  { usbsw := { Usbsw.zero with is_rustproof := is_rustproof },
    uart_sm5502_connecting := 0, trace := [] }

/-- A device whose registers hold the given contents (any other register reads
zero) and on which every write succeeds. -/
def regFile (dt1 dt2 dt3 carkit vbus adc control : Int) : I2cClient :=
  { read := fun reg =>
      if reg = REG_DEVICE_TYPE1 then dt1
      else if reg = REG_DEVICE_TYPE2 then dt2
      else if reg = REG_DEVICE_TYPE3 then dt3
      else if reg = REG_CARKIT_STATUS then carkit
      else if reg = REG_VBUSINVALID then vbus
      else if reg = REG_ADC then adc
      else if reg = REG_CONTROL then control
      else 0
    write := fun _ _ => 0 }

/-- The build with none of the optional `CONFIG_*` symbols defined. -/
def Config.plain : Config :=
  { USB_HOST_NOTIFY := false, MUIC_SUPPORT_RUSTPROOF := false, VIDEO_MHL_V2 := false,
    MHL_D3_SUPPORT := false, SEC_FACTORY := false, poweroff_charging := false }

/-- The build with `CONFIG_USB_HOST_NOTIFY` and `CONFIG_MUIC_SUPPORT_RUSTPROOF`. -/
def Config.host_rustproof : Config :=
  { USB_HOST_NOTIFY := true, MUIC_SUPPORT_RUSTPROOF := true, VIDEO_MHL_V2 := false,
    MHL_D3_SUPPORT := false, SEC_FACTORY := false, poweroff_charging := false }

/-! ## Sequences of passes and the single-slot Cable Sink -/

/-- One classify pass of a sequence, with the device contents it runs against. -/
inductive Pass
  | attach (client : I2cClient)
  | detach (client : I2cClient)

/-- Run one pass. -/
def run_pass (cfg : Config) : Pass → State → State
  | Pass.attach client, st => (sm5502_attach_dev cfg client st).2
  | Pass.detach client, st => (sm5502_detach_dev cfg client st).2

/-- Run a sequence of passes, first to last. -/
def run_passes (cfg : Config) : List Pass → State → State
  | [], st => st
  | p :: ps, st => run_passes cfg ps (run_pass cfg p st)

/-- The identities attached in the Cable Sink after one more call. -/
def sink_next (attached : List Cable) (call : Cable × Bool) : List Cable :=
  if call.2 = true then call.1 :: attached.filter (fun d => decide (d ≠ call.1))
  else attached.filter (fun d => decide (d ≠ call.1))

/-- The single-slot discipline of the Cable Sink: starting with the identities
`attached`, no call reports an identity attached while a different identity is
still attached (reported attached earlier and not retracted since). -/
def single_slot (attached : List Cable) : List (Cable × Bool) → Bool
  | [] => true
  | call :: rest =>
    (if call.2 = true then attached.all (fun d => decide (d = call.1)) else true) &&
      single_slot (sink_next attached call) rest

/-- No attach pass directly follows another attach pass (`after_attach` tells
whether the pass before the list was an attach pass). -/
def alternating (after_attach : Bool) : List Pass → Bool
  | [] => true
  | Pass.attach _ :: rest => !after_attach && alternating true rest
  | Pass.detach _ :: rest => alternating false rest

/-- The snapshot shows none of the patterns on which the detach chain takes a
different branch from the attach chain: the non-standard bit together with the
CDP bit; with `CONFIG_USB_HOST_NOTIFY`, the OTG bit with an ADC code other than
OTG; with `CONFIG_VIDEO_MHL_V2` or `CONFIG_MHL_D3_SUPPORT`, the MHL bit. -/
def mirror_safe (cfg : Config) (client : I2cClient) : Bool :=
  !(decide (band (client.read REG_DEVICE_TYPE3) DEV_NON_STANDARD ≠ 0) &&
      decide (band (client.read REG_DEVICE_TYPE1) DEV_USB_CHG ≠ 0)) &&
  (!cfg.USB_HOST_NOTIFY || decide (band (client.read REG_DEVICE_TYPE1) DEV_USB_OTG = 0) ||
      decide (client.read REG_ADC = ADC_OTG)) &&
  (!(cfg.VIDEO_MHL_V2 || cfg.MHL_D3_SUPPORT) ||
      decide (band (client.read REG_DEVICE_TYPE3) DEV_MHL = 0))

/-- Every attach pass of the sequence runs on a `mirror_safe` snapshot. -/
def Pass.mirror_safe (cfg : Config) : Pass → Bool
  | Pass.attach client => SM5502.mirror_safe cfg client
  | Pass.detach _ => true

/-! ## Register writes and driver fields of the attach decision

The lists below are the `(register, byte)` pairs a routine writes, as a function
of the value `ctrl` it reads from the control register; the outcome of a write
does not occur in them. -/

def muic_rustproof_feature_writes (ctrl : Int) (state : Int) : List (Nat × Nat) :=
  if state ≠ 0 then
    [(REG_MANUAL_SW1, u8 SW_ALL_OPEN_WITH_VBUS), (REG_CONTROL, u8 (band ctrl 0xFB))]
  else
    [(REG_MANUAL_SW2, u8 0x00), (REG_MANUAL_SW1, u8 SW_ALL_OPEN),
      (REG_CONTROL, u8 (bor ctrl 0x04))]

def sm5502_set_otg_writes (ctrl : Int) (state : Int) : List (Nat × Nat) :=
  if state = attach then
    [(REG_MANUAL_SW1, u8 0x25), (REG_MANUAL_SW2, u8 0x00), (REG_CONTROL, u8 (band ctrl 0xFB))]
  else
    [(REG_MANUAL_SW2, u8 0x00), (REG_MANUAL_SW1, u8 SW_ALL_OPEN),
      (REG_CONTROL, u8 (bor ctrl 0x04))]

def sm5502_dock_control_writes (ctrl : Int) (state : Int) (path : Int) : List (Nat × Nat) :=
  if state ≠ 0 then
    (REG_MANUAL_SW1, u8 path) ::
      (if ctrl < 0 then [] else [(REG_CONTROL, u8 (band ctrl (bnot CON_MANUAL_SW)))])
  else [(REG_CONTROL, u8 (bor (bor ctrl CON_MANUAL_SW) CON_RAW_DATA))]

/-- The register writes of the attach decision: the chain of
`sm5502_attach_dev` with each branch replaced by the writes it performs. -/
def attach_decision_writes (cfg : Config) (is_rustproof : Bool) (ctrl : Int)
    (val1 val2 val3 val4 vbus adc : Int) : List (Nat × Nat) :=
  if band val1 DEV_USB ≠ 0 ∨ band val2 DEV_T2_USB_MASK ≠ 0 ∨
      band val4 DEV_CARKIT_CHARGER1_MASK ≠ 0 then []
  else if band val3 DEV_NON_STANDARD ≠ 0 then []
  else if band val1 DEV_USB_CHG ≠ 0 then []
  else if band val1 DEV_T1_UART_MASK ≠ 0 ∨ band val2 DEV_T2_UART_MASK ≠ 0 then
    if cfg.MUIC_SUPPORT_RUSTPROOF = true ∧ is_rustproof = true then
      muic_rustproof_feature_writes ctrl attach
    else [(REG_MANUAL_SW1, u8 SW_UART)]
  else if band val1 DEV_T1_CHARGER_MASK ≠ 0 ∨ band val3 DEV_T3_CHARGER_MASK ≠ 0 then []
  else if cfg.USB_HOST_NOTIFY = true ∧ (band val1 DEV_USB_OTG ≠ 0 ∧ adc = ADC_OTG) then
    sm5502_set_otg_writes ctrl attach
  else if band val2 DEV_AV ≠ 0 ∨ band val3 DEV_AV_VBUS ≠ 0 then
    sm5502_dock_control_writes ctrl attach SW_AUDIO
  else if cfg.VIDEO_MHL_V2 = true ∧ band val3 DEV_MHL ≠ 0 then
    [(REG_CONTROL, u8 (bor ctrl CON_INT_MASK)),
      (REG_CONTROL, u8 (band ctrl (bnot CON_INT_MASK)))]
  else if band val2 DEV_JIG_UART_ON ≠ 0 then
    if cfg.SEC_FACTORY = true then sm5502_dock_control_writes ctrl attach SW_UART
    else if cfg.MUIC_SUPPORT_RUSTPROOF = true then
      if is_rustproof = true then muic_rustproof_feature_writes ctrl attach else []
    else []
  else if cfg.USB_HOST_NOTIFY = true ∧ band val2 DEV_AUDIO_DOCK ≠ 0 then
    sm5502_dock_control_writes ctrl attach SW_DHOST
  else if band vbus DEV_VBUSIN_VALID ≠ 0 then []
  else []

/-- The value of `usbsw->mansw` after the attach decision, `old` being the value
before it. -/
def attach_decision_mansw (cfg : Config) (val1 val2 val3 val4 adc : Int) (old : Int) : Int :=
  if band val1 DEV_USB ≠ 0 ∨ band val2 DEV_T2_USB_MASK ≠ 0 ∨
      band val4 DEV_CARKIT_CHARGER1_MASK ≠ 0 then old
  else if band val3 DEV_NON_STANDARD ≠ 0 then old
  else if band val1 DEV_USB_CHG ≠ 0 then old
  else if band val1 DEV_T1_UART_MASK ≠ 0 ∨ band val2 DEV_T2_UART_MASK ≠ 0 then old
  else if band val1 DEV_T1_CHARGER_MASK ≠ 0 ∨ band val3 DEV_T3_CHARGER_MASK ≠ 0 then old
  else if cfg.USB_HOST_NOTIFY = true ∧ (band val1 DEV_USB_OTG ≠ 0 ∧ adc = ADC_OTG) then old
  else if band val2 DEV_AV ≠ 0 ∨ band val3 DEV_AV_VBUS ≠ 0 then SW_AUDIO
  else if cfg.VIDEO_MHL_V2 = true ∧ band val3 DEV_MHL ≠ 0 then old
  else if band val2 DEV_JIG_UART_ON ≠ 0 then
    if cfg.SEC_FACTORY = true then SW_UART else old
  else if cfg.USB_HOST_NOTIFY = true ∧ band val2 DEV_AUDIO_DOCK ≠ 0 then SW_DHOST
  else old

/-- The value of `uart_sm5502_connecting` after the attach decision, `old` being
the value before it. -/
def attach_decision_uart (val1 val2 val3 val4 : Int) (old : Int) : Int :=
  if band val1 DEV_USB ≠ 0 ∨ band val2 DEV_T2_USB_MASK ≠ 0 ∨
      band val4 DEV_CARKIT_CHARGER1_MASK ≠ 0 then old
  else if band val3 DEV_NON_STANDARD ≠ 0 then old
  else if band val1 DEV_USB_CHG ≠ 0 then old
  else if band val1 DEV_T1_UART_MASK ≠ 0 ∨ band val2 DEV_T2_UART_MASK ≠ 0 then 1
  else old

/-- The register writes of an attach pass over the registers of `client`. -/
def attach_pass_writes (cfg : Config) (client : I2cClient) (is_rustproof : Bool) :
    List (Nat × Nat) :=
  if attach_reads_ok client = true then
    attach_decision_writes cfg is_rustproof (client.read REG_CONTROL) (attach_val1 cfg client)
      (attach_val2 cfg client) (client.read REG_DEVICE_TYPE3) (client.read REG_CARKIT_STATUS)
      (client.read REG_VBUSINVALID) (client.read REG_ADC)
  else []

/-- The instance fields after an attach pass over the registers of `client`,
`u` being the fields before it. -/
def attach_pass_usbsw (cfg : Config) (client : I2cClient) (u : Usbsw) : Usbsw :=
  if client.read REG_DEVICE_TYPE1 < 0 ∨ client.read REG_DEVICE_TYPE2 < 0 then u
  else if attach_reads_ok client = true then
    { u with
      dev1 := attach_val1 cfg client, dev2 := attach_val2 cfg client,
      dev3 := client.read REG_DEVICE_TYPE3, adc := client.read REG_ADC,
      vbus := client.read REG_VBUSINVALID, carkit_dev := client.read REG_CARKIT_STATUS,
      jig_state := attach_jig client,
      mansw := attach_decision_mansw cfg (attach_val1 cfg client) (attach_val2 cfg client)
        (client.read REG_DEVICE_TYPE3) (client.read REG_CARKIT_STATUS) (client.read REG_ADC)
        u.mansw }
  else { u with jig_state := attach_jig client }

/-- The value of `uart_sm5502_connecting` after an attach pass. -/
def attach_pass_uart (cfg : Config) (client : I2cClient) (old : Int) : Int :=
  if attach_reads_ok client = true then
    attach_decision_uart (attach_val1 cfg client) (attach_val2 cfg client)
      (client.read REG_DEVICE_TYPE3) (client.read REG_CARKIT_STATUS) old
  else old

/-- The value an attach pass returns: the code of the first failing checked
read, else the ADC read. -/
def attach_pass_ret (client : I2cClient) : Int :=
  if client.read REG_DEVICE_TYPE1 < 0 then client.read REG_DEVICE_TYPE1
  else if client.read REG_DEVICE_TYPE2 < 0 then client.read REG_DEVICE_TYPE2
  else if client.read REG_DEVICE_TYPE3 < 0 then client.read REG_DEVICE_TYPE3
  else if client.read REG_CARKIT_STATUS < 0 then client.read REG_CARKIT_STATUS
  else if client.read REG_VBUSINVALID < 0 then client.read REG_VBUSINVALID
  else client.read REG_ADC

/-- The register writes of the detach decision: the chain of `sm5502_detach_dev`
with each branch replaced by the writes it performs. -/
def detach_decision_writes (cfg : Config) (usbsw : Usbsw) (ctrl : Int) : List (Nat × Nat) :=
  if band usbsw.dev1 DEV_USB ≠ 0 ∨ band usbsw.dev2 DEV_T2_USB_MASK ≠ 0 ∨
      band usbsw.carkit_dev DEV_CARKIT_CHARGER1_MASK ≠ 0 then []
  else if band usbsw.dev1 DEV_USB_CHG ≠ 0 then []
  else if band usbsw.dev3 DEV_NON_STANDARD ≠ 0 then []
  else if band usbsw.dev1 DEV_T1_UART_MASK ≠ 0 ∨ band usbsw.dev2 DEV_T2_UART_MASK ≠ 0 then
    if cfg.MUIC_SUPPORT_RUSTPROOF = true ∧ usbsw.is_rustproof = true then
      muic_rustproof_feature_writes ctrl detach
    else []
  else if band usbsw.dev1 DEV_T1_CHARGER_MASK ≠ 0 ∨
      band usbsw.dev3 DEV_T3_CHARGER_MASK ≠ 0 then []
  else if cfg.USB_HOST_NOTIFY = true ∧ band usbsw.dev1 DEV_USB_OTG ≠ 0 then
    sm5502_set_otg_writes ctrl detach
  else if band usbsw.dev2 DEV_AV ≠ 0 ∨ band usbsw.dev3 DEV_AV_VBUS ≠ 0 then
    sm5502_dock_control_writes ctrl detach SW_ALL_OPEN
  else if cfg.MHL_D3_SUPPORT = true ∧ band usbsw.dev3 DEV_MHL ≠ 0 then []
  else if band usbsw.dev2 DEV_JIG_UART_ON ≠ 0 then
    if cfg.SEC_FACTORY = true then sm5502_dock_control_writes ctrl detach SW_ALL_OPEN
    else if cfg.MUIC_SUPPORT_RUSTPROOF = true then
      if usbsw.is_rustproof = true then muic_rustproof_feature_writes ctrl detach else []
    else []
  else if cfg.USB_HOST_NOTIFY = true ∧ band usbsw.dev2 DEV_AUDIO_DOCK ≠ 0 then
    sm5502_dock_control_writes ctrl detach SW_ALL_OPEN
  else if band usbsw.vbus DEV_VBUSIN_VALID ≠ 0 then []
  else []

/-- The value of `uart_sm5502_connecting` after the detach decision, `old` being
the value before it. -/
def detach_decision_uart (cfg : Config) (usbsw : Usbsw) (old : Int) : Int :=
  if band usbsw.dev1 DEV_USB ≠ 0 ∨ band usbsw.dev2 DEV_T2_USB_MASK ≠ 0 ∨
      band usbsw.carkit_dev DEV_CARKIT_CHARGER1_MASK ≠ 0 then old
  else if band usbsw.dev1 DEV_USB_CHG ≠ 0 then old
  else if band usbsw.dev3 DEV_NON_STANDARD ≠ 0 then old
  else if band usbsw.dev1 DEV_T1_UART_MASK ≠ 0 ∨ band usbsw.dev2 DEV_T2_UART_MASK ≠ 0 then
    if cfg.MUIC_SUPPORT_RUSTPROOF = true ∧ usbsw.is_rustproof = true then old else 0
  else old

/-- The instance fields after a detach pass: the seven retained fields zeroed. -/
def detach_pass_usbsw (u : Usbsw) : Usbsw :=
  { u with
    dev1 := 0, dev2 := 0, dev3 := 0, adc := 0, vbus := 0, carkit_dev := 0, jig_state := 0 }

/-- The build with `CONFIG_MUIC_SUPPORT_RUSTPROOF` only. -/
def Config.rustproof : Config :=
  { USB_HOST_NOTIFY := false, MUIC_SUPPORT_RUSTPROOF := true, VIDEO_MHL_V2 := false,
    MHL_D3_SUPPORT := false, SEC_FACTORY := false, poweroff_charging := false }

/-! ## The dispatcher in steps: prologue, decision, unlock -/

/-- The events of the dispatcher before it decides: the lock, the two
interrupt-status reads between masking and unmasking the interrupt, and the ADC
read. -/
def irq_prologue (client : I2cClient) : List Event :=
  [Event.mutex_lock] ++ sm5502_disable_interrupt_events client ++
    [Event.read REG_INT1 (client.read REG_INT1), Event.read REG_INT2 (client.read REG_INT2)] ++
    sm5502_enable_interrupt_events client ++ [Event.read REG_ADC (client.read REG_ADC)]

/-- The three further reads of the dispatcher when both the attach and the
detach interrupt are pending. -/
def irq_both_reads (client : I2cClient) : List Event :=
  [Event.read REG_DEVICE_TYPE1 (client.read REG_DEVICE_TYPE1),
    Event.read REG_DEVICE_TYPE3 (client.read REG_DEVICE_TYPE3),
    Event.read REG_VBUSINVALID (client.read REG_VBUSINVALID)]

/-- The state in which the dispatcher decides. -/
def irq_pre (client : I2cClient) (st : State) : State :=
  { st with trace := st.trace ++ irq_prologue client }

/-- The state in which the dispatcher decides when both the attach and the
detach interrupt are pending. -/
def irq_pre_both (client : I2cClient) (st : State) : State :=
  { st with trace := st.trace ++ (irq_prologue client ++ irq_both_reads client) }

/-- The call of `sec_otg_notify` in the two VBUS branches of the dispatcher,
compiled only with `CONFIG_USB_HOST_NOTIFY`. -/
def irq_otg_notify (cfg : Config) (power_on : Bool) (st : State) : State :=
  if cfg.USB_HOST_NOTIFY = true then sec_otg_notify power_on st else st

/-- The device `base` with the given contents of the two interrupt-status
registers. -/
def irqFile (intr1 intr2 : Int) (base : I2cClient) : I2cClient :=
  { read := fun reg =>
      if reg = REG_INT1 then intr1
      else if reg = REG_INT2 then intr2
      else base.read reg
    write := base.write }

/-- The events of `irq_otg_notify`. -/
def irq_otg_events (cfg : Config) (power_on : Bool) : List Event :=
  if cfg.USB_HOST_NOTIFY = true then [Event.otg_notify power_on] else []

/-- The device `base` with every register write failing with `-EIO`. -/
def writesFail (base : I2cClient) : I2cClient :=
  { read := base.read, write := fun _ _ => -5 }

/-- The identity the attach chain selects on `val1 = 0`, `val2 = DEV_AUDIO_DOCK`,
the values the audio-dock override puts in place of the two device-type
registers: what is left of the chain of `sm5502_attach_dev` when every test of
`val1` and `val2` is decided. -/
def audio_dock_adc_identity (cfg : Config) (val3 val4 vbus : Int) : Option Cable :=
  if band val4 DEV_CARKIT_CHARGER1_MASK ≠ 0 then some Cable.USB
  else if band val3 DEV_NON_STANDARD ≠ 0 then some Cable.USB
  else if band val3 DEV_T3_CHARGER_MASK ≠ 0 then some Cable.TA
  else if band val3 DEV_AV_VBUS ≠ 0 then
    if band vbus DEV_VBUSIN_VALID ≠ 0 then some Cable.DESKDOCK_VB else some Cable.DESKDOCK
  else if cfg.VIDEO_MHL_V2 = true ∧ band val3 DEV_MHL ≠ 0 then none
  else some Cable.AUDIODOCK

/-- The build with `CONFIG_VIDEO_MHL_V2` and `CONFIG_MHL_D3_SUPPORT`. -/
def Config.mhl : Config :=
  { USB_HOST_NOTIFY := false, MUIC_SUPPORT_RUSTPROOF := false, VIDEO_MHL_V2 := true,
    MHL_D3_SUPPORT := true, SEC_FACTORY := false, poweroff_charging := false }

/-- A device on which every register read and write fails with `-EIO`. -/
def deadBus : I2cClient :=
  { read := fun _ => -5, write := fun _ _ => -5 }

/-- The events of a trace that happen while `usbsw->mutex` is not held; `held`
tells whether it is held when the trace starts. The lock and unlock events
themselves are left out. -/
def outsideLock : Bool → List Event → List Event
  | _, [] => []
  | held, e :: es =>
    match e with
    | Event.mutex_lock => outsideLock true es
    | Event.mutex_unlock => outsideLock false es
    | _ => if held then outsideLock held es else e :: outsideLock held es

/-! # Theorems -/

/-! ## The helper routines append their events and keep the driver state -/

theorem extcon_attach_eq (name : Cable) (st : State) :
    extcon_set_cable_state name attach st =
      { st with trace := st.trace ++ [Event.cable name true] } := by
  simp [extcon_set_cable_state, attach]

theorem extcon_detach_eq (name : Cable) (st : State) :
    extcon_set_cable_state name detach st =
      { st with trace := st.trace ++ [Event.cable name false] } := by
  simp [extcon_set_cable_state, detach]

theorem muic_rustproof_feature_eq (client : I2cClient) (state : Int) (st : State) :
    muic_rustproof_feature client state st =
      { st with trace := st.trace ++ muic_rustproof_feature_events client state } := by
  unfold muic_rustproof_feature muic_rustproof_feature_events
  by_cases h : state ≠ 0
  · rw [if_pos h, if_pos h]
    simp [i2c_smbus_write_byte_data, i2c_smbus_read_byte_data]
  · rw [if_neg h, if_neg h]
    simp [i2c_smbus_write_byte_data, i2c_smbus_read_byte_data]

theorem sm5502_set_otg_eq (client : I2cClient) (state : Int) (st : State) :
    sm5502_set_otg client state st =
      { st with trace := st.trace ++ sm5502_set_otg_events client state } := by
  unfold sm5502_set_otg sm5502_set_otg_events
  by_cases h : state = attach
  · rw [if_pos h, if_pos h]
    simp [i2c_smbus_write_byte_data, i2c_smbus_read_byte_data]
  · rw [if_neg h, if_neg h]
    simp [i2c_smbus_write_byte_data, i2c_smbus_read_byte_data]

theorem sm5502_dock_control_eq (client : I2cClient) (dock_type : Cable) (state path : Int)
    (st : State) :
    sm5502_dock_control client dock_type state path st =
      { st with
        usbsw := if state ≠ 0 then { st.usbsw with mansw := path } else st.usbsw
        trace := st.trace ++ sm5502_dock_control_events client dock_type state path } := by
  unfold sm5502_dock_control sm5502_dock_control_events
  by_cases h : state ≠ 0
  · rw [if_pos h, if_pos h, if_pos h]
    by_cases hr : client.read REG_CONTROL < 0
    · simp [i2c_smbus_write_byte_data, i2c_smbus_read_byte_data, extcon_set_cable_state, h, hr]
    · simp [i2c_smbus_write_byte_data, i2c_smbus_read_byte_data, extcon_set_cable_state, h, hr]
  · rw [if_neg h, if_neg h, if_neg h]
    have h0 : state = 0 := not_not.mp h
    simp [i2c_smbus_write_byte_data, i2c_smbus_read_byte_data, extcon_set_cable_state, h0]

theorem sm5502_disable_interrupt_eq (client : I2cClient) (st : State) :
    sm5502_disable_interrupt client st =
      { st with trace := st.trace ++ sm5502_disable_interrupt_events client } := by
  simp [sm5502_disable_interrupt, sm5502_disable_interrupt_events,
    i2c_smbus_write_byte_data, i2c_smbus_read_byte_data]

theorem sm5502_enable_interrupt_eq (client : I2cClient) (st : State) :
    sm5502_enable_interrupt client st =
      { st with trace := st.trace ++ sm5502_enable_interrupt_events client } := by
  simp [sm5502_enable_interrupt, sm5502_enable_interrupt_events,
    i2c_smbus_write_byte_data, i2c_smbus_read_byte_data]

/-- Case rule for the attach decision: a property holds of the state the chain
returns as soon as it holds of the state each branch returns, under the
conditions that lead to the branch. -/
theorem attach_decision_cases (cfg : Config) (client : I2cClient)
    (val1 val2 val3 val4 vbus adc : Int) (st : State) (P : State → Prop)
    (h_usb : (band val1 DEV_USB ≠ 0 ∨ band val2 DEV_T2_USB_MASK ≠ 0 ∨
        band val4 DEV_CARKIT_CHARGER1_MASK ≠ 0) →
      P { st with trace := st.trace ++ [Event.cable Cable.USB true] })
    (h_nonstd : ¬ (band val1 DEV_USB ≠ 0 ∨ band val2 DEV_T2_USB_MASK ≠ 0 ∨
        band val4 DEV_CARKIT_CHARGER1_MASK ≠ 0) →
      band val3 DEV_NON_STANDARD ≠ 0 →
      P { st with trace := st.trace ++ [Event.cable Cable.USB true] })
    (h_cdp : ¬ (band val1 DEV_USB ≠ 0 ∨ band val2 DEV_T2_USB_MASK ≠ 0 ∨
        band val4 DEV_CARKIT_CHARGER1_MASK ≠ 0) →
      ¬ band val3 DEV_NON_STANDARD ≠ 0 →
      band val1 DEV_USB_CHG ≠ 0 →
      P { st with trace := st.trace ++ [Event.cable Cable.CHARGE_DOWNSTREAM true] })
    (h_uart_rustproof : ¬ (band val1 DEV_USB ≠ 0 ∨ band val2 DEV_T2_USB_MASK ≠ 0 ∨
        band val4 DEV_CARKIT_CHARGER1_MASK ≠ 0) →
      ¬ band val3 DEV_NON_STANDARD ≠ 0 →
      ¬ band val1 DEV_USB_CHG ≠ 0 →
      (band val1 DEV_T1_UART_MASK ≠ 0 ∨ band val2 DEV_T2_UART_MASK ≠ 0) →
      (cfg.MUIC_SUPPORT_RUSTPROOF = true ∧ st.usbsw.is_rustproof = true) →
      P { st with
        uart_sm5502_connecting := 1
        trace := st.trace ++ muic_rustproof_feature_events client attach })
    (h_uart_vb : ¬ (band val1 DEV_USB ≠ 0 ∨ band val2 DEV_T2_USB_MASK ≠ 0 ∨
        band val4 DEV_CARKIT_CHARGER1_MASK ≠ 0) →
      ¬ band val3 DEV_NON_STANDARD ≠ 0 →
      ¬ band val1 DEV_USB_CHG ≠ 0 →
      (band val1 DEV_T1_UART_MASK ≠ 0 ∨ band val2 DEV_T2_UART_MASK ≠ 0) →
      ¬ (cfg.MUIC_SUPPORT_RUSTPROOF = true ∧ st.usbsw.is_rustproof = true) →
      band vbus DEV_VBUSIN_VALID ≠ 0 →
      P { st with
        uart_sm5502_connecting := 1
        trace := st.trace ++
          [Event.write REG_MANUAL_SW1 (u8 SW_UART) (client.write REG_MANUAL_SW1 (u8 SW_UART)),
            Event.cable Cable.JIG_UARTOFF_VB true] })
    (h_uart : ¬ (band val1 DEV_USB ≠ 0 ∨ band val2 DEV_T2_USB_MASK ≠ 0 ∨
        band val4 DEV_CARKIT_CHARGER1_MASK ≠ 0) →
      ¬ band val3 DEV_NON_STANDARD ≠ 0 →
      ¬ band val1 DEV_USB_CHG ≠ 0 →
      (band val1 DEV_T1_UART_MASK ≠ 0 ∨ band val2 DEV_T2_UART_MASK ≠ 0) →
      ¬ (cfg.MUIC_SUPPORT_RUSTPROOF = true ∧ st.usbsw.is_rustproof = true) →
      ¬ band vbus DEV_VBUSIN_VALID ≠ 0 →
      P { st with
        uart_sm5502_connecting := 1
        trace := st.trace ++
          [Event.write REG_MANUAL_SW1 (u8 SW_UART) (client.write REG_MANUAL_SW1 (u8 SW_UART)),
            Event.cable Cable.JIG_UARTOFF true] })
    (h_charger : ¬ (band val1 DEV_USB ≠ 0 ∨ band val2 DEV_T2_USB_MASK ≠ 0 ∨
        band val4 DEV_CARKIT_CHARGER1_MASK ≠ 0) →
      ¬ band val3 DEV_NON_STANDARD ≠ 0 →
      ¬ band val1 DEV_USB_CHG ≠ 0 →
      ¬ (band val1 DEV_T1_UART_MASK ≠ 0 ∨ band val2 DEV_T2_UART_MASK ≠ 0) →
      (band val1 DEV_T1_CHARGER_MASK ≠ 0 ∨ band val3 DEV_T3_CHARGER_MASK ≠ 0) →
      P { st with trace := st.trace ++ [Event.cable Cable.TA true] })
    (h_otg : ¬ (band val1 DEV_USB ≠ 0 ∨ band val2 DEV_T2_USB_MASK ≠ 0 ∨
        band val4 DEV_CARKIT_CHARGER1_MASK ≠ 0) →
      ¬ band val3 DEV_NON_STANDARD ≠ 0 →
      ¬ band val1 DEV_USB_CHG ≠ 0 →
      ¬ (band val1 DEV_T1_UART_MASK ≠ 0 ∨ band val2 DEV_T2_UART_MASK ≠ 0) →
      ¬ (band val1 DEV_T1_CHARGER_MASK ≠ 0 ∨ band val3 DEV_T3_CHARGER_MASK ≠ 0) →
      (cfg.USB_HOST_NOTIFY = true ∧ (band val1 DEV_USB_OTG ≠ 0 ∧ adc = ADC_OTG)) →
      P { st with trace := st.trace ++
        (sm5502_set_otg_events client attach ++ [Event.cable Cable.USB_HOST true]) })
    (h_deskdock_vb : ¬ (band val1 DEV_USB ≠ 0 ∨ band val2 DEV_T2_USB_MASK ≠ 0 ∨
        band val4 DEV_CARKIT_CHARGER1_MASK ≠ 0) →
      ¬ band val3 DEV_NON_STANDARD ≠ 0 →
      ¬ band val1 DEV_USB_CHG ≠ 0 →
      ¬ (band val1 DEV_T1_UART_MASK ≠ 0 ∨ band val2 DEV_T2_UART_MASK ≠ 0) →
      ¬ (band val1 DEV_T1_CHARGER_MASK ≠ 0 ∨ band val3 DEV_T3_CHARGER_MASK ≠ 0) →
      ¬ (cfg.USB_HOST_NOTIFY = true ∧ (band val1 DEV_USB_OTG ≠ 0 ∧ adc = ADC_OTG)) →
      (band val2 DEV_AV ≠ 0 ∨ band val3 DEV_AV_VBUS ≠ 0) →
      band vbus DEV_VBUSIN_VALID ≠ 0 →
      P { st with
        usbsw := { st.usbsw with mansw := SW_AUDIO }
        trace := st.trace ++
          sm5502_dock_control_events client Cable.DESKDOCK_VB attach SW_AUDIO })
    (h_deskdock : ¬ (band val1 DEV_USB ≠ 0 ∨ band val2 DEV_T2_USB_MASK ≠ 0 ∨
        band val4 DEV_CARKIT_CHARGER1_MASK ≠ 0) →
      ¬ band val3 DEV_NON_STANDARD ≠ 0 →
      ¬ band val1 DEV_USB_CHG ≠ 0 →
      ¬ (band val1 DEV_T1_UART_MASK ≠ 0 ∨ band val2 DEV_T2_UART_MASK ≠ 0) →
      ¬ (band val1 DEV_T1_CHARGER_MASK ≠ 0 ∨ band val3 DEV_T3_CHARGER_MASK ≠ 0) →
      ¬ (cfg.USB_HOST_NOTIFY = true ∧ (band val1 DEV_USB_OTG ≠ 0 ∧ adc = ADC_OTG)) →
      (band val2 DEV_AV ≠ 0 ∨ band val3 DEV_AV_VBUS ≠ 0) →
      ¬ band vbus DEV_VBUSIN_VALID ≠ 0 →
      P { st with
        usbsw := { st.usbsw with mansw := SW_AUDIO }
        trace := st.trace ++
          sm5502_dock_control_events client Cable.DESKDOCK attach SW_AUDIO })
    (h_mhl : ¬ (band val1 DEV_USB ≠ 0 ∨ band val2 DEV_T2_USB_MASK ≠ 0 ∨
        band val4 DEV_CARKIT_CHARGER1_MASK ≠ 0) →
      ¬ band val3 DEV_NON_STANDARD ≠ 0 →
      ¬ band val1 DEV_USB_CHG ≠ 0 →
      ¬ (band val1 DEV_T1_UART_MASK ≠ 0 ∨ band val2 DEV_T2_UART_MASK ≠ 0) →
      ¬ (band val1 DEV_T1_CHARGER_MASK ≠ 0 ∨ band val3 DEV_T3_CHARGER_MASK ≠ 0) →
      ¬ (cfg.USB_HOST_NOTIFY = true ∧ (band val1 DEV_USB_OTG ≠ 0 ∧ adc = ADC_OTG)) →
      ¬ (band val2 DEV_AV ≠ 0 ∨ band val3 DEV_AV_VBUS ≠ 0) →
      (cfg.VIDEO_MHL_V2 = true ∧ band val3 DEV_MHL ≠ 0) →
      P { st with trace := st.trace ++
        (sm5502_disable_interrupt_events client ++
          (mhl_start_events cfg ++ sm5502_enable_interrupt_events client)) })
    (h_cardock : ¬ (band val1 DEV_USB ≠ 0 ∨ band val2 DEV_T2_USB_MASK ≠ 0 ∨
        band val4 DEV_CARKIT_CHARGER1_MASK ≠ 0) →
      ¬ band val3 DEV_NON_STANDARD ≠ 0 →
      ¬ band val1 DEV_USB_CHG ≠ 0 →
      ¬ (band val1 DEV_T1_UART_MASK ≠ 0 ∨ band val2 DEV_T2_UART_MASK ≠ 0) →
      ¬ (band val1 DEV_T1_CHARGER_MASK ≠ 0 ∨ band val3 DEV_T3_CHARGER_MASK ≠ 0) →
      ¬ (cfg.USB_HOST_NOTIFY = true ∧ (band val1 DEV_USB_OTG ≠ 0 ∧ adc = ADC_OTG)) →
      ¬ (band val2 DEV_AV ≠ 0 ∨ band val3 DEV_AV_VBUS ≠ 0) →
      ¬ (cfg.VIDEO_MHL_V2 = true ∧ band val3 DEV_MHL ≠ 0) →
      band val2 DEV_JIG_UART_ON ≠ 0 →
      cfg.SEC_FACTORY = true →
      P { st with
        usbsw := { st.usbsw with mansw := SW_UART }
        trace := st.trace ++ sm5502_dock_control_events client Cable.CARDOCK attach SW_UART })
    (h_uarton_rustproof : ¬ (band val1 DEV_USB ≠ 0 ∨ band val2 DEV_T2_USB_MASK ≠ 0 ∨
        band val4 DEV_CARKIT_CHARGER1_MASK ≠ 0) →
      ¬ band val3 DEV_NON_STANDARD ≠ 0 →
      ¬ band val1 DEV_USB_CHG ≠ 0 →
      ¬ (band val1 DEV_T1_UART_MASK ≠ 0 ∨ band val2 DEV_T2_UART_MASK ≠ 0) →
      ¬ (band val1 DEV_T1_CHARGER_MASK ≠ 0 ∨ band val3 DEV_T3_CHARGER_MASK ≠ 0) →
      ¬ (cfg.USB_HOST_NOTIFY = true ∧ (band val1 DEV_USB_OTG ≠ 0 ∧ adc = ADC_OTG)) →
      ¬ (band val2 DEV_AV ≠ 0 ∨ band val3 DEV_AV_VBUS ≠ 0) →
      ¬ (cfg.VIDEO_MHL_V2 = true ∧ band val3 DEV_MHL ≠ 0) →
      band val2 DEV_JIG_UART_ON ≠ 0 →
      ¬ cfg.SEC_FACTORY = true →
      cfg.MUIC_SUPPORT_RUSTPROOF = true →
      st.usbsw.is_rustproof = true →
      P { st with trace := st.trace ++ muic_rustproof_feature_events client attach })
    (h_uarton_silent : ¬ (band val1 DEV_USB ≠ 0 ∨ band val2 DEV_T2_USB_MASK ≠ 0 ∨
        band val4 DEV_CARKIT_CHARGER1_MASK ≠ 0) →
      ¬ band val3 DEV_NON_STANDARD ≠ 0 →
      ¬ band val1 DEV_USB_CHG ≠ 0 →
      ¬ (band val1 DEV_T1_UART_MASK ≠ 0 ∨ band val2 DEV_T2_UART_MASK ≠ 0) →
      ¬ (band val1 DEV_T1_CHARGER_MASK ≠ 0 ∨ band val3 DEV_T3_CHARGER_MASK ≠ 0) →
      ¬ (cfg.USB_HOST_NOTIFY = true ∧ (band val1 DEV_USB_OTG ≠ 0 ∧ adc = ADC_OTG)) →
      ¬ (band val2 DEV_AV ≠ 0 ∨ band val3 DEV_AV_VBUS ≠ 0) →
      ¬ (cfg.VIDEO_MHL_V2 = true ∧ band val3 DEV_MHL ≠ 0) →
      band val2 DEV_JIG_UART_ON ≠ 0 →
      ¬ cfg.SEC_FACTORY = true →
      cfg.MUIC_SUPPORT_RUSTPROOF = true →
      ¬ st.usbsw.is_rustproof = true →
      P st)
    (h_uarton : ¬ (band val1 DEV_USB ≠ 0 ∨ band val2 DEV_T2_USB_MASK ≠ 0 ∨
        band val4 DEV_CARKIT_CHARGER1_MASK ≠ 0) →
      ¬ band val3 DEV_NON_STANDARD ≠ 0 →
      ¬ band val1 DEV_USB_CHG ≠ 0 →
      ¬ (band val1 DEV_T1_UART_MASK ≠ 0 ∨ band val2 DEV_T2_UART_MASK ≠ 0) →
      ¬ (band val1 DEV_T1_CHARGER_MASK ≠ 0 ∨ band val3 DEV_T3_CHARGER_MASK ≠ 0) →
      ¬ (cfg.USB_HOST_NOTIFY = true ∧ (band val1 DEV_USB_OTG ≠ 0 ∧ adc = ADC_OTG)) →
      ¬ (band val2 DEV_AV ≠ 0 ∨ band val3 DEV_AV_VBUS ≠ 0) →
      ¬ (cfg.VIDEO_MHL_V2 = true ∧ band val3 DEV_MHL ≠ 0) →
      band val2 DEV_JIG_UART_ON ≠ 0 →
      ¬ cfg.SEC_FACTORY = true →
      ¬ cfg.MUIC_SUPPORT_RUSTPROOF = true →
      P { st with trace := st.trace ++ [Event.cable Cable.JIG_UARTON true] })
    (h_audiodock : ¬ (band val1 DEV_USB ≠ 0 ∨ band val2 DEV_T2_USB_MASK ≠ 0 ∨
        band val4 DEV_CARKIT_CHARGER1_MASK ≠ 0) →
      ¬ band val3 DEV_NON_STANDARD ≠ 0 →
      ¬ band val1 DEV_USB_CHG ≠ 0 →
      ¬ (band val1 DEV_T1_UART_MASK ≠ 0 ∨ band val2 DEV_T2_UART_MASK ≠ 0) →
      ¬ (band val1 DEV_T1_CHARGER_MASK ≠ 0 ∨ band val3 DEV_T3_CHARGER_MASK ≠ 0) →
      ¬ (cfg.USB_HOST_NOTIFY = true ∧ (band val1 DEV_USB_OTG ≠ 0 ∧ adc = ADC_OTG)) →
      ¬ (band val2 DEV_AV ≠ 0 ∨ band val3 DEV_AV_VBUS ≠ 0) →
      ¬ (cfg.VIDEO_MHL_V2 = true ∧ band val3 DEV_MHL ≠ 0) →
      ¬ band val2 DEV_JIG_UART_ON ≠ 0 →
      (cfg.USB_HOST_NOTIFY = true ∧ band val2 DEV_AUDIO_DOCK ≠ 0) →
      P { st with
        usbsw := { st.usbsw with mansw := SW_DHOST }
        trace := st.trace ++
          sm5502_dock_control_events client Cable.AUDIODOCK attach SW_DHOST })
    (h_incompatible : ¬ (band val1 DEV_USB ≠ 0 ∨ band val2 DEV_T2_USB_MASK ≠ 0 ∨
        band val4 DEV_CARKIT_CHARGER1_MASK ≠ 0) →
      ¬ band val3 DEV_NON_STANDARD ≠ 0 →
      ¬ band val1 DEV_USB_CHG ≠ 0 →
      ¬ (band val1 DEV_T1_UART_MASK ≠ 0 ∨ band val2 DEV_T2_UART_MASK ≠ 0) →
      ¬ (band val1 DEV_T1_CHARGER_MASK ≠ 0 ∨ band val3 DEV_T3_CHARGER_MASK ≠ 0) →
      ¬ (cfg.USB_HOST_NOTIFY = true ∧ (band val1 DEV_USB_OTG ≠ 0 ∧ adc = ADC_OTG)) →
      ¬ (band val2 DEV_AV ≠ 0 ∨ band val3 DEV_AV_VBUS ≠ 0) →
      ¬ (cfg.VIDEO_MHL_V2 = true ∧ band val3 DEV_MHL ≠ 0) →
      ¬ band val2 DEV_JIG_UART_ON ≠ 0 →
      ¬ (cfg.USB_HOST_NOTIFY = true ∧ band val2 DEV_AUDIO_DOCK ≠ 0) →
      band vbus DEV_VBUSIN_VALID ≠ 0 →
      P { st with trace := st.trace ++ [Event.cable Cable.INCOMPATIBLE true] })
    (h_none : ¬ (band val1 DEV_USB ≠ 0 ∨ band val2 DEV_T2_USB_MASK ≠ 0 ∨
        band val4 DEV_CARKIT_CHARGER1_MASK ≠ 0) →
      ¬ band val3 DEV_NON_STANDARD ≠ 0 →
      ¬ band val1 DEV_USB_CHG ≠ 0 →
      ¬ (band val1 DEV_T1_UART_MASK ≠ 0 ∨ band val2 DEV_T2_UART_MASK ≠ 0) →
      ¬ (band val1 DEV_T1_CHARGER_MASK ≠ 0 ∨ band val3 DEV_T3_CHARGER_MASK ≠ 0) →
      ¬ (cfg.USB_HOST_NOTIFY = true ∧ (band val1 DEV_USB_OTG ≠ 0 ∧ adc = ADC_OTG)) →
      ¬ (band val2 DEV_AV ≠ 0 ∨ band val3 DEV_AV_VBUS ≠ 0) →
      ¬ (cfg.VIDEO_MHL_V2 = true ∧ band val3 DEV_MHL ≠ 0) →
      ¬ band val2 DEV_JIG_UART_ON ≠ 0 →
      ¬ (cfg.USB_HOST_NOTIFY = true ∧ band val2 DEV_AUDIO_DOCK ≠ 0) →
      ¬ band vbus DEV_VBUSIN_VALID ≠ 0 →
      P st) :
    P (sm5502_attach_dev_decision cfg client val1 val2 val3 val4 vbus adc st) := by
  unfold sm5502_attach_dev_decision
  by_cases c1 : band val1 DEV_USB ≠ 0 ∨ band val2 DEV_T2_USB_MASK ≠ 0 ∨
      band val4 DEV_CARKIT_CHARGER1_MASK ≠ 0
  · rw [if_pos c1, extcon_attach_eq]; exact h_usb c1
  rw [if_neg c1]
  by_cases c2 : band val3 DEV_NON_STANDARD ≠ 0
  · rw [if_pos c2, extcon_attach_eq]; exact h_nonstd c1 c2
  rw [if_neg c2]
  by_cases c3 : band val1 DEV_USB_CHG ≠ 0
  · rw [if_pos c3, extcon_attach_eq]; exact h_cdp c1 c2 c3
  rw [if_neg c3]
  by_cases c4 : band val1 DEV_T1_UART_MASK ≠ 0 ∨ band val2 DEV_T2_UART_MASK ≠ 0
  · rw [if_pos c4]
    by_cases r : cfg.MUIC_SUPPORT_RUSTPROOF = true ∧ st.usbsw.is_rustproof = true
    · simp only [if_pos r, muic_rustproof_feature_eq]; exact h_uart_rustproof c1 c2 c3 c4 r
    simp only [if_neg r, i2c_smbus_write_byte_data]
    by_cases v : band vbus DEV_VBUSIN_VALID ≠ 0
    · simp only [if_pos v, extcon_attach_eq, List.append_assoc, List.singleton_append]
      exact h_uart_vb c1 c2 c3 c4 r v
    · simp only [if_neg v, extcon_attach_eq, List.append_assoc, List.singleton_append]
      exact h_uart c1 c2 c3 c4 r v
  rw [if_neg c4]
  by_cases c5 : band val1 DEV_T1_CHARGER_MASK ≠ 0 ∨ band val3 DEV_T3_CHARGER_MASK ≠ 0
  · rw [if_pos c5, extcon_attach_eq]; exact h_charger c1 c2 c3 c4 c5
  rw [if_neg c5]
  by_cases c6 : cfg.USB_HOST_NOTIFY = true ∧ (band val1 DEV_USB_OTG ≠ 0 ∧ adc = ADC_OTG)
  · simp only [if_pos c6, extcon_attach_eq, sm5502_set_otg_eq, List.append_assoc]
    exact h_otg c1 c2 c3 c4 c5 c6
  rw [if_neg c6]
  by_cases c7 : band val2 DEV_AV ≠ 0 ∨ band val3 DEV_AV_VBUS ≠ 0
  · rw [if_pos c7]
    have ha : attach ≠ 0 := by decide
    by_cases v : band vbus DEV_VBUSIN_VALID ≠ 0
    · simp only [if_pos v, sm5502_dock_control_eq, if_pos ha]
      exact h_deskdock_vb c1 c2 c3 c4 c5 c6 c7 v
    · simp only [if_neg v, sm5502_dock_control_eq, if_pos ha]
      exact h_deskdock c1 c2 c3 c4 c5 c6 c7 v
  rw [if_neg c7]
  by_cases c8 : cfg.VIDEO_MHL_V2 = true ∧ band val3 DEV_MHL ≠ 0
  · rw [if_pos c8]
    have hm := h_mhl c1 c2 c3 c4 c5 c6 c7 c8
    unfold mhl_start_events at hm
    by_cases pc : ¬ (cfg.poweroff_charging = true)
    · simp only [if_pos pc, sm5502_disable_interrupt_eq, sm5502_enable_interrupt_eq,
        mhl_onoff_ex, List.append_assoc] at hm ⊢
      simpa using hm
    · simp only [if_neg pc, sm5502_disable_interrupt_eq, sm5502_enable_interrupt_eq,
        mhl_onoff_ex, List.append_assoc] at hm ⊢
      simpa using hm
  rw [if_neg c8]
  by_cases c9 : band val2 DEV_JIG_UART_ON ≠ 0
  · rw [if_pos c9]
    have ha : attach ≠ 0 := by decide
    by_cases f : cfg.SEC_FACTORY = true
    · simp only [if_pos f, sm5502_dock_control_eq, if_pos ha]
      exact h_cardock c1 c2 c3 c4 c5 c6 c7 c8 c9 f
    rw [if_neg f]
    by_cases r : cfg.MUIC_SUPPORT_RUSTPROOF = true
    · rw [if_pos r]
      by_cases q : st.usbsw.is_rustproof = true
      · simp only [if_pos q, muic_rustproof_feature_eq]
        exact h_uarton_rustproof c1 c2 c3 c4 c5 c6 c7 c8 c9 f r q
      · rw [if_neg q]; exact h_uarton_silent c1 c2 c3 c4 c5 c6 c7 c8 c9 f r q
    · rw [if_neg r, extcon_attach_eq]; exact h_uarton c1 c2 c3 c4 c5 c6 c7 c8 c9 f r
  rw [if_neg c9]
  by_cases c10 : cfg.USB_HOST_NOTIFY = true ∧ band val2 DEV_AUDIO_DOCK ≠ 0
  · have ha : attach ≠ 0 := by decide
    simp only [if_pos c10, sm5502_dock_control_eq, if_pos ha]
    exact h_audiodock c1 c2 c3 c4 c5 c6 c7 c8 c9 c10
  rw [if_neg c10]
  by_cases c11 : band vbus DEV_VBUSIN_VALID ≠ 0
  · rw [if_pos c11, extcon_attach_eq]; exact h_incompatible c1 c2 c3 c4 c5 c6 c7 c8 c9 c10 c11
  rw [if_neg c11]
  exact h_none c1 c2 c3 c4 c5 c6 c7 c8 c9 c10 c11

/-- Case rule for the detach decision: a property holds of the state the chain
returns as soon as it holds of the state each branch returns, under the
conditions on the retained fields that lead to the branch. -/
theorem detach_decision_cases (cfg : Config) (client : I2cClient) (st : State)
    (P : State → Prop)
    (h_usb :
      (band st.usbsw.dev1 DEV_USB ≠ 0 ∨ band st.usbsw.dev2 DEV_T2_USB_MASK ≠ 0 ∨
        band st.usbsw.carkit_dev DEV_CARKIT_CHARGER1_MASK ≠ 0) →
      P { st with trace := st.trace ++ [Event.cable Cable.USB false] })
    (h_cdp :
      ¬ (band st.usbsw.dev1 DEV_USB ≠ 0 ∨ band st.usbsw.dev2 DEV_T2_USB_MASK ≠ 0 ∨
        band st.usbsw.carkit_dev DEV_CARKIT_CHARGER1_MASK ≠ 0) →
      band st.usbsw.dev1 DEV_USB_CHG ≠ 0 →
      P { st with trace := st.trace ++ [Event.cable Cable.CHARGE_DOWNSTREAM false] })
    (h_nonstd :
      ¬ (band st.usbsw.dev1 DEV_USB ≠ 0 ∨ band st.usbsw.dev2 DEV_T2_USB_MASK ≠ 0 ∨
        band st.usbsw.carkit_dev DEV_CARKIT_CHARGER1_MASK ≠ 0) →
      ¬ band st.usbsw.dev1 DEV_USB_CHG ≠ 0 →
      band st.usbsw.dev3 DEV_NON_STANDARD ≠ 0 →
      P { st with trace := st.trace ++ [Event.cable Cable.USB false] })
    (h_uart_rustproof :
      ¬ (band st.usbsw.dev1 DEV_USB ≠ 0 ∨ band st.usbsw.dev2 DEV_T2_USB_MASK ≠ 0 ∨
        band st.usbsw.carkit_dev DEV_CARKIT_CHARGER1_MASK ≠ 0) →
      ¬ band st.usbsw.dev1 DEV_USB_CHG ≠ 0 →
      ¬ band st.usbsw.dev3 DEV_NON_STANDARD ≠ 0 →
      (band st.usbsw.dev1 DEV_T1_UART_MASK ≠ 0 ∨ band st.usbsw.dev2 DEV_T2_UART_MASK ≠ 0) →
      (cfg.MUIC_SUPPORT_RUSTPROOF = true ∧ st.usbsw.is_rustproof = true) →
      P { st with trace := st.trace ++ muic_rustproof_feature_events client detach })
    (h_uart_vb :
      ¬ (band st.usbsw.dev1 DEV_USB ≠ 0 ∨ band st.usbsw.dev2 DEV_T2_USB_MASK ≠ 0 ∨
        band st.usbsw.carkit_dev DEV_CARKIT_CHARGER1_MASK ≠ 0) →
      ¬ band st.usbsw.dev1 DEV_USB_CHG ≠ 0 →
      ¬ band st.usbsw.dev3 DEV_NON_STANDARD ≠ 0 →
      (band st.usbsw.dev1 DEV_T1_UART_MASK ≠ 0 ∨ band st.usbsw.dev2 DEV_T2_UART_MASK ≠ 0) →
      ¬ (cfg.MUIC_SUPPORT_RUSTPROOF = true ∧ st.usbsw.is_rustproof = true) →
      band st.usbsw.vbus DEV_VBUSIN_VALID ≠ 0 →
      P { st with
        uart_sm5502_connecting := 0
        trace := st.trace ++ [Event.cable Cable.JIG_UARTOFF_VB false] })
    (h_uart :
      ¬ (band st.usbsw.dev1 DEV_USB ≠ 0 ∨ band st.usbsw.dev2 DEV_T2_USB_MASK ≠ 0 ∨
        band st.usbsw.carkit_dev DEV_CARKIT_CHARGER1_MASK ≠ 0) →
      ¬ band st.usbsw.dev1 DEV_USB_CHG ≠ 0 →
      ¬ band st.usbsw.dev3 DEV_NON_STANDARD ≠ 0 →
      (band st.usbsw.dev1 DEV_T1_UART_MASK ≠ 0 ∨ band st.usbsw.dev2 DEV_T2_UART_MASK ≠ 0) →
      ¬ (cfg.MUIC_SUPPORT_RUSTPROOF = true ∧ st.usbsw.is_rustproof = true) →
      ¬ band st.usbsw.vbus DEV_VBUSIN_VALID ≠ 0 →
      P { st with
        uart_sm5502_connecting := 0
        trace := st.trace ++ [Event.cable Cable.JIG_UARTOFF false] })
    (h_charger :
      ¬ (band st.usbsw.dev1 DEV_USB ≠ 0 ∨ band st.usbsw.dev2 DEV_T2_USB_MASK ≠ 0 ∨
        band st.usbsw.carkit_dev DEV_CARKIT_CHARGER1_MASK ≠ 0) →
      ¬ band st.usbsw.dev1 DEV_USB_CHG ≠ 0 →
      ¬ band st.usbsw.dev3 DEV_NON_STANDARD ≠ 0 →
      ¬ (band st.usbsw.dev1 DEV_T1_UART_MASK ≠ 0 ∨ band st.usbsw.dev2 DEV_T2_UART_MASK ≠ 0) →
      (band st.usbsw.dev1 DEV_T1_CHARGER_MASK ≠ 0 ∨
        band st.usbsw.dev3 DEV_T3_CHARGER_MASK ≠ 0) →
      P { st with trace := st.trace ++ [Event.cable Cable.TA false] })
    (h_otg :
      ¬ (band st.usbsw.dev1 DEV_USB ≠ 0 ∨ band st.usbsw.dev2 DEV_T2_USB_MASK ≠ 0 ∨
        band st.usbsw.carkit_dev DEV_CARKIT_CHARGER1_MASK ≠ 0) →
      ¬ band st.usbsw.dev1 DEV_USB_CHG ≠ 0 →
      ¬ band st.usbsw.dev3 DEV_NON_STANDARD ≠ 0 →
      ¬ (band st.usbsw.dev1 DEV_T1_UART_MASK ≠ 0 ∨ band st.usbsw.dev2 DEV_T2_UART_MASK ≠ 0) →
      ¬ (band st.usbsw.dev1 DEV_T1_CHARGER_MASK ≠ 0 ∨
        band st.usbsw.dev3 DEV_T3_CHARGER_MASK ≠ 0) →
      (cfg.USB_HOST_NOTIFY = true ∧ band st.usbsw.dev1 DEV_USB_OTG ≠ 0) →
      P { st with trace := st.trace ++ (sm5502_set_otg_events client detach ++ [Event.cable Cable.USB_HOST false]) })
    (h_deskdock_vb :
      ¬ (band st.usbsw.dev1 DEV_USB ≠ 0 ∨ band st.usbsw.dev2 DEV_T2_USB_MASK ≠ 0 ∨
        band st.usbsw.carkit_dev DEV_CARKIT_CHARGER1_MASK ≠ 0) →
      ¬ band st.usbsw.dev1 DEV_USB_CHG ≠ 0 →
      ¬ band st.usbsw.dev3 DEV_NON_STANDARD ≠ 0 →
      ¬ (band st.usbsw.dev1 DEV_T1_UART_MASK ≠ 0 ∨ band st.usbsw.dev2 DEV_T2_UART_MASK ≠ 0) →
      ¬ (band st.usbsw.dev1 DEV_T1_CHARGER_MASK ≠ 0 ∨
        band st.usbsw.dev3 DEV_T3_CHARGER_MASK ≠ 0) →
      ¬ (cfg.USB_HOST_NOTIFY = true ∧ band st.usbsw.dev1 DEV_USB_OTG ≠ 0) →
      (band st.usbsw.dev2 DEV_AV ≠ 0 ∨ band st.usbsw.dev3 DEV_AV_VBUS ≠ 0) →
      band st.usbsw.vbus DEV_VBUSIN_VALID ≠ 0 →
      P { st with trace := st.trace ++ sm5502_dock_control_events client Cable.DESKDOCK_VB detach SW_ALL_OPEN })
    (h_deskdock :
      ¬ (band st.usbsw.dev1 DEV_USB ≠ 0 ∨ band st.usbsw.dev2 DEV_T2_USB_MASK ≠ 0 ∨
        band st.usbsw.carkit_dev DEV_CARKIT_CHARGER1_MASK ≠ 0) →
      ¬ band st.usbsw.dev1 DEV_USB_CHG ≠ 0 →
      ¬ band st.usbsw.dev3 DEV_NON_STANDARD ≠ 0 →
      ¬ (band st.usbsw.dev1 DEV_T1_UART_MASK ≠ 0 ∨ band st.usbsw.dev2 DEV_T2_UART_MASK ≠ 0) →
      ¬ (band st.usbsw.dev1 DEV_T1_CHARGER_MASK ≠ 0 ∨
        band st.usbsw.dev3 DEV_T3_CHARGER_MASK ≠ 0) →
      ¬ (cfg.USB_HOST_NOTIFY = true ∧ band st.usbsw.dev1 DEV_USB_OTG ≠ 0) →
      (band st.usbsw.dev2 DEV_AV ≠ 0 ∨ band st.usbsw.dev3 DEV_AV_VBUS ≠ 0) →
      ¬ band st.usbsw.vbus DEV_VBUSIN_VALID ≠ 0 →
      P { st with trace := st.trace ++ sm5502_dock_control_events client Cable.DESKDOCK detach SW_ALL_OPEN })
    (h_mhl :
      ¬ (band st.usbsw.dev1 DEV_USB ≠ 0 ∨ band st.usbsw.dev2 DEV_T2_USB_MASK ≠ 0 ∨
        band st.usbsw.carkit_dev DEV_CARKIT_CHARGER1_MASK ≠ 0) →
      ¬ band st.usbsw.dev1 DEV_USB_CHG ≠ 0 →
      ¬ band st.usbsw.dev3 DEV_NON_STANDARD ≠ 0 →
      ¬ (band st.usbsw.dev1 DEV_T1_UART_MASK ≠ 0 ∨ band st.usbsw.dev2 DEV_T2_UART_MASK ≠ 0) →
      ¬ (band st.usbsw.dev1 DEV_T1_CHARGER_MASK ≠ 0 ∨
        band st.usbsw.dev3 DEV_T3_CHARGER_MASK ≠ 0) →
      ¬ (cfg.USB_HOST_NOTIFY = true ∧ band st.usbsw.dev1 DEV_USB_OTG ≠ 0) →
      ¬ (band st.usbsw.dev2 DEV_AV ≠ 0 ∨ band st.usbsw.dev3 DEV_AV_VBUS ≠ 0) →
      (cfg.MHL_D3_SUPPORT = true ∧ band st.usbsw.dev3 DEV_MHL ≠ 0) →
      P { st with trace := st.trace ++ [Event.mhl_onoff false, Event.cable Cable.MHL false] })
    (h_cardock :
      ¬ (band st.usbsw.dev1 DEV_USB ≠ 0 ∨ band st.usbsw.dev2 DEV_T2_USB_MASK ≠ 0 ∨
        band st.usbsw.carkit_dev DEV_CARKIT_CHARGER1_MASK ≠ 0) →
      ¬ band st.usbsw.dev1 DEV_USB_CHG ≠ 0 →
      ¬ band st.usbsw.dev3 DEV_NON_STANDARD ≠ 0 →
      ¬ (band st.usbsw.dev1 DEV_T1_UART_MASK ≠ 0 ∨ band st.usbsw.dev2 DEV_T2_UART_MASK ≠ 0) →
      ¬ (band st.usbsw.dev1 DEV_T1_CHARGER_MASK ≠ 0 ∨
        band st.usbsw.dev3 DEV_T3_CHARGER_MASK ≠ 0) →
      ¬ (cfg.USB_HOST_NOTIFY = true ∧ band st.usbsw.dev1 DEV_USB_OTG ≠ 0) →
      ¬ (band st.usbsw.dev2 DEV_AV ≠ 0 ∨ band st.usbsw.dev3 DEV_AV_VBUS ≠ 0) →
      ¬ (cfg.MHL_D3_SUPPORT = true ∧ band st.usbsw.dev3 DEV_MHL ≠ 0) →
      band st.usbsw.dev2 DEV_JIG_UART_ON ≠ 0 →
      cfg.SEC_FACTORY = true →
      P { st with trace := st.trace ++ sm5502_dock_control_events client Cable.CARDOCK detach SW_ALL_OPEN })
    (h_uarton_rustproof :
      ¬ (band st.usbsw.dev1 DEV_USB ≠ 0 ∨ band st.usbsw.dev2 DEV_T2_USB_MASK ≠ 0 ∨
        band st.usbsw.carkit_dev DEV_CARKIT_CHARGER1_MASK ≠ 0) →
      ¬ band st.usbsw.dev1 DEV_USB_CHG ≠ 0 →
      ¬ band st.usbsw.dev3 DEV_NON_STANDARD ≠ 0 →
      ¬ (band st.usbsw.dev1 DEV_T1_UART_MASK ≠ 0 ∨ band st.usbsw.dev2 DEV_T2_UART_MASK ≠ 0) →
      ¬ (band st.usbsw.dev1 DEV_T1_CHARGER_MASK ≠ 0 ∨
        band st.usbsw.dev3 DEV_T3_CHARGER_MASK ≠ 0) →
      ¬ (cfg.USB_HOST_NOTIFY = true ∧ band st.usbsw.dev1 DEV_USB_OTG ≠ 0) →
      ¬ (band st.usbsw.dev2 DEV_AV ≠ 0 ∨ band st.usbsw.dev3 DEV_AV_VBUS ≠ 0) →
      ¬ (cfg.MHL_D3_SUPPORT = true ∧ band st.usbsw.dev3 DEV_MHL ≠ 0) →
      band st.usbsw.dev2 DEV_JIG_UART_ON ≠ 0 →
      ¬ cfg.SEC_FACTORY = true →
      cfg.MUIC_SUPPORT_RUSTPROOF = true →
      st.usbsw.is_rustproof = true →
      P { st with trace := st.trace ++ muic_rustproof_feature_events client detach })
    (h_uarton_silent :
      ¬ (band st.usbsw.dev1 DEV_USB ≠ 0 ∨ band st.usbsw.dev2 DEV_T2_USB_MASK ≠ 0 ∨
        band st.usbsw.carkit_dev DEV_CARKIT_CHARGER1_MASK ≠ 0) →
      ¬ band st.usbsw.dev1 DEV_USB_CHG ≠ 0 →
      ¬ band st.usbsw.dev3 DEV_NON_STANDARD ≠ 0 →
      ¬ (band st.usbsw.dev1 DEV_T1_UART_MASK ≠ 0 ∨ band st.usbsw.dev2 DEV_T2_UART_MASK ≠ 0) →
      ¬ (band st.usbsw.dev1 DEV_T1_CHARGER_MASK ≠ 0 ∨
        band st.usbsw.dev3 DEV_T3_CHARGER_MASK ≠ 0) →
      ¬ (cfg.USB_HOST_NOTIFY = true ∧ band st.usbsw.dev1 DEV_USB_OTG ≠ 0) →
      ¬ (band st.usbsw.dev2 DEV_AV ≠ 0 ∨ band st.usbsw.dev3 DEV_AV_VBUS ≠ 0) →
      ¬ (cfg.MHL_D3_SUPPORT = true ∧ band st.usbsw.dev3 DEV_MHL ≠ 0) →
      band st.usbsw.dev2 DEV_JIG_UART_ON ≠ 0 →
      ¬ cfg.SEC_FACTORY = true →
      cfg.MUIC_SUPPORT_RUSTPROOF = true →
      ¬ st.usbsw.is_rustproof = true →
      P st)
    (h_uarton :
      ¬ (band st.usbsw.dev1 DEV_USB ≠ 0 ∨ band st.usbsw.dev2 DEV_T2_USB_MASK ≠ 0 ∨
        band st.usbsw.carkit_dev DEV_CARKIT_CHARGER1_MASK ≠ 0) →
      ¬ band st.usbsw.dev1 DEV_USB_CHG ≠ 0 →
      ¬ band st.usbsw.dev3 DEV_NON_STANDARD ≠ 0 →
      ¬ (band st.usbsw.dev1 DEV_T1_UART_MASK ≠ 0 ∨ band st.usbsw.dev2 DEV_T2_UART_MASK ≠ 0) →
      ¬ (band st.usbsw.dev1 DEV_T1_CHARGER_MASK ≠ 0 ∨
        band st.usbsw.dev3 DEV_T3_CHARGER_MASK ≠ 0) →
      ¬ (cfg.USB_HOST_NOTIFY = true ∧ band st.usbsw.dev1 DEV_USB_OTG ≠ 0) →
      ¬ (band st.usbsw.dev2 DEV_AV ≠ 0 ∨ band st.usbsw.dev3 DEV_AV_VBUS ≠ 0) →
      ¬ (cfg.MHL_D3_SUPPORT = true ∧ band st.usbsw.dev3 DEV_MHL ≠ 0) →
      band st.usbsw.dev2 DEV_JIG_UART_ON ≠ 0 →
      ¬ cfg.SEC_FACTORY = true →
      ¬ cfg.MUIC_SUPPORT_RUSTPROOF = true →
      P { st with trace := st.trace ++ [Event.cable Cable.JIG_UARTON false] })
    (h_audiodock :
      ¬ (band st.usbsw.dev1 DEV_USB ≠ 0 ∨ band st.usbsw.dev2 DEV_T2_USB_MASK ≠ 0 ∨
        band st.usbsw.carkit_dev DEV_CARKIT_CHARGER1_MASK ≠ 0) →
      ¬ band st.usbsw.dev1 DEV_USB_CHG ≠ 0 →
      ¬ band st.usbsw.dev3 DEV_NON_STANDARD ≠ 0 →
      ¬ (band st.usbsw.dev1 DEV_T1_UART_MASK ≠ 0 ∨ band st.usbsw.dev2 DEV_T2_UART_MASK ≠ 0) →
      ¬ (band st.usbsw.dev1 DEV_T1_CHARGER_MASK ≠ 0 ∨
        band st.usbsw.dev3 DEV_T3_CHARGER_MASK ≠ 0) →
      ¬ (cfg.USB_HOST_NOTIFY = true ∧ band st.usbsw.dev1 DEV_USB_OTG ≠ 0) →
      ¬ (band st.usbsw.dev2 DEV_AV ≠ 0 ∨ band st.usbsw.dev3 DEV_AV_VBUS ≠ 0) →
      ¬ (cfg.MHL_D3_SUPPORT = true ∧ band st.usbsw.dev3 DEV_MHL ≠ 0) →
      ¬ band st.usbsw.dev2 DEV_JIG_UART_ON ≠ 0 →
      (cfg.USB_HOST_NOTIFY = true ∧ band st.usbsw.dev2 DEV_AUDIO_DOCK ≠ 0) →
      P { st with trace := st.trace ++ sm5502_dock_control_events client Cable.AUDIODOCK detach SW_ALL_OPEN })
    (h_incompatible :
      ¬ (band st.usbsw.dev1 DEV_USB ≠ 0 ∨ band st.usbsw.dev2 DEV_T2_USB_MASK ≠ 0 ∨
        band st.usbsw.carkit_dev DEV_CARKIT_CHARGER1_MASK ≠ 0) →
      ¬ band st.usbsw.dev1 DEV_USB_CHG ≠ 0 →
      ¬ band st.usbsw.dev3 DEV_NON_STANDARD ≠ 0 →
      ¬ (band st.usbsw.dev1 DEV_T1_UART_MASK ≠ 0 ∨ band st.usbsw.dev2 DEV_T2_UART_MASK ≠ 0) →
      ¬ (band st.usbsw.dev1 DEV_T1_CHARGER_MASK ≠ 0 ∨
        band st.usbsw.dev3 DEV_T3_CHARGER_MASK ≠ 0) →
      ¬ (cfg.USB_HOST_NOTIFY = true ∧ band st.usbsw.dev1 DEV_USB_OTG ≠ 0) →
      ¬ (band st.usbsw.dev2 DEV_AV ≠ 0 ∨ band st.usbsw.dev3 DEV_AV_VBUS ≠ 0) →
      ¬ (cfg.MHL_D3_SUPPORT = true ∧ band st.usbsw.dev3 DEV_MHL ≠ 0) →
      ¬ band st.usbsw.dev2 DEV_JIG_UART_ON ≠ 0 →
      ¬ (cfg.USB_HOST_NOTIFY = true ∧ band st.usbsw.dev2 DEV_AUDIO_DOCK ≠ 0) →
      band st.usbsw.vbus DEV_VBUSIN_VALID ≠ 0 →
      P { st with trace := st.trace ++ [Event.cable Cable.INCOMPATIBLE false] })
    (h_none :
      ¬ (band st.usbsw.dev1 DEV_USB ≠ 0 ∨ band st.usbsw.dev2 DEV_T2_USB_MASK ≠ 0 ∨
        band st.usbsw.carkit_dev DEV_CARKIT_CHARGER1_MASK ≠ 0) →
      ¬ band st.usbsw.dev1 DEV_USB_CHG ≠ 0 →
      ¬ band st.usbsw.dev3 DEV_NON_STANDARD ≠ 0 →
      ¬ (band st.usbsw.dev1 DEV_T1_UART_MASK ≠ 0 ∨ band st.usbsw.dev2 DEV_T2_UART_MASK ≠ 0) →
      ¬ (band st.usbsw.dev1 DEV_T1_CHARGER_MASK ≠ 0 ∨
        band st.usbsw.dev3 DEV_T3_CHARGER_MASK ≠ 0) →
      ¬ (cfg.USB_HOST_NOTIFY = true ∧ band st.usbsw.dev1 DEV_USB_OTG ≠ 0) →
      ¬ (band st.usbsw.dev2 DEV_AV ≠ 0 ∨ band st.usbsw.dev3 DEV_AV_VBUS ≠ 0) →
      ¬ (cfg.MHL_D3_SUPPORT = true ∧ band st.usbsw.dev3 DEV_MHL ≠ 0) →
      ¬ band st.usbsw.dev2 DEV_JIG_UART_ON ≠ 0 →
      ¬ (cfg.USB_HOST_NOTIFY = true ∧ band st.usbsw.dev2 DEV_AUDIO_DOCK ≠ 0) →
      ¬ band st.usbsw.vbus DEV_VBUSIN_VALID ≠ 0 →
      P st) :
    P (sm5502_detach_dev_decision cfg client st) := by
  unfold sm5502_detach_dev_decision
  dsimp only
  have hd : ¬ detach ≠ 0 := by decide
  by_cases c1 : (band st.usbsw.dev1 DEV_USB ≠ 0 ∨ band st.usbsw.dev2 DEV_T2_USB_MASK ≠ 0 ∨ band st.usbsw.carkit_dev DEV_CARKIT_CHARGER1_MASK ≠ 0)
  · rw [if_pos c1, extcon_detach_eq]; exact h_usb c1
  rw [if_neg c1]
  by_cases c2 : band st.usbsw.dev1 DEV_USB_CHG ≠ 0
  · rw [if_pos c2, extcon_detach_eq]; exact h_cdp c1 c2
  rw [if_neg c2]
  by_cases c3 : band st.usbsw.dev3 DEV_NON_STANDARD ≠ 0
  · rw [if_pos c3, extcon_detach_eq]; exact h_nonstd c1 c2 c3
  rw [if_neg c3]
  by_cases c4 : (band st.usbsw.dev1 DEV_T1_UART_MASK ≠ 0 ∨ band st.usbsw.dev2 DEV_T2_UART_MASK ≠ 0)
  · rw [if_pos c4]
    by_cases r : cfg.MUIC_SUPPORT_RUSTPROOF = true ∧ st.usbsw.is_rustproof = true
    · simp only [if_pos r, muic_rustproof_feature_eq]; exact h_uart_rustproof c1 c2 c3 c4 r
    rw [if_neg r]
    by_cases v : band st.usbsw.vbus DEV_VBUSIN_VALID ≠ 0
    · simp only [if_pos v, extcon_detach_eq]; exact h_uart_vb c1 c2 c3 c4 r v
    · simp only [if_neg v, extcon_detach_eq]; exact h_uart c1 c2 c3 c4 r v
  rw [if_neg c4]
  by_cases c5 : (band st.usbsw.dev1 DEV_T1_CHARGER_MASK ≠ 0 ∨ band st.usbsw.dev3 DEV_T3_CHARGER_MASK ≠ 0)
  · rw [if_pos c5, extcon_detach_eq]; exact h_charger c1 c2 c3 c4 c5
  rw [if_neg c5]
  by_cases c6 : (cfg.USB_HOST_NOTIFY = true ∧ band st.usbsw.dev1 DEV_USB_OTG ≠ 0)
  · simp only [if_pos c6, extcon_detach_eq, sm5502_set_otg_eq, List.append_assoc]
    exact h_otg c1 c2 c3 c4 c5 c6
  rw [if_neg c6]
  by_cases c7 : (band st.usbsw.dev2 DEV_AV ≠ 0 ∨ band st.usbsw.dev3 DEV_AV_VBUS ≠ 0)
  · rw [if_pos c7]
    by_cases v : band st.usbsw.vbus DEV_VBUSIN_VALID ≠ 0
    · simp only [if_pos v, sm5502_dock_control_eq, if_neg hd]
      exact h_deskdock_vb c1 c2 c3 c4 c5 c6 c7 v
    · simp only [if_neg v, sm5502_dock_control_eq, if_neg hd]
      exact h_deskdock c1 c2 c3 c4 c5 c6 c7 v
  rw [if_neg c7]
  by_cases c8 : (cfg.MHL_D3_SUPPORT = true ∧ band st.usbsw.dev3 DEV_MHL ≠ 0)
  · have hm := h_mhl c1 c2 c3 c4 c5 c6 c7 c8
    simp only [if_pos c8, extcon_detach_eq, mhl_onoff_ex, List.append_assoc]
    simpa using hm
  rw [if_neg c8]
  by_cases c9 : band st.usbsw.dev2 DEV_JIG_UART_ON ≠ 0
  · rw [if_pos c9]
    by_cases f : cfg.SEC_FACTORY = true
    · simp only [if_pos f, sm5502_dock_control_eq, if_neg hd]
      exact h_cardock c1 c2 c3 c4 c5 c6 c7 c8 c9 f
    rw [if_neg f]
    by_cases r : cfg.MUIC_SUPPORT_RUSTPROOF = true
    · rw [if_pos r]
      by_cases q : st.usbsw.is_rustproof = true
      · simp only [if_pos q, muic_rustproof_feature_eq]
        exact h_uarton_rustproof c1 c2 c3 c4 c5 c6 c7 c8 c9 f r q
      · rw [if_neg q]; exact h_uarton_silent c1 c2 c3 c4 c5 c6 c7 c8 c9 f r q
    · rw [if_neg r, extcon_detach_eq]; exact h_uarton c1 c2 c3 c4 c5 c6 c7 c8 c9 f r
  rw [if_neg c9]
  by_cases c10 : (cfg.USB_HOST_NOTIFY = true ∧ band st.usbsw.dev2 DEV_AUDIO_DOCK ≠ 0)
  · simp only [if_pos c10, sm5502_dock_control_eq, if_neg hd]
    exact h_audiodock c1 c2 c3 c4 c5 c6 c7 c8 c9 c10
  rw [if_neg c10]
  by_cases c11 : band st.usbsw.vbus DEV_VBUSIN_VALID ≠ 0
  · rw [if_pos c11, extcon_detach_eq]
    exact h_incompatible c1 c2 c3 c4 c5 c6 c7 c8 c9 c10 c11
  rw [if_neg c11]
  exact h_none c1 c2 c3 c4 c5 c6 c7 c8 c9 c10 c11

/-- Case rule for the attach pass: one case per failing checked read, and the
complete pass. -/
theorem attach_dev_cases (cfg : Config) (client : I2cClient) (st : State)
    (P : Int × State → Prop)
    (h_err1 : client.read REG_DEVICE_TYPE1 < 0 →
      P (client.read REG_DEVICE_TYPE1,
        { st with trace := st.trace ++ (attach_reads client).take 1 }))
    (h_err2 : ¬ client.read REG_DEVICE_TYPE1 < 0 → client.read REG_DEVICE_TYPE2 < 0 →
      P (client.read REG_DEVICE_TYPE2,
        { st with trace := st.trace ++ (attach_reads client).take 2 }))
    (h_err3 : ¬ client.read REG_DEVICE_TYPE1 < 0 → ¬ client.read REG_DEVICE_TYPE2 < 0 →
      client.read REG_DEVICE_TYPE3 < 0 →
      P (client.read REG_DEVICE_TYPE3,
        { st with
          usbsw := { st.usbsw with jig_state := attach_jig client }
          trace := st.trace ++ (attach_reads client).take 3 }))
    (h_err4 : ¬ client.read REG_DEVICE_TYPE1 < 0 → ¬ client.read REG_DEVICE_TYPE2 < 0 →
      ¬ client.read REG_DEVICE_TYPE3 < 0 → client.read REG_CARKIT_STATUS < 0 →
      P (client.read REG_CARKIT_STATUS,
        { st with
          usbsw := { st.usbsw with jig_state := attach_jig client }
          trace := st.trace ++ (attach_reads client).take 4 }))
    (h_err5 : ¬ client.read REG_DEVICE_TYPE1 < 0 → ¬ client.read REG_DEVICE_TYPE2 < 0 →
      ¬ client.read REG_DEVICE_TYPE3 < 0 → ¬ client.read REG_CARKIT_STATUS < 0 →
      client.read REG_VBUSINVALID < 0 →
      P (client.read REG_VBUSINVALID,
        { st with
          usbsw := { st.usbsw with jig_state := attach_jig client }
          trace := st.trace ++ (attach_reads client).take 5 }))
    (h_ok : ¬ client.read REG_DEVICE_TYPE1 < 0 → ¬ client.read REG_DEVICE_TYPE2 < 0 →
      ¬ client.read REG_DEVICE_TYPE3 < 0 → ¬ client.read REG_CARKIT_STATUS < 0 →
      ¬ client.read REG_VBUSINVALID < 0 →
      P (client.read REG_ADC,
        attach_store cfg client
          (sm5502_attach_dev_decision cfg client (attach_val1 cfg client)
            (attach_val2 cfg client) (client.read REG_DEVICE_TYPE3)
            (client.read REG_CARKIT_STATUS) (client.read REG_VBUSINVALID)
            (client.read REG_ADC) (attach_pre client st)))) :
    P (sm5502_attach_dev cfg client st) := by
  unfold sm5502_attach_dev
  simp only [i2c_smbus_read_byte_data]
  by_cases e1 : client.read REG_DEVICE_TYPE1 < 0
  · rw [if_pos e1]; exact h_err1 e1
  rw [if_neg e1]
  by_cases e2 : client.read REG_DEVICE_TYPE2 < 0
  · rw [if_pos e2]
    simpa [attach_reads] using h_err2 e1 e2
  rw [if_neg e2]
  by_cases e3 : client.read REG_DEVICE_TYPE3 < 0
  · rw [if_pos e3]
    simpa [attach_reads, attach_jig] using h_err3 e1 e2 e3
  rw [if_neg e3]
  by_cases e4 : client.read REG_CARKIT_STATUS < 0
  · rw [if_pos e4]
    simpa [attach_reads, attach_jig] using h_err4 e1 e2 e3 e4
  rw [if_neg e4]
  by_cases e5 : client.read REG_VBUSINVALID < 0
  · rw [if_pos e5]
    simpa [attach_reads, attach_jig] using h_err5 e1 e2 e3 e4 e5
  rw [if_neg e5]
  simpa [attach_reads, attach_jig, attach_store, attach_pre, attach_val1, attach_val2]
    using h_ok e1 e2 e3 e4 e5

theorem detach_dev_eq (cfg : Config) (client : I2cClient) (st : State) :
    sm5502_detach_dev cfg client st =
      (0, detach_store client (sm5502_detach_dev_decision cfg client st)) := by
  simp [sm5502_detach_dev, detach_store, i2c_smbus_write_byte_data]

/-! ## Cable Sink calls and register writes of the event lists -/

@[simp] theorem cableCalls_nil : cableCalls [] = [] := rfl

@[simp] theorem cableCalls_append (xs ys : List Event) :
    cableCalls (xs ++ ys) = cableCalls xs ++ cableCalls ys := by
  simp [cableCalls]

@[simp] theorem cableCalls_cons_cable (name : Cable) (state : Bool) (es : List Event) :
    cableCalls (Event.cable name state :: es) = (name, state) :: cableCalls es := by
  simp [cableCalls, Event.cableCall]

@[simp] theorem cableCalls_cons_read (reg : Nat) (ret : Int) (es : List Event) :
    cableCalls (Event.read reg ret :: es) = cableCalls es := by
  simp [cableCalls, Event.cableCall]

@[simp] theorem cableCalls_cons_write (reg value : Nat) (ret : Int) (es : List Event) :
    cableCalls (Event.write reg value ret :: es) = cableCalls es := by
  simp [cableCalls, Event.cableCall]

@[simp] theorem cableCalls_cons_mhl (b : Bool) (es : List Event) :
    cableCalls (Event.mhl_onoff b :: es) = cableCalls es := by
  simp [cableCalls, Event.cableCall]

@[simp] theorem cableCalls_cons_otg (b : Bool) (es : List Event) :
    cableCalls (Event.otg_notify b :: es) = cableCalls es := by
  simp [cableCalls, Event.cableCall]

@[simp] theorem cableCalls_cons_lock (es : List Event) :
    cableCalls (Event.mutex_lock :: es) = cableCalls es := by
  simp [cableCalls, Event.cableCall]

@[simp] theorem cableCalls_cons_unlock (es : List Event) :
    cableCalls (Event.mutex_unlock :: es) = cableCalls es := by
  simp [cableCalls, Event.cableCall]

@[simp] theorem cableCalls_rustproof (client : I2cClient) (state : Int) :
    cableCalls (muic_rustproof_feature_events client state) = [] := by
  unfold muic_rustproof_feature_events
  by_cases h : state ≠ 0
  · rw [if_pos h]; simp
  · rw [if_neg h]; simp

@[simp] theorem cableCalls_set_otg (client : I2cClient) (state : Int) :
    cableCalls (sm5502_set_otg_events client state) = [] := by
  unfold sm5502_set_otg_events
  by_cases h : state = attach
  · rw [if_pos h]; simp
  · rw [if_neg h]; simp

@[simp] theorem cableCalls_dock_control (client : I2cClient) (dock_type : Cable)
    (state path : Int) :
    cableCalls (sm5502_dock_control_events client dock_type state path) =
      [(dock_type, decide (state ≠ 0))] := by
  unfold sm5502_dock_control_events
  by_cases h : state ≠ 0
  · rw [if_pos h]
    by_cases hr : client.read REG_CONTROL < 0
    · rw [if_pos hr]; simp [h]
    · rw [if_neg hr]; simp [h]
  · rw [if_neg h]; simp [h]

@[simp] theorem cableCalls_disable_interrupt (client : I2cClient) :
    cableCalls (sm5502_disable_interrupt_events client) = [] := by
  simp [sm5502_disable_interrupt_events]

@[simp] theorem cableCalls_enable_interrupt (client : I2cClient) :
    cableCalls (sm5502_enable_interrupt_events client) = [] := by
  simp [sm5502_enable_interrupt_events]

@[simp] theorem cableCalls_mhl_start (cfg : Config) :
    cableCalls (mhl_start_events cfg) = [] := by
  unfold mhl_start_events
  by_cases h : ¬ (cfg.poweroff_charging = true)
  · rw [if_pos h]; simp
  · rw [if_neg h]; simp

@[simp] theorem cableCalls_attach_reads (client : I2cClient) :
    cableCalls (attach_reads client) = [] := by
  simp [attach_reads]

@[simp] theorem cableCalls_take_attach_reads (client : I2cClient) (n : Nat) :
    cableCalls ((attach_reads client).take n) = [] := by
  have h : ∀ e ∈ (attach_reads client).take n, Event.cableCall e = none := by
    intro e he
    have he2 := List.mem_of_mem_take he
    simp [attach_reads] at he2
    rcases he2 with h | h | h | h | h | h <;> subst h <;> rfl
  unfold cableCalls
  exact List.filterMap_eq_nil_iff.mpr h

@[simp] theorem eventsSince_append (st : State) (u : Usbsw) (c : Int) (es : List Event) :
    eventsSince st { usbsw := u, uart_sm5502_connecting := c, trace := st.trace ++ es } = es := by
  simp [eventsSince]

@[simp] theorem eventsSince_self (st : State) : eventsSince st st = [] := by
  simp [eventsSince]

@[simp] theorem attach_store_trace (cfg : Config) (client : I2cClient) (st : State) :
    (attach_store cfg client st).trace = st.trace := rfl

@[simp] theorem eventsSince_attach_store (cfg : Config) (client : I2cClient) (st st2 : State) :
    eventsSince st (attach_store cfg client st2) = eventsSince st st2 := rfl

@[simp] theorem eventsSince_attach_pre (client : I2cClient) (st : State) (u : Usbsw) (c : Int)
    (es : List Event) :
    eventsSince st
        { usbsw := u
          uart_sm5502_connecting := c
          trace := (attach_pre client st).trace ++ es } = attach_reads client ++ es := by
  simp [eventsSince, attach_pre]

@[simp] theorem eventsSince_attach_pre_self (client : I2cClient) (st : State) :
    eventsSince st (attach_pre client st) = attach_reads client := by
  simp [eventsSince, attach_pre]

@[simp] theorem announce_none (b : Bool) : announce none b = [] := rfl

@[simp] theorem announce_some (c : Cable) (b : Bool) : announce (some c) b = [(c, b)] := rfl

theorem attach_reads_ok_iff (client : I2cClient) :
    attach_reads_ok client = true ↔
      (0 ≤ client.read REG_DEVICE_TYPE1 ∧ 0 ≤ client.read REG_DEVICE_TYPE2 ∧
        0 ≤ client.read REG_DEVICE_TYPE3 ∧ 0 ≤ client.read REG_CARKIT_STATUS ∧
        0 ≤ client.read REG_VBUSINVALID) := by
  simp [attach_reads_ok, and_assoc]

/-- The Cable Sink calls of an attach pass: the identity of the pass, attached. -/
theorem attach_dev_calls (cfg : Config) (client : I2cClient) (st : State) :
    cableCalls (eventsSince st (sm5502_attach_dev cfg client st).2) =
      announce (attach_pass_identity cfg client st.usbsw.is_rustproof) true := by
  apply attach_dev_cases cfg client st
    (fun r => cableCalls (eventsSince st r.2) =
      announce (attach_pass_identity cfg client st.usbsw.is_rustproof) true)
  case h_ok =>
    intro e1 e2 e3 e4 e5
    have hok : attach_reads_ok client = true := by
      rw [attach_reads_ok_iff]; omega
    simp only [attach_pass_identity, if_pos hok]
    apply attach_decision_cases cfg client _ _ _ _ _ _ (attach_pre client st)
      (fun s => cableCalls (eventsSince st (attach_store cfg client s)) =
        announce (attach_identity cfg st.usbsw.is_rustproof (attach_val1 cfg client)
          (attach_val2 cfg client) (client.read REG_DEVICE_TYPE3)
          (client.read REG_CARKIT_STATUS) (client.read REG_VBUSINVALID)
          (client.read REG_ADC)) true)
    all_goals intros
    all_goals try simp only [attach_pre, ne_eq] at *
    all_goals simp only [attach_identity, ne_eq, *, if_true, if_false, not_true_eq_false,
      not_false_eq_true]
    all_goals try simp [attach]
    all_goals try simp_all
    all_goals (split_ifs <;> simp_all)
  all_goals intros
  all_goals
    have hbad : ¬ attach_reads_ok client = true := by
      rw [attach_reads_ok_iff]; omega
    simp [attach_pass_identity, hbad]

/-- The Cable Sink calls of a detach pass: the identity the retained fields
select, detached. -/
theorem detach_dev_calls (cfg : Config) (client : I2cClient) (st : State) :
    cableCalls (eventsSince st (sm5502_detach_dev cfg client st).2) =
      announce (detach_identity cfg st.usbsw) false := by
  rw [detach_dev_eq]
  apply detach_decision_cases cfg client st
    (fun s => cableCalls (eventsSince st (0, detach_store client s).2) =
      announce (detach_identity cfg st.usbsw) false)
  all_goals intros
  all_goals try simp only [ne_eq] at *
  all_goals simp only [detach_identity, ne_eq, *, if_true, if_false, not_true_eq_false,
      not_false_eq_true]
  all_goals try simp [detach_store, detach]
  all_goals simp_all

/-! ## Register writes of the event lists -/

@[simp] theorem regWrites_nil : regWrites [] = [] := rfl

@[simp] theorem regWrites_append (xs ys : List Event) :
    regWrites (xs ++ ys) = regWrites xs ++ regWrites ys := by
  simp [regWrites]

@[simp] theorem regWrites_cons_cable (name : Cable) (state : Bool) (es : List Event) :
    regWrites (Event.cable name state :: es) = regWrites es := by
  simp [regWrites, Event.regWrite]

@[simp] theorem regWrites_cons_read (reg : Nat) (ret : Int) (es : List Event) :
    regWrites (Event.read reg ret :: es) = regWrites es := by
  simp [regWrites, Event.regWrite]

@[simp] theorem regWrites_cons_write (reg value : Nat) (ret : Int) (es : List Event) :
    regWrites (Event.write reg value ret :: es) = (reg, value) :: regWrites es := by
  simp [regWrites, Event.regWrite]

@[simp] theorem regWrites_cons_mhl (b : Bool) (es : List Event) :
    regWrites (Event.mhl_onoff b :: es) = regWrites es := by
  simp [regWrites, Event.regWrite]

@[simp] theorem regWrites_cons_otg (b : Bool) (es : List Event) :
    regWrites (Event.otg_notify b :: es) = regWrites es := by
  simp [regWrites, Event.regWrite]

@[simp] theorem regWrites_cons_lock (es : List Event) :
    regWrites (Event.mutex_lock :: es) = regWrites es := by
  simp [regWrites, Event.regWrite]

@[simp] theorem regWrites_cons_unlock (es : List Event) :
    regWrites (Event.mutex_unlock :: es) = regWrites es := by
  simp [regWrites, Event.regWrite]

@[simp] theorem regWrites_attach_reads (client : I2cClient) :
    regWrites (attach_reads client) = [] := by
  simp [attach_reads]

@[simp] theorem regWrites_take_attach_reads (client : I2cClient) (n : Nat) :
    regWrites ((attach_reads client).take n) = [] := by
  have h : ∀ e ∈ (attach_reads client).take n, Event.regWrite e = none := by
    intro e he
    have he2 := List.mem_of_mem_take he
    simp [attach_reads] at he2
    rcases he2 with h | h | h | h | h | h <;> subst h <;> rfl
  unfold regWrites
  exact List.filterMap_eq_nil_iff.mpr h

/-! ## Bit-level facts -/

theorem band_zero_left (m : Int) : band 0 m = 0 := by
  simp [band, toU32, ofU32]

/-! ## The detach pass -/

@[simp] theorem detach_store_session (client : I2cClient) (st : State) :
    (detach_store client st).session = Session.empty := rfl

theorem detach_identity_of_zero (cfg : Config) (usbsw : Usbsw)
    (h1 : usbsw.dev1 = 0) (h2 : usbsw.dev2 = 0) (h3 : usbsw.dev3 = 0)
    (hv : usbsw.vbus = 0) (hc : usbsw.carkit_dev = 0) :
    detach_identity cfg usbsw = none := by
  simp [detach_identity, h1, h2, h3, hv, hc, band_zero_left]

theorem session_empty_iff (st : State) :
    st.session = Session.empty ↔
      (st.usbsw.dev1 = 0 ∧ st.usbsw.dev2 = 0 ∧ st.usbsw.dev3 = 0 ∧ st.usbsw.adc = 0 ∧
        st.usbsw.vbus = 0 ∧ st.usbsw.carkit_dev = 0 ∧ st.usbsw.jig_state = 0) := by
  simp [State.session, Session.empty, check_sm5502_jig_state]

/-- The events of a detach pass on a state whose retained fields are zero: the
control-register write alone. -/
theorem detach_dev_events_of_zero (cfg : Config) (client : I2cClient) (st : State)
    (h1 : st.usbsw.dev1 = 0) (h2 : st.usbsw.dev2 = 0) (h3 : st.usbsw.dev3 = 0)
    (hv : st.usbsw.vbus = 0) (hc : st.usbsw.carkit_dev = 0) :
    eventsSince st (sm5502_detach_dev cfg client st).2 =
      [Event.write REG_CONTROL (u8 CON_MASK) (client.write REG_CONTROL (u8 CON_MASK))] := by
  rw [detach_dev_eq]
  apply detach_decision_cases cfg client st
    (fun s => eventsSince st (0, detach_store client s).2 =
      [Event.write REG_CONTROL (u8 CON_MASK) (client.write REG_CONTROL (u8 CON_MASK))])
  case h_none => intros; simp [detach_store]
  all_goals intros
  all_goals simp_all [band_zero_left]

/-- A detach pass ends with the control-register write and empties the Session
State, whatever the decision did. -/
theorem detach_dev_last_write (cfg : Config) (client : I2cClient) (st : State) :
    (regWrites (eventsSince st (sm5502_detach_dev cfg client st).2)).getLast? =
      some (REG_CONTROL, u8 CON_MASK) := by
  rw [detach_dev_eq]
  apply detach_decision_cases cfg client st
    (fun s => (regWrites (eventsSince st (0, detach_store client s).2)).getLast? =
      some (REG_CONTROL, u8 CON_MASK))
  all_goals intros
  all_goals simp [detach_store, List.getLast?_append]

/-! ## The driver state after an attach pass -/

/-- The attach pass never changes the override flag. -/
theorem attach_dev_is_rustproof (cfg : Config) (client : I2cClient) (st : State) :
    (sm5502_attach_dev cfg client st).2.usbsw.is_rustproof = st.usbsw.is_rustproof := by
  apply attach_dev_cases cfg client st
    (fun r => r.2.usbsw.is_rustproof = st.usbsw.is_rustproof)
  case h_ok =>
    intro _ _ _ _ _
    apply attach_decision_cases cfg client _ _ _ _ _ _ (attach_pre client st)
      (fun s => (attach_store cfg client s).usbsw.is_rustproof = st.usbsw.is_rustproof)
    all_goals intros
    all_goals rfl
  all_goals intros
  all_goals rfl

/-- A complete attach pass returns the ADC read and retains the values read. -/
theorem attach_dev_fields_ok (cfg : Config) (client : I2cClient) (st : State)
    (hok : attach_reads_ok client = true) :
    (sm5502_attach_dev cfg client st).1 = client.read REG_ADC ∧
    (sm5502_attach_dev cfg client st).2.usbsw.dev1 = attach_val1 cfg client ∧
    (sm5502_attach_dev cfg client st).2.usbsw.dev2 = attach_val2 cfg client ∧
    (sm5502_attach_dev cfg client st).2.usbsw.dev3 = client.read REG_DEVICE_TYPE3 ∧
    (sm5502_attach_dev cfg client st).2.usbsw.adc = client.read REG_ADC ∧
    (sm5502_attach_dev cfg client st).2.usbsw.vbus = client.read REG_VBUSINVALID ∧
    (sm5502_attach_dev cfg client st).2.usbsw.carkit_dev = client.read REG_CARKIT_STATUS ∧
    (sm5502_attach_dev cfg client st).2.usbsw.jig_state = attach_jig client := by
  have h := (attach_reads_ok_iff client).mp hok
  apply attach_dev_cases cfg client st
    (fun r => r.1 = client.read REG_ADC ∧
      r.2.usbsw.dev1 = attach_val1 cfg client ∧
      r.2.usbsw.dev2 = attach_val2 cfg client ∧
      r.2.usbsw.dev3 = client.read REG_DEVICE_TYPE3 ∧
      r.2.usbsw.adc = client.read REG_ADC ∧
      r.2.usbsw.vbus = client.read REG_VBUSINVALID ∧
      r.2.usbsw.carkit_dev = client.read REG_CARKIT_STATUS ∧
      r.2.usbsw.jig_state = attach_jig client)
  case h_ok =>
    intro _ _ _ _ _
    refine ⟨rfl, rfl, rfl, rfl, rfl, rfl, rfl, ?_⟩
    apply attach_decision_cases cfg client _ _ _ _ _ _ (attach_pre client st)
      (fun s => (attach_store cfg client s).usbsw.jig_state = attach_jig client)
    all_goals intros
    all_goals rfl
  all_goals intros
  all_goals omega

/-- An attach pass with a failing checked read returns the negative code of the
failing read, makes no Cable Sink call and no register write, and keeps the
retained snapshot and the override flag. -/
theorem attach_dev_fields_err (cfg : Config) (client : I2cClient) (st : State)
    (hbad : attach_reads_ok client = false) :
    (sm5502_attach_dev cfg client st).1 < 0 ∧
    cableCalls (eventsSince st (sm5502_attach_dev cfg client st).2) = [] ∧
    regWrites (eventsSince st (sm5502_attach_dev cfg client st).2) = [] ∧
    (sm5502_attach_dev cfg client st).2.usbsw.dev1 = st.usbsw.dev1 ∧
    (sm5502_attach_dev cfg client st).2.usbsw.dev2 = st.usbsw.dev2 ∧
    (sm5502_attach_dev cfg client st).2.usbsw.dev3 = st.usbsw.dev3 ∧
    (sm5502_attach_dev cfg client st).2.usbsw.adc = st.usbsw.adc ∧
    (sm5502_attach_dev cfg client st).2.usbsw.vbus = st.usbsw.vbus ∧
    (sm5502_attach_dev cfg client st).2.usbsw.carkit_dev = st.usbsw.carkit_dev := by
  have hb : ¬ attach_reads_ok client = true := by simp [hbad]
  rw [attach_reads_ok_iff] at hb
  apply attach_dev_cases cfg client st
    (fun r => r.1 < 0 ∧
      cableCalls (eventsSince st r.2) = [] ∧
      regWrites (eventsSince st r.2) = [] ∧
      r.2.usbsw.dev1 = st.usbsw.dev1 ∧
      r.2.usbsw.dev2 = st.usbsw.dev2 ∧
      r.2.usbsw.dev3 = st.usbsw.dev3 ∧
      r.2.usbsw.adc = st.usbsw.adc ∧
      r.2.usbsw.vbus = st.usbsw.vbus ∧
      r.2.usbsw.carkit_dev = st.usbsw.carkit_dev)
  case h_ok =>
    intro e1 e2 e3 e4 e5
    exact absurd ⟨not_lt.mp e1, not_lt.mp e2, not_lt.mp e3, not_lt.mp e4, not_lt.mp e5⟩ hb
  all_goals intros
  all_goals simp [*]

theorem announce_mem (identity : Option Cable) (attached : Bool) (call : Cable × Bool)
    (h : call ∈ announce identity attached) : call.2 = attached := by
  cases identity with
  | none => simp at h
  | some c =>
    simp at h
    rw [h]

theorem announce_length_le (identity : Option Cable) (attached : Bool) :
    (announce identity attached).length ≤ 1 := by
  cases identity <;> simp

theorem toU32_mod_256 (x : Int) : toU32 x % 256 = u8 x := by
  unfold toU32 u8
  have h1 : (0 : Int) ≤ x % 4294967296 := Int.emod_nonneg _ (by decide)
  have h2 : (0 : Int) ≤ x % 256 := Int.emod_nonneg _ (by decide)
  have h3 : x % 4294967296 % 256 = x % 256 :=
    Int.emod_emod_of_dvd x (by decide : (256 : Int) ∣ 4294967296)
  omega

/-- `(x & 0xFB)` as a byte: the byte of `x` with bit 2 cleared. -/
theorem u8_band_FB (x : Int) : u8 (band x 0xFB) = u8 x &&& 0xFB := by
  have hm : toU32 0xFB = 251 := by decide
  have hle : toU32 x &&& 251 ≤ 251 := Nat.and_le_right
  have hb : band x 0xFB = ((toU32 x &&& 251 : Nat) : Int) := by
    unfold band ofU32
    rw [hm]
    have : (toU32 x &&& 251) % 4294967296 = toU32 x &&& 251 := by omega
    rw [this, if_pos (by omega)]
  have hu : u8 (band x 0xFB) = toU32 x &&& 251 := by
    rw [hb]; unfold u8; omega
  have hmod : toU32 x % 256 = toU32 x &&& 255 :=
    (Nat.and_pow_two_sub_one_eq_mod (toU32 x) 8).symm
  rw [hu, ← toU32_mod_256, hmod, Nat.and_assoc]
  rfl

/-- The byte written by `val &= 0xFB` has bit 2 (the manual-switch bit) clear. -/
theorem u8_band_FB_bit2 (x : Int) : u8 (band x 0xFB) &&& 4 = 0 := by
  rw [u8_band_FB, Nat.and_assoc]
  show u8 x &&& 0 = 0
  exact Nat.and_zero _

@[simp] theorem regWrites_rustproof_attach (client : I2cClient) :
    regWrites (muic_rustproof_feature_events client attach) =
      [(REG_MANUAL_SW1, 0x01), (REG_CONTROL, u8 (band (client.read REG_CONTROL) 0xFB))] := by
  have ha : attach ≠ 0 := by decide
  have h1 : u8 SW_ALL_OPEN_WITH_VBUS = 1 := by decide
  unfold muic_rustproof_feature_events
  rw [if_pos ha, h1]
  simp

/-! ## Detach mirrors attach on safe snapshots -/

/-- On values free of the three asymmetric patterns the detach chain selects the
identity the attach chain selected. -/
theorem identity_mirror (cfg : Config) (u : Usbsw) (adc : Int)
    (g1 : ¬ (band u.dev3 DEV_NON_STANDARD ≠ 0 ∧ band u.dev1 DEV_USB_CHG ≠ 0))
    (g2 : cfg.USB_HOST_NOTIFY = true → band u.dev1 DEV_USB_OTG = 0 ∨ adc = ADC_OTG)
    (g3 : (cfg.VIDEO_MHL_V2 = true ∨ cfg.MHL_D3_SUPPORT = true) → band u.dev3 DEV_MHL = 0) :
    detach_identity cfg u =
      attach_identity cfg u.is_rustproof u.dev1 u.dev2 u.dev3 u.carkit_dev u.vbus adc := by
  unfold detach_identity attach_identity
  by_cases c1 : band u.dev1 DEV_USB ≠ 0 ∨ band u.dev2 DEV_T2_USB_MASK ≠ 0 ∨
      band u.carkit_dev DEV_CARKIT_CHARGER1_MASK ≠ 0
  · rw [if_pos c1, if_pos c1]
  rw [if_neg c1, if_neg c1]
  by_cases cns : band u.dev3 DEV_NON_STANDARD ≠ 0
  · have ccdp : ¬ band u.dev1 DEV_USB_CHG ≠ 0 := fun h => g1 ⟨cns, h⟩
    rw [if_neg ccdp, if_pos cns, if_pos cns]
  by_cases ccdp : band u.dev1 DEV_USB_CHG ≠ 0
  · rw [if_pos ccdp, if_neg cns, if_pos ccdp]
  rw [if_neg ccdp, if_neg cns, if_neg cns, if_neg ccdp]
  by_cases c4 : band u.dev1 DEV_T1_UART_MASK ≠ 0 ∨ band u.dev2 DEV_T2_UART_MASK ≠ 0
  · rw [if_pos c4, if_pos c4]
  rw [if_neg c4, if_neg c4]
  by_cases c5 : band u.dev1 DEV_T1_CHARGER_MASK ≠ 0 ∨ band u.dev3 DEV_T3_CHARGER_MASK ≠ 0
  · rw [if_pos c5, if_pos c5]
  rw [if_neg c5, if_neg c5]
  have m1 : ¬ (cfg.MHL_D3_SUPPORT = true ∧ band u.dev3 DEV_MHL ≠ 0) :=
    fun h => h.2 (g3 (Or.inr h.1))
  have m2 : ¬ (cfg.VIDEO_MHL_V2 = true ∧ band u.dev3 DEV_MHL ≠ 0) :=
    fun h => h.2 (g3 (Or.inl h.1))
  by_cases c6 : cfg.USB_HOST_NOTIFY = true ∧ band u.dev1 DEV_USB_OTG ≠ 0
  · have c6a : cfg.USB_HOST_NOTIFY = true ∧ (band u.dev1 DEV_USB_OTG ≠ 0 ∧ adc = ADC_OTG) :=
      ⟨c6.1, c6.2, (g2 c6.1).resolve_left c6.2⟩
    rw [if_pos c6, if_pos c6a]
  have c6a : ¬ (cfg.USB_HOST_NOTIFY = true ∧ (band u.dev1 DEV_USB_OTG ≠ 0 ∧ adc = ADC_OTG)) :=
    fun h => c6 ⟨h.1, h.2.1⟩
  rw [if_neg c6, if_neg c6a]
  by_cases c7 : band u.dev2 DEV_AV ≠ 0 ∨ band u.dev3 DEV_AV_VBUS ≠ 0
  · rw [if_pos c7, if_pos c7]
  rw [if_neg c7, if_neg c7, if_neg m1, if_neg m2]

theorem mirror_safe_spec (cfg : Config) (client : I2cClient)
    (hs : mirror_safe cfg client = true) :
    ¬ (band (client.read REG_DEVICE_TYPE3) DEV_NON_STANDARD ≠ 0 ∧
        band (client.read REG_DEVICE_TYPE1) DEV_USB_CHG ≠ 0) ∧
    (cfg.USB_HOST_NOTIFY = true →
      band (client.read REG_DEVICE_TYPE1) DEV_USB_OTG = 0 ∨ client.read REG_ADC = ADC_OTG) ∧
    ((cfg.VIDEO_MHL_V2 = true ∨ cfg.MHL_D3_SUPPORT = true) →
      band (client.read REG_DEVICE_TYPE3) DEV_MHL = 0) := by
  unfold mirror_safe at hs
  simp only [Bool.and_eq_true, Bool.or_eq_true, Bool.not_eq_true', decide_eq_true_eq,
    Bool.and_eq_false_imp, decide_eq_false_iff_not] at hs
  obtain ⟨⟨g1, g2⟩, g3⟩ := hs
  refine ⟨?_, ?_, ?_⟩
  · intro h
    exact g1 h.1 h.2
  · intro h
    rcases g2 with (g | g) | g
    · rw [h] at g; exact absurd g (by decide)
    · exact Or.inl g
    · exact Or.inr g
  · intro h
    rcases g3 with g | g
    · rcases h with h | h
      · rw [h] at g; simp at g
      · rw [h] at g; simp at g
    · exact g

theorem band_attach_val1 (cfg : Config) (client : I2cClient) (m : Int)
    (h : band (client.read REG_DEVICE_TYPE1) m = 0) : band (attach_val1 cfg client) m = 0 := by
  unfold attach_val1
  by_cases c : cfg.USB_HOST_NOTIFY = true ∧ client.read REG_ADC = ADC_AUDIO_DOCK
  · rw [if_pos c]; exact band_zero_left m
  · rw [if_neg c]; exact h

/-- After an attach pass on a safe snapshot, started with zero retained fields,
the detach chain selects exactly the identity the pass announced. -/
theorem detach_identity_after_attach (cfg : Config) (client : I2cClient) (st : State)
    (hs : mirror_safe cfg client = true)
    (h1 : st.usbsw.dev1 = 0) (h2 : st.usbsw.dev2 = 0) (h3 : st.usbsw.dev3 = 0)
    (hv : st.usbsw.vbus = 0) (hc : st.usbsw.carkit_dev = 0) :
    detach_identity cfg (sm5502_attach_dev cfg client st).2.usbsw =
      attach_pass_identity cfg client st.usbsw.is_rustproof := by
  obtain ⟨g1, g2, g3⟩ := mirror_safe_spec cfg client hs
  cases hok : attach_reads_ok client
  · have hf := attach_dev_fields_err cfg client st hok
    unfold attach_pass_identity
    rw [if_neg (by simp [hok])]
    apply detach_identity_of_zero
    · rw [hf.2.2.2.1]; exact h1
    · rw [hf.2.2.2.2.1]; exact h2
    · rw [hf.2.2.2.2.2.1]; exact h3
    · rw [hf.2.2.2.2.2.2.2.1]; exact hv
    · rw [hf.2.2.2.2.2.2.2.2]; exact hc
  · have hf := attach_dev_fields_ok cfg client st hok
    have hr := attach_dev_is_rustproof cfg client st
    have key := identity_mirror cfg (sm5502_attach_dev cfg client st).2.usbsw
      (client.read REG_ADC)
      (by
        rw [hf.2.1, hf.2.2.2.1]
        intro h
        by_cases hcdp : band (client.read REG_DEVICE_TYPE1) DEV_USB_CHG ≠ 0
        · exact g1 ⟨h.1, hcdp⟩
        · exact h.2 (band_attach_val1 cfg client _ (not_not.mp hcdp)))
      (by
        rw [hf.2.1]
        intro h
        rcases g2 h with g | g
        · exact Or.inl (band_attach_val1 cfg client _ g)
        · exact Or.inr g)
      (by rw [hf.2.2.2.1]; exact g3)
    rw [key, hr, hf.2.1, hf.2.2.1, hf.2.2.2.1, hf.2.2.2.2.2.1, hf.2.2.2.2.2.2.1]
    unfold attach_pass_identity
    rw [if_pos hok]

/-! ## Traces only grow -/

theorem attach_dev_trace (cfg : Config) (client : I2cClient) (st : State) :
    (sm5502_attach_dev cfg client st).2.trace =
      st.trace ++ eventsSince st (sm5502_attach_dev cfg client st).2 := by
  apply attach_dev_cases cfg client st
    (fun r => r.2.trace = st.trace ++ eventsSince st r.2)
  case h_ok =>
    intro _ _ _ _ _
    apply attach_decision_cases cfg client _ _ _ _ _ _ (attach_pre client st)
      (fun s => (attach_store cfg client s).trace =
        st.trace ++ eventsSince st (attach_store cfg client s))
    all_goals intros
    all_goals simp [attach_pre]
  all_goals intros
  all_goals simp

theorem detach_dev_trace (cfg : Config) (client : I2cClient) (st : State) :
    (sm5502_detach_dev cfg client st).2.trace =
      st.trace ++ eventsSince st (sm5502_detach_dev cfg client st).2 := by
  rw [detach_dev_eq]
  apply detach_decision_cases cfg client st
    (fun s => (0, detach_store client s).2.trace =
      st.trace ++ eventsSince st (0, detach_store client s).2)
  all_goals intros
  all_goals simp [detach_store, eventsSince]

theorem eventsSince_trans (st st1 st2 : State)
    (h1 : st1.trace = st.trace ++ eventsSince st st1)
    (h2 : st2.trace = st1.trace ++ eventsSince st1 st2) :
    st2.trace = st.trace ++ eventsSince st st2 ∧
    eventsSince st st2 = eventsSince st st1 ++ eventsSince st1 st2 := by
  have h : st2.trace = st.trace ++ (eventsSince st st1 ++ eventsSince st1 st2) := by
    rw [h2, h1, List.append_assoc]
  have e : eventsSince st st2 = eventsSince st st1 ++ eventsSince st1 st2 := by
    conv_lhs => unfold eventsSince
    rw [h]
    simp
  exact ⟨by rw [e]; exact h, e⟩

theorem run_pass_trace (cfg : Config) (p : Pass) (st : State) :
    (run_pass cfg p st).trace = st.trace ++ eventsSince st (run_pass cfg p st) := by
  cases p with
  | attach client => exact attach_dev_trace cfg client st
  | detach client => exact detach_dev_trace cfg client st

theorem run_passes_trace (cfg : Config) (ps : List Pass) (st : State) :
    (run_passes cfg ps st).trace = st.trace ++ eventsSince st (run_passes cfg ps st) := by
  induction ps generalizing st with
  | nil => simp [run_passes]
  | cons p ps ih =>
    exact (eventsSince_trans st (run_pass cfg p st) (run_passes cfg ps (run_pass cfg p st))
      (run_pass_trace cfg p st) (ih (run_pass cfg p st))).1

theorem run_passes_cons_calls (cfg : Config) (p : Pass) (ps : List Pass) (st : State) :
    cableCalls (eventsSince st (run_passes cfg (p :: ps) st)) =
      cableCalls (eventsSince st (run_pass cfg p st)) ++
        cableCalls (eventsSince (run_pass cfg p st)
          (run_passes cfg ps (run_pass cfg p st))) := by
  have h := (eventsSince_trans st (run_pass cfg p st)
    (run_passes cfg ps (run_pass cfg p st))
    (run_pass_trace cfg p st) (run_passes_trace cfg ps (run_pass cfg p st))).2
  show cableCalls (eventsSince st (run_passes cfg ps (run_pass cfg p st))) = _
  rw [h, cableCalls_append]

/-- In a sequence of passes without two attach passes in a row, whose attach
snapshots are all safe, the Cable Sink never sees an identity reported attached
while a different one is still attached.  `attached` is what the sink holds
when the sequence starts: the identity the detach chain would retract. -/
theorem single_slot_run (cfg : Config) (ps : List Pass) :
    ∀ (st : State) (b : Bool) (attached : List Cable),
      alternating b ps = true → ps.all (Pass.mirror_safe cfg) = true →
      attached = (detach_identity cfg st.usbsw).toList →
      (b = false → st.usbsw.dev1 = 0 ∧ st.usbsw.dev2 = 0 ∧ st.usbsw.dev3 = 0 ∧
        st.usbsw.vbus = 0 ∧ st.usbsw.carkit_dev = 0) →
      single_slot attached (cableCalls (eventsSince st (run_passes cfg ps st))) = true := by
  induction ps with
  | nil =>
    intro st b attached _ _ _ _
    simp [run_passes, single_slot]
  | cons p ps ih =>
    intro st b attached halt hsafe hatt hzero
    rw [run_passes_cons_calls]
    rw [List.all_cons, Bool.and_eq_true] at hsafe
    cases p with
    | attach client =>
      simp only [alternating, Bool.and_eq_true, Bool.not_eq_true'] at halt
      obtain ⟨hb, halt⟩ := halt
      obtain ⟨z1, z2, z3, zv, zc⟩ := hzero hb
      have hnone : detach_identity cfg st.usbsw = none :=
        detach_identity_of_zero cfg st.usbsw z1 z2 z3 zv zc
      have hmir := detach_identity_after_attach cfg client st hsafe.1 z1 z2 z3 zv zc
      have hih := ih (sm5502_attach_dev cfg client st).2 true
        (attach_pass_identity cfg client st.usbsw.is_rustproof).toList halt hsafe.2
        (by rw [hmir]) (by intro h; exact absurd h (by decide))
      rw [hatt, hnone]
      show single_slot [] (cableCalls (eventsSince st (sm5502_attach_dev cfg client st).2) ++
        cableCalls (eventsSince (sm5502_attach_dev cfg client st).2
          (run_passes cfg ps (sm5502_attach_dev cfg client st).2))) = true
      rw [attach_dev_calls]
      cases hx : attach_pass_identity cfg client st.usbsw.is_rustproof with
      | none =>
        rw [hx] at hih
        simpa using hih
      | some x =>
        rw [hx] at hih
        simpa [single_slot, sink_next] using hih
    | detach client =>
      have halt2 : alternating false ps = true := halt
      have hih := ih (sm5502_detach_dev cfg client st).2 false [] halt2 hsafe.2
        (by
          rw [detach_dev_eq]
          exact (congrArg Option.toList
            (detach_identity_of_zero cfg _ rfl rfl rfl rfl rfl)).symm)
        (by intro _; rw [detach_dev_eq]; exact ⟨rfl, rfl, rfl, rfl, rfl⟩)
      show single_slot attached
        (cableCalls (eventsSince st (sm5502_detach_dev cfg client st).2) ++
        cableCalls (eventsSince (sm5502_detach_dev cfg client st).2
          (run_passes cfg ps (sm5502_detach_dev cfg client st).2))) = true
      rw [detach_dev_calls, hatt]
      cases hx : detach_identity cfg st.usbsw with
      | none => simpa using hih
      | some x => simpa [single_slot, sink_next] using hih

/-! ## Register writes of the helper routines -/

theorem regWrites_rustproof (client : I2cClient) (state : Int) :
    regWrites (muic_rustproof_feature_events client state) =
      muic_rustproof_feature_writes (client.read REG_CONTROL) state := by
  unfold muic_rustproof_feature_events muic_rustproof_feature_writes
  by_cases h : state ≠ 0
  · rw [if_pos h, if_pos h]; simp
  · rw [if_neg h, if_neg h]; simp

theorem regWrites_set_otg (client : I2cClient) (state : Int) :
    regWrites (sm5502_set_otg_events client state) =
      sm5502_set_otg_writes (client.read REG_CONTROL) state := by
  unfold sm5502_set_otg_events sm5502_set_otg_writes
  by_cases h : state = attach
  · rw [if_pos h, if_pos h]; simp
  · rw [if_neg h, if_neg h]; simp

theorem regWrites_dock_control (client : I2cClient) (dock_type : Cable)
    (state path : Int) :
    regWrites (sm5502_dock_control_events client dock_type state path) =
      sm5502_dock_control_writes (client.read REG_CONTROL) state path := by
  unfold sm5502_dock_control_events sm5502_dock_control_writes
  by_cases h : state ≠ 0
  · rw [if_pos h, if_pos h]
    by_cases hr : client.read REG_CONTROL < 0
    · rw [if_pos hr, if_pos hr]; simp
    · rw [if_neg hr, if_neg hr]; simp
  · rw [if_neg h, if_neg h]; simp

theorem regWrites_disable_interrupt (client : I2cClient) :
    regWrites (sm5502_disable_interrupt_events client) =
      [(REG_CONTROL, u8 (bor (client.read REG_CONTROL) CON_INT_MASK))] := by
  simp [sm5502_disable_interrupt_events]

theorem regWrites_enable_interrupt (client : I2cClient) :
    regWrites (sm5502_enable_interrupt_events client) =
      [(REG_CONTROL, u8 (band (client.read REG_CONTROL) (bnot CON_INT_MASK)))] := by
  simp [sm5502_enable_interrupt_events]

theorem regWrites_mhl_start (cfg : Config) :
    regWrites (mhl_start_events cfg) = [] := by
  unfold mhl_start_events
  by_cases h : ¬ (cfg.poweroff_charging = true)
  · rw [if_pos h]; simp
  · rw [if_neg h]; simp

/-! ## The attach pass in closed form -/

/-- The register writes of an attach pass. -/
theorem attach_dev_writes (cfg : Config) (client : I2cClient) (st : State) :
    regWrites (eventsSince st (sm5502_attach_dev cfg client st).2) =
      attach_pass_writes cfg client st.usbsw.is_rustproof := by
  apply attach_dev_cases cfg client st
    (fun r => regWrites (eventsSince st r.2) =
      attach_pass_writes cfg client st.usbsw.is_rustproof)
  case h_ok =>
    intro e1 e2 e3 e4 e5
    have hok : attach_reads_ok client = true := by
      rw [attach_reads_ok_iff]; omega
    simp only [attach_pass_writes, if_pos hok]
    apply attach_decision_cases cfg client _ _ _ _ _ _ (attach_pre client st)
      (fun s => regWrites (eventsSince st (attach_store cfg client s)) =
        attach_decision_writes cfg st.usbsw.is_rustproof (client.read REG_CONTROL)
          (attach_val1 cfg client) (attach_val2 cfg client) (client.read REG_DEVICE_TYPE3)
          (client.read REG_CARKIT_STATUS) (client.read REG_VBUSINVALID)
          (client.read REG_ADC))
    all_goals intros
    all_goals try simp only [attach_pre, ne_eq] at *
    all_goals simp only [attach_decision_writes, ne_eq, *, if_true, if_false,
      not_true_eq_false, not_false_eq_true]
    all_goals try simp [attach, regWrites_rustproof, regWrites_set_otg,
      regWrites_dock_control, regWrites_disable_interrupt, regWrites_enable_interrupt,
      regWrites_mhl_start, -regWrites_rustproof_attach]
    all_goals try simp_all
    all_goals (split_ifs <;> simp_all)
  all_goals intros
  all_goals
    have hbad : ¬ attach_reads_ok client = true := by
      rw [attach_reads_ok_iff]; omega
    simp [attach_pass_writes, hbad]

/-- The instance fields after an attach pass. -/
theorem attach_dev_usbsw (cfg : Config) (client : I2cClient) (st : State) :
    (sm5502_attach_dev cfg client st).2.usbsw = attach_pass_usbsw cfg client st.usbsw := by
  apply attach_dev_cases cfg client st
    (fun r => r.2.usbsw = attach_pass_usbsw cfg client st.usbsw)
  case h_ok =>
    intro e1 e2 e3 e4 e5
    have hok : attach_reads_ok client = true := by
      rw [attach_reads_ok_iff]; omega
    have h12 : ¬ (client.read REG_DEVICE_TYPE1 < 0 ∨ client.read REG_DEVICE_TYPE2 < 0) := by
      omega
    simp only [attach_pass_usbsw, if_neg h12, if_pos hok]
    apply attach_decision_cases cfg client _ _ _ _ _ _ (attach_pre client st)
      (fun s => (attach_store cfg client s).usbsw =
        { st.usbsw with
          dev1 := attach_val1 cfg client, dev2 := attach_val2 cfg client,
          dev3 := client.read REG_DEVICE_TYPE3, adc := client.read REG_ADC,
          vbus := client.read REG_VBUSINVALID, carkit_dev := client.read REG_CARKIT_STATUS,
          jig_state := attach_jig client,
          mansw := attach_decision_mansw cfg (attach_val1 cfg client) (attach_val2 cfg client)
            (client.read REG_DEVICE_TYPE3) (client.read REG_CARKIT_STATUS)
            (client.read REG_ADC) st.usbsw.mansw })
    all_goals intros
    all_goals try simp only [attach_pre, ne_eq] at *
    all_goals simp only [attach_decision_mansw, ne_eq, *, if_true, if_false,
      not_true_eq_false, not_false_eq_true]
    all_goals try simp [attach_store]
    all_goals try simp_all
    all_goals (split_ifs <;> simp_all)
  case h_err1 =>
    intro e1
    have h12 : client.read REG_DEVICE_TYPE1 < 0 ∨ client.read REG_DEVICE_TYPE2 < 0 := Or.inl e1
    simp only [attach_pass_usbsw, if_pos h12]
  case h_err2 =>
    intro _ e2
    have h12 : client.read REG_DEVICE_TYPE1 < 0 ∨ client.read REG_DEVICE_TYPE2 < 0 := Or.inr e2
    simp only [attach_pass_usbsw, if_pos h12]
  all_goals intros
  all_goals
    have hbad : ¬ attach_reads_ok client = true := by
      rw [attach_reads_ok_iff]; omega
    have h12 : ¬ (client.read REG_DEVICE_TYPE1 < 0 ∨ client.read REG_DEVICE_TYPE2 < 0) := by
      omega
    simp only [attach_pass_usbsw, if_neg h12, if_neg hbad]

/-- The flag `uart_sm5502_connecting` after an attach pass. -/
theorem attach_dev_uart (cfg : Config) (client : I2cClient) (st : State) :
    (sm5502_attach_dev cfg client st).2.uart_sm5502_connecting =
      attach_pass_uart cfg client st.uart_sm5502_connecting := by
  apply attach_dev_cases cfg client st
    (fun r => r.2.uart_sm5502_connecting =
      attach_pass_uart cfg client st.uart_sm5502_connecting)
  case h_ok =>
    intro e1 e2 e3 e4 e5
    have hok : attach_reads_ok client = true := by
      rw [attach_reads_ok_iff]; omega
    simp only [attach_pass_uart, if_pos hok]
    apply attach_decision_cases cfg client _ _ _ _ _ _ (attach_pre client st)
      (fun s => (attach_store cfg client s).uart_sm5502_connecting =
        attach_decision_uart (attach_val1 cfg client) (attach_val2 cfg client)
          (client.read REG_DEVICE_TYPE3) (client.read REG_CARKIT_STATUS)
          st.uart_sm5502_connecting)
    all_goals intros
    all_goals try simp only [attach_pre, ne_eq] at *
    all_goals simp only [attach_decision_uart, ne_eq, *, if_true, if_false,
      not_true_eq_false, not_false_eq_true]
    all_goals try simp [attach_store]
  all_goals intros
  all_goals
    have hbad : ¬ attach_reads_ok client = true := by
      rw [attach_reads_ok_iff]; omega
    simp only [attach_pass_uart, if_neg hbad]

/-- The value an attach pass returns. -/
theorem attach_dev_ret (cfg : Config) (client : I2cClient) (st : State) :
    (sm5502_attach_dev cfg client st).1 = attach_pass_ret client := by
  apply attach_dev_cases cfg client st (fun r => r.1 = attach_pass_ret client)
  all_goals intros
  all_goals simp only [attach_pass_ret, *, if_true, if_false]

/-! ## The detach pass in closed form -/

/-- The register writes of a detach pass: those of the branch taken, then the
write of the default value to the control register. -/
theorem detach_dev_writes (cfg : Config) (client : I2cClient) (st : State) :
    regWrites (eventsSince st (sm5502_detach_dev cfg client st).2) =
      detach_decision_writes cfg st.usbsw (client.read REG_CONTROL) ++
        [(REG_CONTROL, u8 CON_MASK)] := by
  rw [detach_dev_eq]
  apply detach_decision_cases cfg client st
    (fun s => regWrites (eventsSince st (0, detach_store client s).2) =
      detach_decision_writes cfg st.usbsw (client.read REG_CONTROL) ++
        [(REG_CONTROL, u8 CON_MASK)])
  all_goals intros
  all_goals try simp only [ne_eq] at *
  all_goals simp only [detach_decision_writes, ne_eq, *, if_true, if_false,
    not_true_eq_false, not_false_eq_true]
  all_goals try simp [detach_store, detach, regWrites_rustproof, regWrites_set_otg,
    regWrites_dock_control]
  all_goals try simp_all

/-- The instance fields after a detach pass. -/
theorem detach_dev_usbsw (cfg : Config) (client : I2cClient) (st : State) :
    (sm5502_detach_dev cfg client st).2.usbsw = detach_pass_usbsw st.usbsw := by
  rw [detach_dev_eq]
  apply detach_decision_cases cfg client st
    (fun s => (0, detach_store client s).2.usbsw = detach_pass_usbsw st.usbsw)
  all_goals intros
  all_goals rfl

/-- The flag `uart_sm5502_connecting` after a detach pass. -/
theorem detach_dev_uart (cfg : Config) (client : I2cClient) (st : State) :
    (sm5502_detach_dev cfg client st).2.uart_sm5502_connecting =
      detach_decision_uart cfg st.usbsw st.uart_sm5502_connecting := by
  rw [detach_dev_eq]
  apply detach_decision_cases cfg client st
    (fun s => (0, detach_store client s).2.uart_sm5502_connecting =
      detach_decision_uart cfg st.usbsw st.uart_sm5502_connecting)
  all_goals intros
  all_goals try simp only [ne_eq] at *
  all_goals simp only [detach_decision_uart, ne_eq, *, if_true, if_false,
    not_true_eq_false, not_false_eq_true]
  all_goals try simp [detach_store]

/-! ## Branches of the attach chain -/

/-- Without the audio-dock override the attach decision works on the two
device-type registers as read. -/
theorem attach_vals_plain (cfg : Config) (client : I2cClient)
    (hadc : cfg.USB_HOST_NOTIFY = true → client.read REG_ADC ≠ ADC_AUDIO_DOCK) :
    attach_val1 cfg client = client.read REG_DEVICE_TYPE1 ∧
    attach_val2 cfg client = client.read REG_DEVICE_TYPE2 := by
  have hne : ¬ (cfg.USB_HOST_NOTIFY = true ∧ client.read REG_ADC = ADC_AUDIO_DOCK) :=
    fun h => hadc h.1 h.2
  constructor
  · unfold attach_val1; rw [if_neg hne]
  · unfold attach_val2; rw [if_neg hne]

/-- The UART-off branch without the rustproof override: one call, the variant
selected by bit 1 of the VBUS register. -/
theorem attach_uart_off_calls (cfg : Config) (client : I2cClient) (st : State)
    (hrp : st.usbsw.is_rustproof = false)
    (hok : attach_reads_ok client = true)
    (hno1 : ¬ (band (client.read REG_DEVICE_TYPE1) DEV_USB ≠ 0 ∨
      band (client.read REG_DEVICE_TYPE2) DEV_T2_USB_MASK ≠ 0 ∨
      band (client.read REG_CARKIT_STATUS) DEV_CARKIT_CHARGER1_MASK ≠ 0))
    (hno2 : ¬ band (client.read REG_DEVICE_TYPE3) DEV_NON_STANDARD ≠ 0)
    (hno3 : ¬ band (client.read REG_DEVICE_TYPE1) DEV_USB_CHG ≠ 0)
    (huart : band (client.read REG_DEVICE_TYPE1) DEV_T1_UART_MASK ≠ 0 ∨
      band (client.read REG_DEVICE_TYPE2) DEV_T2_UART_MASK ≠ 0)
    (hadc : cfg.USB_HOST_NOTIFY = true → client.read REG_ADC ≠ ADC_AUDIO_DOCK) :
    cableCalls (eventsSince st (sm5502_attach_dev cfg client st).2) =
      [(if band (client.read REG_VBUSINVALID) DEV_VBUSIN_VALID ≠ 0 then Cable.JIG_UARTOFF_VB
        else Cable.JIG_UARTOFF, true)] := by
  obtain ⟨hv1, hv2⟩ := attach_vals_plain cfg client hadc
  have hr : ¬ (cfg.MUIC_SUPPORT_RUSTPROOF = true ∧ st.usbsw.is_rustproof = true) := by
    rw [hrp]; simp
  rw [attach_dev_calls]
  unfold attach_pass_identity
  rw [if_pos hok, hv1, hv2]
  unfold attach_identity
  rw [if_neg hno1, if_neg hno2, if_neg hno3, if_pos huart, if_neg hr]
  by_cases v : band (client.read REG_VBUSINVALID) DEV_VBUSIN_VALID ≠ 0
  · rw [if_pos v, if_pos v]; rfl
  · rw [if_neg v, if_neg v]; rfl

/-- The attach chain selects OTG host only with ADC code `ADC_OTG`. -/
theorem attach_identity_usb_host (cfg : Config) (is_rustproof : Bool)
    (val1 val2 val3 val4 vbus adc : Int)
    (h : attach_identity cfg is_rustproof val1 val2 val3 val4 vbus adc = some Cable.USB_HOST) :
    cfg.USB_HOST_NOTIFY = true ∧ band val1 DEV_USB_OTG ≠ 0 ∧ adc = ADC_OTG := by
  unfold attach_identity at h
  by_cases c1 : (band val1 DEV_USB ≠ 0 ∨ band val2 DEV_T2_USB_MASK ≠ 0 ∨
      band val4 DEV_CARKIT_CHARGER1_MASK ≠ 0)
  · rw [if_pos c1] at h; exact absurd h (by decide)
  rw [if_neg c1] at h
  by_cases c2 : band val3 DEV_NON_STANDARD ≠ 0
  · rw [if_pos c2] at h; exact absurd h (by decide)
  rw [if_neg c2] at h
  by_cases c3 : band val1 DEV_USB_CHG ≠ 0
  · rw [if_pos c3] at h; exact absurd h (by decide)
  rw [if_neg c3] at h
  by_cases c4 : (band val1 DEV_T1_UART_MASK ≠ 0 ∨ band val2 DEV_T2_UART_MASK ≠ 0)
  · rw [if_pos c4] at h
    by_cases r : cfg.MUIC_SUPPORT_RUSTPROOF = true ∧ is_rustproof = true
    · rw [if_pos r] at h; exact absurd h (by decide)
    rw [if_neg r] at h
    by_cases v : band vbus DEV_VBUSIN_VALID ≠ 0
    · rw [if_pos v] at h; exact absurd h (by decide)
    · rw [if_neg v] at h; exact absurd h (by decide)
  rw [if_neg c4] at h
  by_cases c5 : (band val1 DEV_T1_CHARGER_MASK ≠ 0 ∨ band val3 DEV_T3_CHARGER_MASK ≠ 0)
  · rw [if_pos c5] at h; exact absurd h (by decide)
  rw [if_neg c5] at h
  by_cases c6 : (cfg.USB_HOST_NOTIFY = true ∧ (band val1 DEV_USB_OTG ≠ 0 ∧ adc = ADC_OTG))
  · exact c6
  rw [if_neg c6] at h
  by_cases c7 : (band val2 DEV_AV ≠ 0 ∨ band val3 DEV_AV_VBUS ≠ 0)
  · rw [if_pos c7] at h
    by_cases v : band vbus DEV_VBUSIN_VALID ≠ 0
    · rw [if_pos v] at h; exact absurd h (by decide)
    · rw [if_neg v] at h; exact absurd h (by decide)
  rw [if_neg c7] at h
  by_cases c8 : (cfg.VIDEO_MHL_V2 = true ∧ band val3 DEV_MHL ≠ 0)
  · rw [if_pos c8] at h; exact absurd h (by decide)
  rw [if_neg c8] at h
  by_cases c9 : band val2 DEV_JIG_UART_ON ≠ 0
  · rw [if_pos c9] at h
    by_cases f : cfg.SEC_FACTORY = true
    · rw [if_pos f] at h; exact absurd h (by decide)
    rw [if_neg f] at h
    by_cases r : cfg.MUIC_SUPPORT_RUSTPROOF = true
    · rw [if_pos r] at h; exact absurd h (by decide)
    · rw [if_neg r] at h; exact absurd h (by decide)
  rw [if_neg c9] at h
  by_cases c10 : (cfg.USB_HOST_NOTIFY = true ∧ band val2 DEV_AUDIO_DOCK ≠ 0)
  · rw [if_pos c10] at h; exact absurd h (by decide)
  rw [if_neg c10] at h
  by_cases c11 : band vbus DEV_VBUSIN_VALID ≠ 0
  · rw [if_pos c11] at h; exact absurd h (by decide)
  · rw [if_neg c11] at h; exact absurd h (by decide)

/-! ## The dispatcher -/

/-- Case rule for the dispatcher: one case per branch of its decision, each
with the state the branch starts in. -/
theorem irq_thread_cases (cfg : Config) (client : I2cClient) (st : State) (P : State → Prop)
    (h_both_detach : client.read REG_INT1 = INT_ATTACH + INT_DETACH →
      (client.read REG_ADC = ADC_OPEN ∧ client.read REG_DEVICE_TYPE1 = DATA_NONE ∧
        (client.read REG_DEVICE_TYPE3 = DATA_NONE ∨ client.read REG_VBUSINVALID = 0x00)) →
      P (mutex_unlock (sm5502_detach_dev cfg client (irq_pre_both client st)).2))
    (h_both_attach : client.read REG_INT1 = INT_ATTACH + INT_DETACH →
      ¬ (client.read REG_ADC = ADC_OPEN ∧ client.read REG_DEVICE_TYPE1 = DATA_NONE ∧
        (client.read REG_DEVICE_TYPE3 = DATA_NONE ∨ client.read REG_VBUSINVALID = 0x00)) →
      P (mutex_unlock (sm5502_attach_dev cfg client (irq_pre_both client st)).2))
    (h_attach : ¬ client.read REG_INT1 = INT_ATTACH + INT_DETACH →
      (band (client.read REG_INT1) INT_ATTACH ≠ 0 ∨
        band (client.read REG_INT2) INT_RESERVED_ATTACH ≠ 0) →
      P (mutex_unlock (sm5502_attach_dev cfg client (irq_pre client st)).2))
    (h_detach : ¬ client.read REG_INT1 = INT_ATTACH + INT_DETACH →
      ¬ (band (client.read REG_INT1) INT_ATTACH ≠ 0 ∨
        band (client.read REG_INT2) INT_RESERVED_ATTACH ≠ 0) →
      band (client.read REG_INT1) INT_DETACH ≠ 0 →
      P (mutex_unlock (sm5502_detach_dev cfg client (irq_pre client st)).2))
    (h_on_attach : ¬ client.read REG_INT1 = INT_ATTACH + INT_DETACH →
      ¬ (band (client.read REG_INT1) INT_ATTACH ≠ 0 ∨
        band (client.read REG_INT2) INT_RESERVED_ATTACH ≠ 0) →
      ¬ band (client.read REG_INT1) INT_DETACH ≠ 0 →
      client.read REG_INT2 = INT_VBUSOUT_ON →
      client.read REG_ADC = ADC_JIG_UART_OFF →
      P (mutex_unlock
        (sm5502_attach_dev cfg client (irq_otg_notify cfg true (irq_pre client st))).2))
    (h_on_ta : ¬ client.read REG_INT1 = INT_ATTACH + INT_DETACH →
      ¬ (band (client.read REG_INT1) INT_ATTACH ≠ 0 ∨
        band (client.read REG_INT2) INT_RESERVED_ATTACH ≠ 0) →
      ¬ band (client.read REG_INT1) INT_DETACH ≠ 0 →
      client.read REG_INT2 = INT_VBUSOUT_ON →
      ¬ client.read REG_ADC = ADC_JIG_UART_OFF →
      client.read REG_ADC = ADC_DESKDOCK →
      P (mutex_unlock
        (extcon_set_cable_state Cable.TA attach (irq_otg_notify cfg true (irq_pre client st)))))
    (h_on_none : ¬ client.read REG_INT1 = INT_ATTACH + INT_DETACH →
      ¬ (band (client.read REG_INT1) INT_ATTACH ≠ 0 ∨
        band (client.read REG_INT2) INT_RESERVED_ATTACH ≠ 0) →
      ¬ band (client.read REG_INT1) INT_DETACH ≠ 0 →
      client.read REG_INT2 = INT_VBUSOUT_ON →
      ¬ client.read REG_ADC = ADC_JIG_UART_OFF →
      ¬ client.read REG_ADC = ADC_DESKDOCK →
      P (mutex_unlock (irq_otg_notify cfg true (irq_pre client st))))
    (h_off_detach : ¬ client.read REG_INT1 = INT_ATTACH + INT_DETACH →
      ¬ (band (client.read REG_INT1) INT_ATTACH ≠ 0 ∨
        band (client.read REG_INT2) INT_RESERVED_ATTACH ≠ 0) →
      ¬ band (client.read REG_INT1) INT_DETACH ≠ 0 →
      ¬ client.read REG_INT2 = INT_VBUSOUT_ON →
      client.read REG_INT2 = INT_VBUSOUT_OFF →
      client.read REG_ADC = ADC_JIG_UART_OFF →
      P (mutex_unlock
        (sm5502_detach_dev cfg client (irq_otg_notify cfg false (irq_pre client st))).2))
    (h_off_ta : ¬ client.read REG_INT1 = INT_ATTACH + INT_DETACH →
      ¬ (band (client.read REG_INT1) INT_ATTACH ≠ 0 ∨
        band (client.read REG_INT2) INT_RESERVED_ATTACH ≠ 0) →
      ¬ band (client.read REG_INT1) INT_DETACH ≠ 0 →
      ¬ client.read REG_INT2 = INT_VBUSOUT_ON →
      client.read REG_INT2 = INT_VBUSOUT_OFF →
      ¬ client.read REG_ADC = ADC_JIG_UART_OFF →
      client.read REG_ADC = ADC_DESKDOCK →
      P (mutex_unlock
        (extcon_set_cable_state Cable.TA detach (irq_otg_notify cfg false (irq_pre client st)))))
    (h_off_none : ¬ client.read REG_INT1 = INT_ATTACH + INT_DETACH →
      ¬ (band (client.read REG_INT1) INT_ATTACH ≠ 0 ∨
        band (client.read REG_INT2) INT_RESERVED_ATTACH ≠ 0) →
      ¬ band (client.read REG_INT1) INT_DETACH ≠ 0 →
      ¬ client.read REG_INT2 = INT_VBUSOUT_ON →
      client.read REG_INT2 = INT_VBUSOUT_OFF →
      ¬ client.read REG_ADC = ADC_JIG_UART_OFF →
      ¬ client.read REG_ADC = ADC_DESKDOCK →
      P (mutex_unlock (irq_otg_notify cfg false (irq_pre client st))))
    (h_none : ¬ client.read REG_INT1 = INT_ATTACH + INT_DETACH →
      ¬ (band (client.read REG_INT1) INT_ATTACH ≠ 0 ∨
        band (client.read REG_INT2) INT_RESERVED_ATTACH ≠ 0) →
      ¬ band (client.read REG_INT1) INT_DETACH ≠ 0 →
      ¬ client.read REG_INT2 = INT_VBUSOUT_ON →
      ¬ client.read REG_INT2 = INT_VBUSOUT_OFF →
      P (mutex_unlock (irq_pre client st))) :
    P (sm5502_irq_thread cfg client st) := by
  have hpre : ({
      usbsw := st.usbsw
      uart_sm5502_connecting := st.uart_sm5502_connecting
      trace := st.trace ++ [Event.mutex_lock] ++ sm5502_disable_interrupt_events client ++
        [Event.read REG_INT1 (client.read REG_INT1)] ++
        [Event.read REG_INT2 (client.read REG_INT2)] ++
        sm5502_enable_interrupt_events client ++
        [Event.read REG_ADC (client.read REG_ADC)] } : State) = irq_pre client st := by
    simp [irq_pre, irq_prologue]
  have hboth : ({
      usbsw := st.usbsw
      uart_sm5502_connecting := st.uart_sm5502_connecting
      trace := st.trace ++ [Event.mutex_lock] ++ sm5502_disable_interrupt_events client ++
        [Event.read REG_INT1 (client.read REG_INT1)] ++
        [Event.read REG_INT2 (client.read REG_INT2)] ++
        sm5502_enable_interrupt_events client ++
        [Event.read REG_ADC (client.read REG_ADC)] ++
        [Event.read REG_DEVICE_TYPE1 (client.read REG_DEVICE_TYPE1)] ++
        [Event.read REG_DEVICE_TYPE3 (client.read REG_DEVICE_TYPE3)] ++
        [Event.read REG_VBUSINVALID (client.read REG_VBUSINVALID)] } : State) =
      irq_pre_both client st := by
    simp [irq_pre_both, irq_prologue, irq_both_reads]
  unfold sm5502_irq_thread
  simp only [i2c_smbus_read_byte_data, mutex_lock, sm5502_disable_interrupt_eq,
    sm5502_enable_interrupt_eq]
  rw [hpre, hboth]
  by_cases b : client.read REG_INT1 = INT_ATTACH + INT_DETACH
  · rw [if_pos b]
    by_cases d : (client.read REG_ADC = ADC_OPEN ∧ client.read REG_DEVICE_TYPE1 = DATA_NONE ∧
        (client.read REG_DEVICE_TYPE3 = DATA_NONE ∨ client.read REG_VBUSINVALID = 0x00))
    · rw [if_pos d]; exact h_both_detach b d
    · rw [if_neg d]; exact h_both_attach b d
  rw [if_neg b]
  by_cases a : (band (client.read REG_INT1) INT_ATTACH ≠ 0 ∨
      band (client.read REG_INT2) INT_RESERVED_ATTACH ≠ 0)
  · rw [if_pos a]; exact h_attach b a
  rw [if_neg a]
  by_cases d : band (client.read REG_INT1) INT_DETACH ≠ 0
  · rw [if_pos d]; exact h_detach b a d
  rw [if_neg d]
  by_cases von : client.read REG_INT2 = INT_VBUSOUT_ON
  · rw [if_pos von]
    by_cases j : client.read REG_ADC = ADC_JIG_UART_OFF
    · rw [if_pos j]; exact h_on_attach b a d von j
    rw [if_neg j]
    by_cases k : client.read REG_ADC = ADC_DESKDOCK
    · rw [if_pos k]; exact h_on_ta b a d von j k
    · rw [if_neg k]; exact h_on_none b a d von j k
  rw [if_neg von]
  by_cases voff : client.read REG_INT2 = INT_VBUSOUT_OFF
  · rw [if_pos voff]
    by_cases j : client.read REG_ADC = ADC_JIG_UART_OFF
    · rw [if_pos j]; exact h_off_detach b a d von voff j
    rw [if_neg j]
    by_cases k : client.read REG_ADC = ADC_DESKDOCK
    · rw [if_pos k]; exact h_off_ta b a d von voff j k
    · rw [if_neg k]; exact h_off_none b a d von voff j k
  rw [if_neg voff]
  exact h_none b a d von voff

theorem irq_otg_notify_eq (cfg : Config) (power_on : Bool) (st : State) :
    irq_otg_notify cfg power_on st =
      { st with trace := st.trace ++ irq_otg_events cfg power_on } := by
  unfold irq_otg_notify irq_otg_events
  by_cases h : cfg.USB_HOST_NOTIFY = true
  · rw [if_pos h, if_pos h]; rfl
  · rw [if_neg h, if_neg h]; simp

@[simp] theorem cableCalls_irq_prologue (client : I2cClient) :
    cableCalls (irq_prologue client) = [] := by
  simp [irq_prologue]

@[simp] theorem cableCalls_irq_both_reads (client : I2cClient) :
    cableCalls (irq_both_reads client) = [] := by
  simp [irq_both_reads]

@[simp] theorem cableCalls_irq_otg_events (cfg : Config) (power_on : Bool) :
    cableCalls (irq_otg_events cfg power_on) = [] := by
  unfold irq_otg_events
  by_cases h : cfg.USB_HOST_NOTIFY = true
  · rw [if_pos h]; simp
  · rw [if_neg h]; simp

theorem eventsSince_unlock (st X : State) (es : List Event)
    (h : X.trace = st.trace ++ es) :
    eventsSince st (mutex_unlock X) = es ++ [Event.mutex_unlock] := by
  simp [eventsSince, mutex_unlock, h]

/-- The events of a locked section that runs an attach pass after the events
`es`. -/
theorem eventsSince_unlock_attach (cfg : Config) (client : I2cClient) (st pre : State)
    (es : List Event) (hpre : pre.trace = st.trace ++ es) :
    eventsSince st (mutex_unlock (sm5502_attach_dev cfg client pre).2) =
      es ++ eventsSince pre (sm5502_attach_dev cfg client pre).2 ++ [Event.mutex_unlock] := by
  apply eventsSince_unlock
  rw [attach_dev_trace, hpre, List.append_assoc]

/-- The events of a locked section that runs a detach pass after the events
`es`. -/
theorem eventsSince_unlock_detach (cfg : Config) (client : I2cClient) (st pre : State)
    (es : List Event) (hpre : pre.trace = st.trace ++ es) :
    eventsSince st (mutex_unlock (sm5502_detach_dev cfg client pre).2) =
      es ++ eventsSince pre (sm5502_detach_dev cfg client pre).2 ++ [Event.mutex_unlock] := by
  apply eventsSince_unlock
  rw [detach_dev_trace, hpre, List.append_assoc]

/-- The Cable Sink calls of a locked section that runs an attach pass after
events without a Cable Sink call. -/
theorem unlock_attach_calls (cfg : Config) (client : I2cClient) (st pre : State)
    (es : List Event) (hpre : pre.trace = st.trace ++ es) (hes : cableCalls es = [])
    (hu : pre.usbsw = st.usbsw) :
    cableCalls (eventsSince st (mutex_unlock (sm5502_attach_dev cfg client pre).2)) =
      announce (attach_pass_identity cfg client st.usbsw.is_rustproof) true := by
  rw [eventsSince_unlock_attach cfg client st pre es hpre]
  simp [hes, attach_dev_calls, hu]

/-- The Cable Sink calls of a locked section that runs a detach pass after
events without a Cable Sink call. -/
theorem unlock_detach_calls (cfg : Config) (client : I2cClient) (st pre : State)
    (es : List Event) (hpre : pre.trace = st.trace ++ es) (hes : cableCalls es = [])
    (hu : pre.usbsw = st.usbsw) :
    cableCalls (eventsSince st (mutex_unlock (sm5502_detach_dev cfg client pre).2)) =
      announce (detach_identity cfg st.usbsw) false := by
  rw [eventsSince_unlock_detach cfg client st pre es hpre]
  simp [hes, detach_dev_calls, hu]

theorem irq_pre_notify_trace (cfg : Config) (client : I2cClient) (power_on : Bool)
    (st : State) :
    (irq_otg_notify cfg power_on (irq_pre client st)).trace =
      st.trace ++ (irq_prologue client ++ irq_otg_events cfg power_on) := by
  rw [irq_otg_notify_eq]
  simp [irq_pre]

theorem irq_pre_notify_usbsw (cfg : Config) (client : I2cClient) (power_on : Bool)
    (st : State) :
    (irq_otg_notify cfg power_on (irq_pre client st)).usbsw = st.usbsw := by
  rw [irq_otg_notify_eq]; rfl

theorem irq_pre_notify_uart (cfg : Config) (client : I2cClient) (power_on : Bool)
    (st : State) :
    (irq_otg_notify cfg power_on (irq_pre client st)).uart_sm5502_connecting =
      st.uart_sm5502_connecting := by
  rw [irq_otg_notify_eq]; rfl

/-- Bit 0 and bit 1 of the first interrupt-status byte are not both its only
bits when one of them is clear. -/
theorem int1_ne_both_of_attach_clear (x : Int) (h : ¬ band x INT_ATTACH ≠ 0) :
    ¬ x = INT_ATTACH + INT_DETACH := by
  intro e
  rw [e] at h
  exact h (by decide)

theorem int2_on_no_reserved (x : Int) (h : x = INT_VBUSOUT_ON) :
    ¬ band x INT_RESERVED_ATTACH ≠ 0 := by
  rw [h]; decide

theorem int2_off_no_reserved (x : Int) (h : x = INT_VBUSOUT_OFF) :
    ¬ band x INT_RESERVED_ATTACH ≠ 0 := by
  rw [h]; decide

theorem int2_off_ne_on (x : Int) (h : x = INT_VBUSOUT_OFF) : ¬ x = INT_VBUSOUT_ON := by
  rw [h]; decide

/-! ## The resume pass -/

/-- A resume pass that reads the three device-type registers as retained makes
no Cable Sink call and no register write and keeps the instance fields. -/
theorem resume_unchanged (cfg : Config) (client : I2cClient) (st : State)
    (e1 : st.usbsw.dev1 = client.read REG_DEVICE_TYPE1)
    (e2 : st.usbsw.dev2 = client.read REG_DEVICE_TYPE2)
    (e3 : st.usbsw.dev3 = client.read REG_DEVICE_TYPE3) :
    cableCalls (eventsSince st (sm5502_resume cfg client st).2) = [] ∧
    regWrites (eventsSince st (sm5502_resume cfg client st).2) = [] ∧
    (sm5502_resume cfg client st).2.usbsw = st.usbsw := by
  have hsame : ¬ (st.usbsw.dev1 ≠ client.read REG_DEVICE_TYPE1 ∨
      st.usbsw.dev2 ≠ client.read REG_DEVICE_TYPE2 ∨
      st.usbsw.dev3 ≠ client.read REG_DEVICE_TYPE3) := by
    rw [e1, e2, e3]; simp
  unfold sm5502_resume
  simp only [i2c_smbus_read_byte_data]
  by_cases f1 : client.read REG_DEVICE_TYPE1 < 0
  · rw [if_pos f1]; simp [eventsSince]
  rw [if_neg f1]
  by_cases f2 : client.read REG_DEVICE_TYPE2 < 0
  · rw [if_pos f2]; simp [eventsSince]
  rw [if_neg f2]
  by_cases f3 : client.read REG_DEVICE_TYPE3 < 0
  · rw [if_pos f3]; simp [eventsSince]
  rw [if_neg f3, if_neg hsame]
  simp [eventsSince]

/-- After a complete attach pass without the audio-dock override, a resume pass
over the same registers makes no Cable Sink call. -/
theorem resume_after_attach_quiet (cfg : Config) (client : I2cClient) (st : State)
    (hok : attach_reads_ok client = true)
    (hadc : cfg.USB_HOST_NOTIFY = true → client.read REG_ADC ≠ ADC_AUDIO_DOCK) :
    cableCalls (eventsSince (sm5502_attach_dev cfg client st).2
      (sm5502_resume cfg client (sm5502_attach_dev cfg client st).2).2) = [] := by
  obtain ⟨hv1, hv2⟩ := attach_vals_plain cfg client hadc
  obtain ⟨_, d1, d2, d3, _⟩ := attach_dev_fields_ok cfg client st hok
  exact (resume_unchanged cfg client _ (by rw [d1, hv1]) (by rw [d2, hv2]) d3).1

/-! ## Independence of the outcome of register writes -/

/-- The closed forms of the attach pass depend on the device only through what
its registers read. -/
theorem attach_pass_congr (cfg : Config) (c1 c2 : I2cClient) (h : c1.read = c2.read)
    (is_rustproof : Bool) (u : Usbsw) (old : Int) :
    attach_pass_identity cfg c1 is_rustproof = attach_pass_identity cfg c2 is_rustproof ∧
    attach_pass_writes cfg c1 is_rustproof = attach_pass_writes cfg c2 is_rustproof ∧
    attach_pass_usbsw cfg c1 u = attach_pass_usbsw cfg c2 u ∧
    attach_pass_uart cfg c1 old = attach_pass_uart cfg c2 old ∧
    attach_pass_ret c1 = attach_pass_ret c2 := by
  cases c1 with
  | mk r1 w1 =>
    cases c2 with
    | mk r2 w2 =>
      have h2 : r1 = r2 := h
      subst h2
      exact ⟨rfl, rfl, rfl, rfl, rfl⟩

/-! ## The audio-dock override -/

/-- With the audio-dock override the attach decision works on `val1 = 0` and
`val2 = DEV_AUDIO_DOCK`. -/
theorem attach_vals_audio_dock (cfg : Config) (client : I2cClient)
    (hcfg : cfg.USB_HOST_NOTIFY = true) (hadc : client.read REG_ADC = ADC_AUDIO_DOCK) :
    attach_val1 cfg client = 0 ∧ attach_val2 cfg client = DEV_AUDIO_DOCK := by
  have h : cfg.USB_HOST_NOTIFY = true ∧ client.read REG_ADC = ADC_AUDIO_DOCK := ⟨hcfg, hadc⟩
  constructor
  · unfold attach_val1; rw [if_pos h]
  · unfold attach_val2; rw [if_pos h]

/-- The attach chain on the values of the audio-dock override. -/
theorem attach_identity_audio_dock (cfg : Config) (is_rustproof : Bool)
    (val3 val4 vbus adc : Int) (hcfg : cfg.USB_HOST_NOTIFY = true) :
    attach_identity cfg is_rustproof 0 DEV_AUDIO_DOCK val3 val4 vbus adc =
      audio_dock_adc_identity cfg val3 val4 vbus := by
  have k1 : band DEV_AUDIO_DOCK DEV_T2_USB_MASK = 0 := by decide
  have k2 : band DEV_AUDIO_DOCK DEV_T2_UART_MASK = 0 := by decide
  have k3 : band DEV_AUDIO_DOCK DEV_AV = 0 := by decide
  have k4 : band DEV_AUDIO_DOCK DEV_JIG_UART_ON = 0 := by decide
  have k5 : band DEV_AUDIO_DOCK DEV_AUDIO_DOCK ≠ 0 := by decide
  unfold attach_identity audio_dock_adc_identity
  by_cases c1 : band val4 DEV_CARKIT_CHARGER1_MASK ≠ 0
  · rw [if_pos (Or.inr (Or.inr c1)), if_pos c1]
  have c1n : ¬ (band 0 DEV_USB ≠ 0 ∨ band DEV_AUDIO_DOCK DEV_T2_USB_MASK ≠ 0 ∨
      band val4 DEV_CARKIT_CHARGER1_MASK ≠ 0) := by
    rw [band_zero_left, k1]; simpa using c1
  rw [if_neg c1n, if_neg c1]
  by_cases c2 : band val3 DEV_NON_STANDARD ≠ 0
  · rw [if_pos c2, if_pos c2]
  rw [if_neg c2, if_neg c2]
  have c3n : ¬ band 0 DEV_USB_CHG ≠ 0 := by rw [band_zero_left]; simp
  have c4n : ¬ (band 0 DEV_T1_UART_MASK ≠ 0 ∨ band DEV_AUDIO_DOCK DEV_T2_UART_MASK ≠ 0) := by
    rw [band_zero_left, k2]; simp
  rw [if_neg c3n, if_neg c4n]
  by_cases c5 : band val3 DEV_T3_CHARGER_MASK ≠ 0
  · rw [if_pos (Or.inr c5), if_pos c5]
  have c5n : ¬ (band 0 DEV_T1_CHARGER_MASK ≠ 0 ∨ band val3 DEV_T3_CHARGER_MASK ≠ 0) := by
    rw [band_zero_left]; simpa using c5
  have c6n : ¬ (cfg.USB_HOST_NOTIFY = true ∧ (band 0 DEV_USB_OTG ≠ 0 ∧ adc = ADC_OTG)) := by
    rw [band_zero_left]; simp
  rw [if_neg c5n, if_neg c5, if_neg c6n]
  by_cases c7 : band val3 DEV_AV_VBUS ≠ 0
  · rw [if_pos (Or.inr c7), if_pos c7]
  have c7n : ¬ (band DEV_AUDIO_DOCK DEV_AV ≠ 0 ∨ band val3 DEV_AV_VBUS ≠ 0) := by
    rw [k3]; simpa using c7
  rw [if_neg c7n, if_neg c7]
  by_cases c8 : cfg.VIDEO_MHL_V2 = true ∧ band val3 DEV_MHL ≠ 0
  · rw [if_pos c8, if_pos c8]
  have c9n : ¬ band DEV_AUDIO_DOCK DEV_JIG_UART_ON ≠ 0 := by rw [k4]; simp
  rw [if_neg c8, if_neg c8, if_neg c9n, if_pos ⟨hcfg, k5⟩]

/-- The register writes of the attach chain on the values of the audio-dock
override, when nothing before the audio-dock branch matches. -/
theorem attach_writes_audio_dock (cfg : Config) (is_rustproof : Bool)
    (ctrl val3 val4 vbus adc : Int) (hcfg : cfg.USB_HOST_NOTIFY = true)
    (c1 : ¬ band val4 DEV_CARKIT_CHARGER1_MASK ≠ 0)
    (c2 : ¬ band val3 DEV_NON_STANDARD ≠ 0)
    (c5 : ¬ band val3 DEV_T3_CHARGER_MASK ≠ 0)
    (c7 : ¬ band val3 DEV_AV_VBUS ≠ 0)
    (c8 : ¬ (cfg.VIDEO_MHL_V2 = true ∧ band val3 DEV_MHL ≠ 0)) :
    attach_decision_writes cfg is_rustproof ctrl 0 DEV_AUDIO_DOCK val3 val4 vbus adc =
      sm5502_dock_control_writes ctrl attach SW_DHOST := by
  have k1 : band DEV_AUDIO_DOCK DEV_T2_USB_MASK = 0 := by decide
  have k2 : band DEV_AUDIO_DOCK DEV_T2_UART_MASK = 0 := by decide
  have k3 : band DEV_AUDIO_DOCK DEV_AV = 0 := by decide
  have k4 : band DEV_AUDIO_DOCK DEV_JIG_UART_ON = 0 := by decide
  have k5 : band DEV_AUDIO_DOCK DEV_AUDIO_DOCK ≠ 0 := by decide
  have c1n : ¬ (band 0 DEV_USB ≠ 0 ∨ band DEV_AUDIO_DOCK DEV_T2_USB_MASK ≠ 0 ∨
      band val4 DEV_CARKIT_CHARGER1_MASK ≠ 0) := by
    rw [band_zero_left, k1]; simpa using c1
  have c3n : ¬ band 0 DEV_USB_CHG ≠ 0 := by rw [band_zero_left]; simp
  have c4n : ¬ (band 0 DEV_T1_UART_MASK ≠ 0 ∨ band DEV_AUDIO_DOCK DEV_T2_UART_MASK ≠ 0) := by
    rw [band_zero_left, k2]; simp
  have c5n : ¬ (band 0 DEV_T1_CHARGER_MASK ≠ 0 ∨ band val3 DEV_T3_CHARGER_MASK ≠ 0) := by
    rw [band_zero_left]; simpa using c5
  have c6n : ¬ (cfg.USB_HOST_NOTIFY = true ∧ (band 0 DEV_USB_OTG ≠ 0 ∧ adc = ADC_OTG)) := by
    rw [band_zero_left]; simp
  have c7n : ¬ (band DEV_AUDIO_DOCK DEV_AV ≠ 0 ∨ band val3 DEV_AV_VBUS ≠ 0) := by
    rw [k3]; simpa using c7
  have c9n : ¬ band DEV_AUDIO_DOCK DEV_JIG_UART_ON ≠ 0 := by rw [k4]; simp
  unfold attach_decision_writes
  rw [if_neg c1n, if_neg c2, if_neg c3n, if_neg c4n, if_neg c5n, if_neg c6n, if_neg c7n,
    if_neg c8, if_neg c9n, if_pos ⟨hcfg, k5⟩]

/-! ## The other entry points -/

/-- The events of an attach pass that starts after the events `es`. -/
theorem eventsSince_attach_after (cfg : Config) (client : I2cClient) (st pre : State)
    (es : List Event) (hpre : pre.trace = st.trace ++ es) :
    eventsSince st (sm5502_attach_dev cfg client pre).2 =
      es ++ eventsSince pre (sm5502_attach_dev cfg client pre).2 := by
  have h : (sm5502_attach_dev cfg client pre).2.trace =
      st.trace ++ (es ++ eventsSince pre (sm5502_attach_dev cfg client pre).2) := by
    rw [attach_dev_trace, hpre, List.append_assoc]
  conv_lhs => unfold eventsSince
  rw [h]
  simp

/-- The events of the startup pass: one attach pass inside the lock, then the
two interrupt-status reads. -/
theorem init_detect_events (cfg : Config) (client : I2cClient) (st : State) :
    eventsSince st (sm5502_init_detect cfg client st) =
      [Event.mutex_lock] ++
        eventsSince (mutex_lock st) (sm5502_attach_dev cfg client (mutex_lock st)).2 ++
        [Event.mutex_unlock, Event.read REG_INT1 (client.read REG_INT1),
          Event.read REG_INT2 (client.read REG_INT2)] := by
  have h : (sm5502_attach_dev cfg client (mutex_lock st)).2.trace =
      st.trace ++ ([Event.mutex_lock] ++
        eventsSince (mutex_lock st) (sm5502_attach_dev cfg client (mutex_lock st)).2) := by
    rw [attach_dev_trace]
    simp [mutex_lock]
  unfold sm5502_init_detect
  simp only [i2c_smbus_read_byte_data, mutex_unlock]
  conv_lhs => unfold eventsSince
  simp only [h]
  simp

/-- The Cable Sink calls of the startup pass are those of its attach pass. -/
theorem init_detect_calls (cfg : Config) (client : I2cClient) (st : State) :
    cableCalls (eventsSince st (sm5502_init_detect cfg client st)) =
      announce (attach_pass_identity cfg client st.usbsw.is_rustproof) true := by
  rw [init_detect_events]
  simp [attach_dev_calls, mutex_lock]

/-- The Cable Sink calls of a write to `uart_en` are those of the attach pass it
ends with, run under the override setting just written. -/
theorem uart_en_store_calls (cfg : Config) (client : I2cClient) (buf : List Char)
    (st : State) :
    cableCalls (eventsSince st (uart_en_store cfg client buf st)) =
      announce (attach_pass_identity cfg client (decide (¬ buf.head? = some '1'))) true := by
  unfold uart_en_store
  by_cases hb : buf.head? = some '1'
  · simp only [if_pos hb, muic_rustproof_feature_eq]
    rw [eventsSince_attach_after cfg client st _ (muic_rustproof_feature_events client detach)
      rfl]
    simp [attach_dev_calls, hb]
  · simp only [if_neg hb]
    rw [eventsSince_attach_after cfg client st _ [] (by simp)]
    simp [attach_dev_calls, hb]

/-- A resume pass whose first read fails does nothing more. -/
theorem resume_first_read_fails (cfg : Config) (client : I2cClient) (st : State)
    (h : client.read REG_DEVICE_TYPE1 < 0) :
    eventsSince st (sm5502_resume cfg client st).2 =
      [Event.read REG_DEVICE_TYPE1 (client.read REG_DEVICE_TYPE1)] := by
  unfold sm5502_resume
  simp only [i2c_smbus_read_byte_data]
  rw [if_pos h]
  simp [eventsSince]

/-- An attach pass over a device whose first read fails announces nothing. -/
theorem attach_pass_identity_of_fail (cfg : Config) (client : I2cClient)
    (is_rustproof : Bool) (h : client.read REG_DEVICE_TYPE1 < 0) :
    attach_pass_identity cfg client is_rustproof = none := by
  have hbad : ¬ attach_reads_ok client = true := by
    rw [attach_reads_ok_iff]; omega
  unfold attach_pass_identity
  rw [if_neg hbad]

/-! ## The four JIG bits -/

/-- C `x & m` for a mask `m` within the low four bits, on the bit pattern of
`x`. -/
theorem band_low4 (x : Int) (k : Nat) (hk : k < 16) (m : Int) (hm : toU32 m = k) :
    band x m = (((toU32 x % 16) &&& k : Nat) : Int) := by
  have hk2 : k &&& 15 = k := by
    have := Nat.and_pow_two_sub_one_eq_mod k 4
    norm_num at this
    rw [this]; omega
  have hn : toU32 x &&& 15 = toU32 x % 16 := by
    have := Nat.and_pow_two_sub_one_eq_mod (toU32 x) 4
    norm_num at this
    exact this
  have he : toU32 x &&& k = (toU32 x % 16) &&& k := by
    rw [← hn, Nat.and_assoc, Nat.and_comm 15 k, hk2]
  have hle : (toU32 x % 16) &&& k ≤ k := Nat.and_le_right
  unfold band ofU32
  rw [hm, he]
  have : ((toU32 x % 16) &&& k) % 4294967296 = (toU32 x % 16) &&& k := by omega
  rw [this, if_pos (by omega)]

/-- The mask `DEV_T2_JIG_ALL_MASK` selects a bit exactly when one of the four JIG
bits is set. -/
theorem band_jig_all (x : Int) :
    band x DEV_T2_JIG_ALL_MASK ≠ 0 ↔
      (band x DEV_JIG_USB_ON ≠ 0 ∨ band x DEV_JIG_USB_OFF ≠ 0 ∨
        band x DEV_JIG_UART_ON ≠ 0 ∨ band x DEV_JIG_UART_OFF ≠ 0) := by
  rw [band_low4 x 15 (by decide) DEV_T2_JIG_ALL_MASK (by decide),
    band_low4 x 1 (by decide) DEV_JIG_USB_ON (by decide),
    band_low4 x 2 (by decide) DEV_JIG_USB_OFF (by decide),
    band_low4 x 4 (by decide) DEV_JIG_UART_ON (by decide),
    band_low4 x 8 (by decide) DEV_JIG_UART_OFF (by decide)]
  have hr : toU32 x % 16 < 16 := Nat.mod_lt _ (by decide)
  generalize toU32 x % 16 = r at hr
  have key : ∀ r : Fin 16, ((r.val &&& 15 : Nat) : Int) ≠ 0 ↔
      (((r.val &&& 1 : Nat) : Int) ≠ 0 ∨ ((r.val &&& 2 : Nat) : Int) ≠ 0 ∨
        ((r.val &&& 4 : Nat) : Int) ≠ 0 ∨ ((r.val &&& 8 : Nat) : Int) ≠ 0) := by
    decide
  exact key ⟨r, hr⟩

/-! ## The MHL branch and the flag `uart_sm5502_connecting` -/

/-- The MHL branch of the attach pass (compiled with `CONFIG_VIDEO_MHL_V2`):
no Cable Sink call; the control register is written twice, first with the
interrupt-mask bit set in the byte read from it, then with that bit cleared. -/
theorem attach_mhl_branch (cfg : Config) (client : I2cClient) (st : State)
    (hcfg : cfg.VIDEO_MHL_V2 = true)
    (hok : attach_reads_ok client = true)
    (hmhl : band (client.read REG_DEVICE_TYPE3) DEV_MHL ≠ 0)
    (hno1 : ¬ (band (client.read REG_DEVICE_TYPE1) DEV_USB ≠ 0 ∨
      band (client.read REG_DEVICE_TYPE2) DEV_T2_USB_MASK ≠ 0 ∨
      band (client.read REG_CARKIT_STATUS) DEV_CARKIT_CHARGER1_MASK ≠ 0))
    (hno2 : ¬ band (client.read REG_DEVICE_TYPE3) DEV_NON_STANDARD ≠ 0)
    (hno3 : ¬ band (client.read REG_DEVICE_TYPE1) DEV_USB_CHG ≠ 0)
    (hno4 : ¬ (band (client.read REG_DEVICE_TYPE1) DEV_T1_UART_MASK ≠ 0 ∨
      band (client.read REG_DEVICE_TYPE2) DEV_T2_UART_MASK ≠ 0))
    (hno5 : ¬ (band (client.read REG_DEVICE_TYPE1) DEV_T1_CHARGER_MASK ≠ 0 ∨
      band (client.read REG_DEVICE_TYPE3) DEV_T3_CHARGER_MASK ≠ 0))
    (hno6 : ¬ (cfg.USB_HOST_NOTIFY = true ∧
      (band (client.read REG_DEVICE_TYPE1) DEV_USB_OTG ≠ 0 ∧ client.read REG_ADC = ADC_OTG)))
    (hno7 : ¬ (band (client.read REG_DEVICE_TYPE2) DEV_AV ≠ 0 ∨
      band (client.read REG_DEVICE_TYPE3) DEV_AV_VBUS ≠ 0))
    (hadc : cfg.USB_HOST_NOTIFY = true → client.read REG_ADC ≠ ADC_AUDIO_DOCK) :
    cableCalls (eventsSince st (sm5502_attach_dev cfg client st).2) = [] ∧
    regWrites (eventsSince st (sm5502_attach_dev cfg client st).2) =
      [(REG_CONTROL, u8 (bor (client.read REG_CONTROL) CON_INT_MASK)),
        (REG_CONTROL, u8 (band (client.read REG_CONTROL) (bnot CON_INT_MASK)))] := by
  obtain ⟨hv1, hv2⟩ := attach_vals_plain cfg client hadc
  have c8 : cfg.VIDEO_MHL_V2 = true ∧ band (client.read REG_DEVICE_TYPE3) DEV_MHL ≠ 0 :=
    ⟨hcfg, hmhl⟩
  constructor
  · rw [attach_dev_calls]
    unfold attach_pass_identity
    rw [if_pos hok, hv1, hv2]
    unfold attach_identity
    rw [if_neg hno1, if_neg hno2, if_neg hno3, if_neg hno4, if_neg hno5, if_neg hno6,
      if_neg hno7, if_pos c8]
    rfl
  · rw [attach_dev_writes]
    unfold attach_pass_writes
    rw [if_pos hok, hv1, hv2]
    unfold attach_decision_writes
    rw [if_neg hno1, if_neg hno2, if_neg hno3, if_neg hno4, if_neg hno5, if_neg hno6,
      if_neg hno7, if_pos c8]

/-- The detach decision never sets the flag `uart_sm5502_connecting`. -/
theorem detach_decision_uart_zero (cfg : Config) (u : Usbsw) :
    detach_decision_uart cfg u 0 = 0 := by
  unfold detach_decision_uart
  by_cases c1 : (band u.dev1 DEV_USB ≠ 0 ∨ band u.dev2 DEV_T2_USB_MASK ≠ 0 ∨
      band u.carkit_dev DEV_CARKIT_CHARGER1_MASK ≠ 0)
  · rw [if_pos c1]
  rw [if_neg c1]
  by_cases c2 : band u.dev1 DEV_USB_CHG ≠ 0
  · rw [if_pos c2]
  rw [if_neg c2]
  by_cases c3 : band u.dev3 DEV_NON_STANDARD ≠ 0
  · rw [if_pos c3]
  rw [if_neg c3]
  by_cases c4 : (band u.dev1 DEV_T1_UART_MASK ≠ 0 ∨ band u.dev2 DEV_T2_UART_MASK ≠ 0)
  · rw [if_pos c4]
    by_cases r : cfg.MUIC_SUPPORT_RUSTPROOF = true ∧ u.is_rustproof = true
    · rw [if_pos r]
    · rw [if_neg r]
  · rw [if_neg c4]

/-- Where the attach decision sets the flag `uart_sm5502_connecting`, the detach
decision over the same values, without the rustproof override, clears it. -/
theorem detach_decision_uart_after_attach (cfg : Config) (u : Usbsw)
    (hr : ¬ (cfg.MUIC_SUPPORT_RUSTPROOF = true ∧ u.is_rustproof = true)) (old : Int)
    (h : attach_decision_uart u.dev1 u.dev2 u.dev3 u.carkit_dev 0 ≠ 0) :
    detach_decision_uart cfg u old = 0 := by
  unfold attach_decision_uart at h
  unfold detach_decision_uart
  by_cases c1 : (band u.dev1 DEV_USB ≠ 0 ∨ band u.dev2 DEV_T2_USB_MASK ≠ 0 ∨
      band u.carkit_dev DEV_CARKIT_CHARGER1_MASK ≠ 0)
  · rw [if_pos c1] at h; exact absurd rfl h
  rw [if_neg c1] at h
  rw [if_neg c1]
  by_cases c3 : band u.dev3 DEV_NON_STANDARD ≠ 0
  · rw [if_pos c3] at h; exact absurd rfl h
  rw [if_neg c3] at h
  by_cases c2 : band u.dev1 DEV_USB_CHG ≠ 0
  · rw [if_pos c2] at h; exact absurd rfl h
  rw [if_neg c2] at h
  rw [if_neg c2, if_neg c3]
  by_cases c4 : (band u.dev1 DEV_T1_UART_MASK ≠ 0 ∨ band u.dev2 DEV_T2_UART_MASK ≠ 0)
  · rw [if_pos c4, if_neg hr]
  · rw [if_neg c4] at h; exact absurd rfl h

/-- Without the rustproof override, an attach pass that starts with the flag
`uart_sm5502_connecting` at 0, followed by a detach pass, leaves the flag at
0. -/
theorem uart_flag_round_trip (cfg : Config) (client client2 : I2cClient) (st : State)
    (hr : ¬ (cfg.MUIC_SUPPORT_RUSTPROOF = true ∧ st.usbsw.is_rustproof = true))
    (h0 : st.uart_sm5502_connecting = 0) :
    (sm5502_detach_dev cfg client2
      (sm5502_attach_dev cfg client st).2).2.uart_sm5502_connecting = 0 := by
  rw [detach_dev_uart, attach_dev_uart, attach_dev_usbsw, h0]
  unfold attach_pass_uart
  by_cases hok : attach_reads_ok client = true
  · rw [if_pos hok]
    by_cases hz : attach_decision_uart (attach_val1 cfg client) (attach_val2 cfg client)
        (client.read REG_DEVICE_TYPE3) (client.read REG_CARKIT_STATUS) 0 = 0
    · rw [hz]; exact detach_decision_uart_zero cfg _
    · have h12 : ¬ (client.read REG_DEVICE_TYPE1 < 0 ∨ client.read REG_DEVICE_TYPE2 < 0) := by
        have := (attach_reads_ok_iff client).mp hok
        omega
      apply detach_decision_uart_after_attach
      · unfold attach_pass_usbsw
        rw [if_neg h12, if_pos hok]
        exact hr
      · unfold attach_pass_usbsw
        rw [if_neg h12, if_pos hok]
        exact hz
  · rw [if_neg hok]; exact detach_decision_uart_zero cfg _

/-! # The claims -/

/-! ## C1 -/

/-- C1: for every register content, override setting and build, one attach
pass makes at most one Cable Sink call, and any call it makes has
`attached = true`. -/
theorem attach_pass_at_most_one_announcement (cfg : Config) (client : I2cClient) (st : State) :
    (cableCalls (eventsSince st (sm5502_attach_dev cfg client st).2)).length ≤ 1 ∧
    ∀ c ∈ cableCalls (eventsSince st (sm5502_attach_dev cfg client st).2), c.2 = true := by
  apply attach_dev_cases cfg client st
    (fun r => (cableCalls (eventsSince st r.2)).length ≤ 1 ∧
      ∀ c ∈ cableCalls (eventsSince st r.2), c.2 = true)
  case h_ok =>
    intro _ _ _ _ _
    apply attach_decision_cases cfg client _ _ _ _ _ _ (attach_pre client st)
      (fun s => (cableCalls (eventsSince st (attach_store cfg client s))).length ≤ 1 ∧
        ∀ c ∈ cableCalls (eventsSince st (attach_store cfg client s)), c.2 = true)
    all_goals intros
    all_goals simp [attach]
  all_goals intros
  all_goals simp

/-! ## C2 -/

/-- C2 (counterexample): in the plain build, from the empty Session State, an
attach pass on a USB snapshot followed by an attach pass on a dedicated-charger
snapshot reports TA attached while USB, reported attached by the first pass,
has not been retracted. -/
theorem second_attach_does_not_retract :
    cableCalls (eventsSince (State.init false)
      (run_passes Config.plain
        [Pass.attach (regFile 0x04 0 0 0 0 0x1f 0x1e),
          Pass.attach (regFile 0x40 0 0 0 0 0x1f 0x1e)] (State.init false))) =
      [(Cable.USB, true), (Cable.TA, true)] ∧
    single_slot [] (cableCalls (eventsSince (State.init false)
      (run_passes Config.plain
        [Pass.attach (regFile 0x04 0 0 0 0 0x1f 0x1e),
          Pass.attach (regFile 0x40 0 0 0 0 0x1f 0x1e)] (State.init false)))) = false := by
  decide

/-- C2 (amended): in every sequence of attach and detach passes starting from
the empty Session State in which no attach pass directly follows another attach
pass, and whose attach snapshots are free of the patterns on which the detach
chain departs from the attach chain (`mirror_safe`), an attach pass never
reports an identity attached while a different identity reported attached
earlier is still un-retracted: the detach pass before it retracted the previous
identity.  An attach pass itself never retracts: every call it makes has
`attached = true`. -/
theorem single_slot_of_alternating_passes (cfg : Config) (passes : List Pass) (st : State)
    (hst : st.session = Session.empty)
    (halt : alternating false passes = true)
    (hsafe : passes.all (Pass.mirror_safe cfg) = true) :
    single_slot [] (cableCalls (eventsSince st (run_passes cfg passes st))) = true ∧
    ∀ (client : I2cClient) (s : State),
      ∀ call ∈ cableCalls (eventsSince s (sm5502_attach_dev cfg client s).2),
        call.2 = true := by
  have hz := (session_empty_iff st).mp hst
  have hnone : detach_identity cfg st.usbsw = none :=
    detach_identity_of_zero cfg st.usbsw hz.1 hz.2.1 hz.2.2.1 hz.2.2.2.2.1 hz.2.2.2.2.2.1
  refine ⟨single_slot_run cfg passes st false [] halt hsafe (by rw [hnone]; rfl)
    (fun _ => ⟨hz.1, hz.2.1, hz.2.2.1, hz.2.2.2.2.1, hz.2.2.2.2.2.1⟩), ?_⟩
  intro client s call hcall
  rw [attach_dev_calls] at hcall
  exact announce_mem _ _ _ hcall

/-- Witness for C2: two attach / detach cycles (USB, then dedicated charger) in a
build with `CONFIG_USB_HOST_NOTIFY` and `CONFIG_MUIC_SUPPORT_RUSTPROOF`. -/
theorem single_slot_of_alternating_passes_witness :
    single_slot [] (cableCalls (eventsSince (State.init false)
      (run_passes Config.host_rustproof
        [Pass.attach (regFile 0x04 0 0 0 0x02 0x1f 0x1e),
          Pass.detach (regFile 0 0 0 0 0 0x1f 0x1e),
          Pass.attach (regFile 0x40 0 0 0 0x02 0x1f 0x1e),
          Pass.detach (regFile 0 0 0 0 0 0x1f 0x1e)] (State.init false)))) = true :=
  (single_slot_of_alternating_passes Config.host_rustproof
    [Pass.attach (regFile 0x04 0 0 0 0x02 0x1f 0x1e),
      Pass.detach (regFile 0 0 0 0 0 0x1f 0x1e),
      Pass.attach (regFile 0x40 0 0 0 0x02 0x1f 0x1e),
      Pass.detach (regFile 0 0 0 0 0 0x1f 0x1e)] (State.init false)
    (by decide) (by decide) (by decide)).1

/-! ## C3 -/

/-- C3 (evaluation at the failing input): in the plain build, from the empty
Session State, a snapshot with the CDP bit of device_type_1 and the
non-standard bit of device_type_3 makes the attach pass report USB attached,
and the detach pass that follows retracts CHARGE_DOWNSTREAM instead of USB. -/
theorem detach_retracts_other_identity :
    cableCalls (eventsSince (State.init false)
      (sm5502_attach_dev Config.plain (regFile 0x20 0 0x04 0 0 0x1f 0x1e)
        (State.init false)).2) = [(Cable.USB, true)] ∧
    cableCalls (eventsSince
      (sm5502_attach_dev Config.plain (regFile 0x20 0 0x04 0 0 0x1f 0x1e)
        (State.init false)).2
      (sm5502_detach_dev Config.plain (regFile 0 0 0 0 0 0x1f 0x1e)
        (sm5502_attach_dev Config.plain (regFile 0x20 0 0x04 0 0 0x1f 0x1e)
          (State.init false)).2).2) = [(Cable.CHARGE_DOWNSTREAM, false)] := by
  decide

/-! ## C4 -/

/-- C4 (counterexample): in a build with `CONFIG_USB_HOST_NOTIFY`, a snapshot
whose device_type_1 has both the USB bit and the dedicated-charger bit set, with
the U200-charger bit in device_type_3 and ADC code 0x12, is reported as the
dedicated charger (TA), not as USB. -/
theorem usb_bit_lost_on_audio_dock_adc :
    band 0x44 DEV_USB ≠ 0 ∧ band 0x44 DEV_DEDICATED_CHG ≠ 0 ∧
    cableCalls (eventsSince (State.init false)
      (sm5502_attach_dev Config.host_rustproof (regFile 0x44 0 0x40 0 0 0x12 0x1e)
        (State.init false)).2) = [(Cable.TA, true)] := by
  decide

/-- C4 (amended): for every snapshot (all five checked reads succeed) in which
device_type_1 has both the USB bit and the dedicated-charger bit set, whatever
the other fields and the override setting are, the attach pass reports exactly
USB attached, hence never the dedicated charger, provided the build has no
`CONFIG_USB_HOST_NOTIFY` or the ADC code is not the audio-dock code 0x12. -/
theorem usb_wins_over_charger (cfg : Config) (client : I2cClient) (st : State)
    (h1 : 0 ≤ client.read REG_DEVICE_TYPE1) (h2 : 0 ≤ client.read REG_DEVICE_TYPE2)
    (h3 : 0 ≤ client.read REG_DEVICE_TYPE3) (h4 : 0 ≤ client.read REG_CARKIT_STATUS)
    (h5 : 0 ≤ client.read REG_VBUSINVALID)
    (husb : band (client.read REG_DEVICE_TYPE1) DEV_USB ≠ 0)
    (_hchg : band (client.read REG_DEVICE_TYPE1) DEV_DEDICATED_CHG ≠ 0)
    (hadc : cfg.USB_HOST_NOTIFY = true → client.read REG_ADC ≠ ADC_AUDIO_DOCK) :
    cableCalls (eventsSince st (sm5502_attach_dev cfg client st).2) = [(Cable.USB, true)] ∧
    (Cable.TA, true) ∉ cableCalls (eventsSince st (sm5502_attach_dev cfg client st).2) := by
  have hok : attach_reads_ok client = true := by
    rw [attach_reads_ok_iff]; exact ⟨h1, h2, h3, h4, h5⟩
  have hv1 : attach_val1 cfg client = client.read REG_DEVICE_TYPE1 := by
    unfold attach_val1
    rw [if_neg]
    intro h
    exact hadc h.1 h.2
  have hid : attach_pass_identity cfg client st.usbsw.is_rustproof = some Cable.USB := by
    unfold attach_pass_identity attach_identity
    rw [if_pos hok, hv1, if_pos (Or.inl husb)]
  rw [attach_dev_calls, hid]
  simp

/-- Witness for C4: device_type_1 = 0x44 with the JIG-UART-off, U200-charger and
VBUS bits also set, ADC code 0x1c, in rustproof mode. -/
theorem usb_wins_over_charger_witness :
    cableCalls (eventsSince (State.init true)
      (sm5502_attach_dev Config.host_rustproof (regFile 0x44 0x08 0x40 0 0x02 0x1c 0x1e)
        (State.init true)).2) = [(Cable.USB, true)] :=
  (usb_wins_over_charger Config.host_rustproof (regFile 0x44 0x08 0x40 0 0x02 0x1c 0x1e)
    (State.init true) (by decide) (by decide) (by decide) (by decide) (by decide)
    (by decide) (by decide) (by decide)).1

/-! ## C5 -/

/-- C5 (counterexample): device_type_1 reads 0x04 (USB bit set) and the later
device_type_3 read fails with -5: the attach pass returns -5, reports nothing
and leaves the Session State empty, instead of completing over the remaining
fields. -/
theorem failed_read_aborts_attach :
    band ((regFile 0x04 0 (-5) 0 0 0x1f 0x1e).read REG_DEVICE_TYPE1) DEV_USB ≠ 0 ∧
    (regFile 0x04 0 (-5) 0 0 0x1f 0x1e).read REG_DEVICE_TYPE3 < 0 ∧
    (sm5502_attach_dev Config.plain (regFile 0x04 0 (-5) 0 0 0x1f 0x1e)
      (State.init false)).1 = -5 ∧
    cableCalls (eventsSince (State.init false)
      (sm5502_attach_dev Config.plain (regFile 0x04 0 (-5) 0 0 0x1f 0x1e)
        (State.init false)).2) = [] ∧
    (sm5502_attach_dev Config.plain (regFile 0x04 0 (-5) 0 0 0x1f 0x1e)
      (State.init false)).2.session = Session.empty := by
  decide

/-- C5 (amended): when one of the five checked register reads (device_type_1,
device_type_2, device_type_3, carkit_status, vbus) fails, the attach pass
aborts: it returns a negative code, makes no Cable Sink call and no register
write and keeps the retained snapshot.  Only the ADC read is unchecked: when
the five checked reads succeed and the ADC read fails, the pass still completes
over the remaining fields, returns and retains the error code as `adc`, retains
the other values read, and reports USB attached when device_type_1 has the USB
bit set. -/
theorem attach_read_failure_policy (cfg : Config) (client : I2cClient) (st : State) :
    ((client.read REG_DEVICE_TYPE1 < 0 ∨ client.read REG_DEVICE_TYPE2 < 0 ∨
        client.read REG_DEVICE_TYPE3 < 0 ∨ client.read REG_CARKIT_STATUS < 0 ∨
        client.read REG_VBUSINVALID < 0) →
      (sm5502_attach_dev cfg client st).1 < 0 ∧
      cableCalls (eventsSince st (sm5502_attach_dev cfg client st).2) = [] ∧
      regWrites (eventsSince st (sm5502_attach_dev cfg client st).2) = [] ∧
      (sm5502_attach_dev cfg client st).2.usbsw.dev1 = st.usbsw.dev1 ∧
      (sm5502_attach_dev cfg client st).2.usbsw.dev2 = st.usbsw.dev2 ∧
      (sm5502_attach_dev cfg client st).2.usbsw.dev3 = st.usbsw.dev3 ∧
      (sm5502_attach_dev cfg client st).2.usbsw.adc = st.usbsw.adc ∧
      (sm5502_attach_dev cfg client st).2.usbsw.vbus = st.usbsw.vbus ∧
      (sm5502_attach_dev cfg client st).2.usbsw.carkit_dev = st.usbsw.carkit_dev) ∧
    ((0 ≤ client.read REG_DEVICE_TYPE1 ∧ 0 ≤ client.read REG_DEVICE_TYPE2 ∧
        0 ≤ client.read REG_DEVICE_TYPE3 ∧ 0 ≤ client.read REG_CARKIT_STATUS ∧
        0 ≤ client.read REG_VBUSINVALID) →
      client.read REG_ADC < 0 →
      (sm5502_attach_dev cfg client st).1 = client.read REG_ADC ∧
      (sm5502_attach_dev cfg client st).2.usbsw.adc = client.read REG_ADC ∧
      (sm5502_attach_dev cfg client st).2.usbsw.dev1 = client.read REG_DEVICE_TYPE1 ∧
      (sm5502_attach_dev cfg client st).2.usbsw.dev2 = client.read REG_DEVICE_TYPE2 ∧
      (sm5502_attach_dev cfg client st).2.usbsw.dev3 = client.read REG_DEVICE_TYPE3 ∧
      (sm5502_attach_dev cfg client st).2.usbsw.vbus = client.read REG_VBUSINVALID ∧
      (sm5502_attach_dev cfg client st).2.usbsw.carkit_dev = client.read REG_CARKIT_STATUS ∧
      (band (client.read REG_DEVICE_TYPE1) DEV_USB ≠ 0 →
        cableCalls (eventsSince st (sm5502_attach_dev cfg client st).2) =
          [(Cable.USB, true)])) := by
  constructor
  · intro hfail
    have hbad : attach_reads_ok client = false := by
      cases hk : attach_reads_ok client
      · rfl
      · have := (attach_reads_ok_iff client).mp hk
        omega
    exact attach_dev_fields_err cfg client st hbad
  · intro hgood hadc
    have hok : attach_reads_ok client = true := (attach_reads_ok_iff client).mpr hgood
    have hne : ¬ (cfg.USB_HOST_NOTIFY = true ∧ client.read REG_ADC = ADC_AUDIO_DOCK) := by
      intro h
      have h2 := h.2
      unfold ADC_AUDIO_DOCK at h2
      omega
    have hv1 : attach_val1 cfg client = client.read REG_DEVICE_TYPE1 := by
      unfold attach_val1; rw [if_neg hne]
    have hv2 : attach_val2 cfg client = client.read REG_DEVICE_TYPE2 := by
      unfold attach_val2; rw [if_neg hne]
    have hf := attach_dev_fields_ok cfg client st hok
    rw [hv1, hv2] at hf
    refine ⟨hf.1, hf.2.2.2.2.1, hf.2.1, hf.2.2.1, hf.2.2.2.1, hf.2.2.2.2.2.1,
      hf.2.2.2.2.2.2.1, ?_⟩
    intro husb
    have hid : attach_pass_identity cfg client st.usbsw.is_rustproof = some Cable.USB := by
      unfold attach_pass_identity attach_identity
      rw [if_pos hok, hv1, if_pos (Or.inl husb)]
    rw [attach_dev_calls, hid]
    rfl

/-- Witness for C5: a failing device_type_3 read aborts the pass; a failing ADC
read does not keep a USB snapshot from being reported. -/
theorem attach_read_failure_policy_witness :
    (sm5502_attach_dev Config.plain (regFile 0x04 0 (-5) 0 0 0x1f 0x1e)
      (State.init false)).1 < 0 ∧
    cableCalls (eventsSince (State.init false)
      (sm5502_attach_dev Config.plain (regFile 0x04 0 0 0 0 (-5) 0x1e)
        (State.init false)).2) = [(Cable.USB, true)] :=
  ⟨((attach_read_failure_policy Config.plain (regFile 0x04 0 (-5) 0 0 0x1f 0x1e)
      (State.init false)).1 (by decide)).1,
    ((attach_read_failure_policy Config.plain (regFile 0x04 0 0 0 0 (-5) 0x1e)
      (State.init false)).2 (by decide) (by decide)).2.2.2.2.2.2.2 (by decide)⟩

/-! ## C6 -/

/-- C6 (counterexample): in the plain build, two consecutive attach passes that
read the same registers (device_type_1 = 0x04), with no detach pass between
them, report USB attached twice. -/
theorem repeated_attach_announces_twice :
    cableCalls (eventsSince (State.init false)
      (sm5502_attach_dev Config.plain (regFile 0x04 0 0 0 0 0x1f 0x1e)
        (sm5502_attach_dev Config.plain (regFile 0x04 0 0 0 0 0x1f 0x1e)
          (State.init false)).2).2) = [(Cable.USB, true), (Cable.USB, true)] := by
  decide

/-- C6 (amended): for every snapshot, two consecutive attach passes that read
the same register values, with no detach pass between them, each make the same
Cable Sink calls: the second pass repeats the report of the first, so the
identity is reported at most once per pass (at most twice in total). -/
theorem repeated_attach_repeats_announcement (cfg : Config) (client : I2cClient)
    (st : State) :
    cableCalls (eventsSince (sm5502_attach_dev cfg client st).2
        (sm5502_attach_dev cfg client (sm5502_attach_dev cfg client st).2).2) =
      cableCalls (eventsSince st (sm5502_attach_dev cfg client st).2) ∧
    (cableCalls (eventsSince st (sm5502_attach_dev cfg client st).2)).length ≤ 1 := by
  refine ⟨?_, ?_⟩
  · rw [attach_dev_calls, attach_dev_calls, attach_dev_is_rustproof]
  · rw [attach_dev_calls]
    exact announce_length_le _ _

/-! ## C7 -/

/-- C7: for every snapshot and override setting, starting from the empty
Session State, an attach pass followed immediately by a detach pass leaves the
Session State (retained dev1, dev2, dev3, adc, vbus, carkit and the jig flag)
identical to its pre-attach empty value. -/
theorem attach_detach_round_trip (cfg : Config) (client client2 : I2cClient) (st : State)
    (h : st.session = Session.empty) :
    (sm5502_detach_dev cfg client2 (sm5502_attach_dev cfg client st).2).2.session =
      st.session := by
  rw [detach_dev_eq, h]
  rfl

/-- Witness for C7: a USB snapshot with VBUS, attached and detached from the
initial state. -/
theorem attach_detach_round_trip_witness :
    (State.init false).session = Session.empty ∧
    (sm5502_detach_dev Config.plain (regFile 0 0 0 0 0 0x1f 0x1e)
      (sm5502_attach_dev Config.plain (regFile 0x04 0 0 0 0x02 0x1f 0x1e)
        (State.init false)).2).2.session = (State.init false).session :=
  ⟨by decide, attach_detach_round_trip Config.plain (regFile 0x04 0 0 0 0x02 0x1f 0x1e)
    (regFile 0 0 0 0 0 0x1f 0x1e) (State.init false) (by decide)⟩

/-! ## C8 -/

/-- C8: a detach pass run on an empty Session State makes no Cable Sink call,
writes the control-register default `CON_MASK` to the control register (its only
register write), returns 0 and leaves the Session State empty; and the detach
pass that follows it does the same again. -/
theorem detach_on_empty_session (cfg : Config) (client client2 : I2cClient) (st : State)
    (h : st.session = Session.empty) :
    (cableCalls (eventsSince st (sm5502_detach_dev cfg client st).2) = [] ∧
      regWrites (eventsSince st (sm5502_detach_dev cfg client st).2) =
        [(REG_CONTROL, u8 CON_MASK)] ∧
      (sm5502_detach_dev cfg client st).1 = 0 ∧
      (sm5502_detach_dev cfg client st).2.session = Session.empty) ∧
    (cableCalls (eventsSince (sm5502_detach_dev cfg client st).2
        (sm5502_detach_dev cfg client2 (sm5502_detach_dev cfg client st).2).2) = [] ∧
      regWrites (eventsSince (sm5502_detach_dev cfg client st).2
        (sm5502_detach_dev cfg client2 (sm5502_detach_dev cfg client st).2).2) =
        [(REG_CONTROL, u8 CON_MASK)] ∧
      (sm5502_detach_dev cfg client2 (sm5502_detach_dev cfg client st).2).1 = 0 ∧
      (sm5502_detach_dev cfg client2 (sm5502_detach_dev cfg client st).2).2.session =
        Session.empty) := by
  have hz := (session_empty_iff st).mp h
  have key : ∀ (c : I2cClient) (s : State), s.session = Session.empty →
      (cableCalls (eventsSince s (sm5502_detach_dev cfg c s).2) = [] ∧
        regWrites (eventsSince s (sm5502_detach_dev cfg c s).2) =
          [(REG_CONTROL, u8 CON_MASK)] ∧
        (sm5502_detach_dev cfg c s).1 = 0 ∧
        (sm5502_detach_dev cfg c s).2.session = Session.empty) := by
    intro c s hs
    have hs2 := (session_empty_iff s).mp hs
    have hev := detach_dev_events_of_zero cfg c s hs2.1 hs2.2.1 hs2.2.2.1 hs2.2.2.2.2.1
      hs2.2.2.2.2.2.1
    refine ⟨?_, ?_, ?_, ?_⟩
    · rw [hev]; simp
    · rw [hev]; simp
    · rw [detach_dev_eq]
    · rw [detach_dev_eq]; rfl
  have h1 := key client st h
  exact ⟨h1, key client2 _ h1.2.2.2⟩

/-- Witness for C8: a detach pass on the initial state, in rustproof mode. -/
theorem detach_on_empty_session_witness :
    (State.init true).session = Session.empty ∧
    cableCalls (eventsSince (State.init true)
      (sm5502_detach_dev Config.host_rustproof (regFile 0 0 0 0 0 0x1f 0x1e)
        (State.init true)).2) = [] :=
  ⟨by decide, (detach_on_empty_session Config.host_rustproof (regFile 0 0 0 0 0 0x1f 0x1e)
    (regFile 0 0 0 0 0 0x1f 0x1e) (State.init true) (by decide)).1.1⟩

/-! ## C9 -/

/-- C9: for every Session State, override setting and build, whichever branch
of the detach decision matches, the last register write of a detach pass is the
write of `CON_MASK` to the control register, and after the pass every retained
field (dev1, dev2, dev3, adc, vbus, carkit) and the jig flag is zero. -/
theorem detach_pass_ends_with_control_default (cfg : Config) (client : I2cClient)
    (st : State) :
    (regWrites (eventsSince st (sm5502_detach_dev cfg client st).2)).getLast? =
      some (REG_CONTROL, u8 CON_MASK) ∧
    (sm5502_detach_dev cfg client st).2.usbsw.dev1 = 0 ∧
    (sm5502_detach_dev cfg client st).2.usbsw.dev2 = 0 ∧
    (sm5502_detach_dev cfg client st).2.usbsw.dev3 = 0 ∧
    (sm5502_detach_dev cfg client st).2.usbsw.adc = 0 ∧
    (sm5502_detach_dev cfg client st).2.usbsw.vbus = 0 ∧
    (sm5502_detach_dev cfg client st).2.usbsw.carkit_dev = 0 ∧
    check_sm5502_jig_state (sm5502_detach_dev cfg client st).2 = 0 := by
  refine ⟨detach_dev_last_write cfg client st, ?_⟩
  rw [detach_dev_eq]
  exact ⟨rfl, rfl, rfl, rfl, rfl, rfl, rfl⟩

/-! ## C10 -/

/-- C10 (counterexample): in a build with `CONFIG_MUIC_SUPPORT_RUSTPROOF` and
`CONFIG_USB_HOST_NOTIFY`, in rustproof mode, the snapshot with only the UART bit
of device_type_1 set and ADC code 0x12 matches none of rules 1-3, yet the attach
pass makes a Cable Sink call (audio dock attached) and writes the host path
0x25, not the open-with-VBUS path, to manual-switch register 1. -/
theorem rustproof_uart_lost_on_audio_dock_adc :
    band ((regFile 0x08 0 0 0 0 0x12 0x1e).read REG_DEVICE_TYPE1) DEV_T1_UART_MASK ≠ 0 ∧
    band ((regFile 0x08 0 0 0 0 0x12 0x1e).read REG_DEVICE_TYPE1) DEV_USB = 0 ∧
    band ((regFile 0x08 0 0 0 0 0x12 0x1e).read REG_DEVICE_TYPE1) DEV_USB_CHG = 0 ∧
    cableCalls (eventsSince (State.init true)
      (sm5502_attach_dev Config.host_rustproof (regFile 0x08 0 0 0 0 0x12 0x1e)
        (State.init true)).2) = [(Cable.AUDIODOCK, true)] ∧
    regWrites (eventsSince (State.init true)
      (sm5502_attach_dev Config.host_rustproof (regFile 0x08 0 0 0 0 0x12 0x1e)
        (State.init true)).2) = [(REG_MANUAL_SW1, 0x25), (REG_CONTROL, 0x1a)] := by
  decide

/-- C10 (amended): in a build with `CONFIG_MUIC_SUPPORT_RUSTPROOF`, with
`is_rustproof` set, for every snapshot (all five checked reads succeed) that
carries a UART signature (device_type_1 UART bit or device_type_2 JIG-UART-off
bit) and matches none of rules 1-3, and whose ADC code is not 0x12 when the
build has `CONFIG_USB_HOST_NOTIFY`: the attach pass makes no Cable Sink call and
its register writes are exactly the open-with-VBUS path 0x01 to manual-switch
register 1 followed by the control register rewritten with bit 2 cleared (the
byte read from it masked with 0xFB); the UART path 0x6C is not written. -/
theorem rustproof_closes_uart (cfg : Config) (client : I2cClient) (st : State)
    (hcfg : cfg.MUIC_SUPPORT_RUSTPROOF = true) (hrp : st.usbsw.is_rustproof = true)
    (h1 : 0 ≤ client.read REG_DEVICE_TYPE1) (h2 : 0 ≤ client.read REG_DEVICE_TYPE2)
    (h3 : 0 ≤ client.read REG_DEVICE_TYPE3) (h4 : 0 ≤ client.read REG_CARKIT_STATUS)
    (h5 : 0 ≤ client.read REG_VBUSINVALID)
    (huart : band (client.read REG_DEVICE_TYPE1) DEV_T1_UART_MASK ≠ 0 ∨
      band (client.read REG_DEVICE_TYPE2) DEV_T2_UART_MASK ≠ 0)
    (hno1 : ¬ (band (client.read REG_DEVICE_TYPE1) DEV_USB ≠ 0 ∨
      band (client.read REG_DEVICE_TYPE2) DEV_T2_USB_MASK ≠ 0 ∨
      band (client.read REG_CARKIT_STATUS) DEV_CARKIT_CHARGER1_MASK ≠ 0))
    (hno2 : ¬ band (client.read REG_DEVICE_TYPE3) DEV_NON_STANDARD ≠ 0)
    (hno3 : ¬ band (client.read REG_DEVICE_TYPE1) DEV_USB_CHG ≠ 0)
    (hadc : cfg.USB_HOST_NOTIFY = true → client.read REG_ADC ≠ ADC_AUDIO_DOCK) :
    cableCalls (eventsSince st (sm5502_attach_dev cfg client st).2) = [] ∧
    regWrites (eventsSince st (sm5502_attach_dev cfg client st).2) =
      [(REG_MANUAL_SW1, 0x01), (REG_CONTROL, u8 (client.read REG_CONTROL) &&& 0xFB)] ∧
    (u8 (client.read REG_CONTROL) &&& 0xFB) &&& 4 = 0 ∧
    (REG_MANUAL_SW1, 0x6C) ∉ regWrites (eventsSince st (sm5502_attach_dev cfg client st).2) := by
  have hne : ¬ (cfg.USB_HOST_NOTIFY = true ∧ client.read REG_ADC = ADC_AUDIO_DOCK) :=
    fun h => hadc h.1 h.2
  have hv1 : attach_val1 cfg client = client.read REG_DEVICE_TYPE1 := by
    unfold attach_val1; rw [if_neg hne]
  have hv2 : attach_val2 cfg client = client.read REG_DEVICE_TYPE2 := by
    unfold attach_val2; rw [if_neg hne]
  have hrp2 : (attach_pre client st).usbsw.is_rustproof = true := hrp
  have hbit : (u8 (client.read REG_CONTROL) &&& 0xFB) &&& 4 = 0 := by
    rw [← u8_band_FB]; exact u8_band_FB_bit2 _
  have hev : eventsSince st (sm5502_attach_dev cfg client st).2 =
      attach_reads client ++ muic_rustproof_feature_events client attach := by
    apply attach_dev_cases cfg client st
      (fun r => eventsSince st r.2 =
        attach_reads client ++ muic_rustproof_feature_events client attach)
    case h_ok =>
      intro _ _ _ _ _
      rw [hv1, hv2]
      apply attach_decision_cases cfg client _ _ _ _ _ _ (attach_pre client st)
        (fun s => eventsSince st (attach_store cfg client s) =
          attach_reads client ++ muic_rustproof_feature_events client attach)
      case h_uart_rustproof => intros; simp
      case h_usb => intro c; exact absurd c hno1
      case h_nonstd => intro _ c; exact absurd c hno2
      case h_cdp => intro _ _ c; exact absurd c hno3
      case h_uart_vb => intro _ _ _ _ c; exact absurd ⟨hcfg, hrp2⟩ c
      case h_uart => intro _ _ _ _ c; exact absurd ⟨hcfg, hrp2⟩ c
      all_goals intro _ _ _ c
      all_goals exact absurd huart c
    all_goals intros
    all_goals omega
  rw [hev]
  refine ⟨by simp, by simp [u8_band_FB], hbit, ?_⟩
  simp [REG_MANUAL_SW1, REG_CONTROL]

/-- Witness for C10: the UART bit of device_type_1 with VBUS and ADC code 0x1c. -/
theorem rustproof_closes_uart_witness :
    cableCalls (eventsSince (State.init true)
      (sm5502_attach_dev Config.host_rustproof (regFile 0x08 0 0 0 0x02 0x1c 0x1e)
        (State.init true)).2) = [] ∧
    regWrites (eventsSince (State.init true)
      (sm5502_attach_dev Config.host_rustproof (regFile 0x08 0 0 0 0x02 0x1c 0x1e)
        (State.init true)).2) =
      [(REG_MANUAL_SW1, 0x01),
        (REG_CONTROL, u8 ((regFile 0x08 0 0 0 0x02 0x1c 0x1e).read REG_CONTROL) &&& 0xFB)] :=
  have h := rustproof_closes_uart Config.host_rustproof (regFile 0x08 0 0 0 0x02 0x1c 0x1e)
    (State.init true) (by decide) (by decide) (by decide) (by decide) (by decide)
    (by decide) (by decide) (by decide) (by decide) (by decide) (by decide) (by decide)
  ⟨h.1, h.2.1⟩

/-! ## C11 -/

/-- C11 (counterexample): in the build with `CONFIG_MUIC_SUPPORT_RUSTPROOF`, with
`is_rustproof` clear, the snapshot with only the JIG-UART-on bit (bit 2) of
device_type_2 set (ADC code 0x1d) has rule 9 as its only match, yet the attach
pass makes no Cable Sink call and no register write: UART-on is not reported. -/
theorem uart_on_silent_in_rustproof_build :
    Config.rustproof.MUIC_SUPPORT_RUSTPROOF = true ∧
    (State.init false).usbsw.is_rustproof = false ∧
    band ((regFile 0 0x04 0 0 0 0x1d 0x1e).read REG_DEVICE_TYPE2) DEV_JIG_UART_ON ≠ 0 ∧
    cableCalls (eventsSince (State.init false)
      (sm5502_attach_dev Config.rustproof (regFile 0 0x04 0 0 0 0x1d 0x1e)
        (State.init false)).2) = [] ∧
    regWrites (eventsSince (State.init false)
      (sm5502_attach_dev Config.rustproof (regFile 0 0x04 0 0 0 0x1d 0x1e)
        (State.init false)).2) = [] := by
  decide

/-- C11 (amended): with `is_rustproof` clear, for every snapshot (all five
checked reads succeed) that matches none of rules 1-3 and whose ADC code is not
0x12 when the build has `CONFIG_USB_HOST_NOTIFY`: if the snapshot carries the
UART-off signature (rule 4) the attach pass makes exactly one Cable Sink call,
reporting one of the two UART-off variants attached; if its highest-priority
match is the JIG-UART-on bit (rule 9), the pass makes exactly one call, which
reports CARDOCK in a `CONFIG_SEC_FACTORY` build and UART-on in a build with
neither `CONFIG_SEC_FACTORY` nor `CONFIG_MUIC_SUPPORT_RUSTPROOF`. -/
theorem uart_signature_announcement (cfg : Config) (client : I2cClient) (st : State)
    (hrp : st.usbsw.is_rustproof = false)
    (h1 : 0 ≤ client.read REG_DEVICE_TYPE1) (h2 : 0 ≤ client.read REG_DEVICE_TYPE2)
    (h3 : 0 ≤ client.read REG_DEVICE_TYPE3) (h4 : 0 ≤ client.read REG_CARKIT_STATUS)
    (h5 : 0 ≤ client.read REG_VBUSINVALID)
    (hno1 : ¬ (band (client.read REG_DEVICE_TYPE1) DEV_USB ≠ 0 ∨
      band (client.read REG_DEVICE_TYPE2) DEV_T2_USB_MASK ≠ 0 ∨
      band (client.read REG_CARKIT_STATUS) DEV_CARKIT_CHARGER1_MASK ≠ 0))
    (hno2 : ¬ band (client.read REG_DEVICE_TYPE3) DEV_NON_STANDARD ≠ 0)
    (hno3 : ¬ band (client.read REG_DEVICE_TYPE1) DEV_USB_CHG ≠ 0)
    (hadc : cfg.USB_HOST_NOTIFY = true → client.read REG_ADC ≠ ADC_AUDIO_DOCK) :
    ((band (client.read REG_DEVICE_TYPE1) DEV_T1_UART_MASK ≠ 0 ∨
        band (client.read REG_DEVICE_TYPE2) DEV_T2_UART_MASK ≠ 0) →
      ∃ c, (c = Cable.JIG_UARTOFF_VB ∨ c = Cable.JIG_UARTOFF) ∧
        cableCalls (eventsSince st (sm5502_attach_dev cfg client st).2) = [(c, true)]) ∧
    (¬ (band (client.read REG_DEVICE_TYPE1) DEV_T1_UART_MASK ≠ 0 ∨
        band (client.read REG_DEVICE_TYPE2) DEV_T2_UART_MASK ≠ 0) →
      ¬ (band (client.read REG_DEVICE_TYPE1) DEV_T1_CHARGER_MASK ≠ 0 ∨
        band (client.read REG_DEVICE_TYPE3) DEV_T3_CHARGER_MASK ≠ 0) →
      ¬ (cfg.USB_HOST_NOTIFY = true ∧
        (band (client.read REG_DEVICE_TYPE1) DEV_USB_OTG ≠ 0 ∧ client.read REG_ADC = ADC_OTG)) →
      ¬ (band (client.read REG_DEVICE_TYPE2) DEV_AV ≠ 0 ∨
        band (client.read REG_DEVICE_TYPE3) DEV_AV_VBUS ≠ 0) →
      ¬ (cfg.VIDEO_MHL_V2 = true ∧ band (client.read REG_DEVICE_TYPE3) DEV_MHL ≠ 0) →
      band (client.read REG_DEVICE_TYPE2) DEV_JIG_UART_ON ≠ 0 →
      (cfg.SEC_FACTORY = true →
        cableCalls (eventsSince st (sm5502_attach_dev cfg client st).2) =
          [(Cable.CARDOCK, true)]) ∧
      (cfg.SEC_FACTORY = false → cfg.MUIC_SUPPORT_RUSTPROOF = false →
        cableCalls (eventsSince st (sm5502_attach_dev cfg client st).2) =
          [(Cable.JIG_UARTON, true)])) := by
  have hok : attach_reads_ok client = true := by
    rw [attach_reads_ok_iff]; exact ⟨h1, h2, h3, h4, h5⟩
  obtain ⟨hv1, hv2⟩ := attach_vals_plain cfg client hadc
  constructor
  · intro huart
    have h := attach_uart_off_calls cfg client st hrp hok hno1 hno2 hno3 huart hadc
    by_cases v : band (client.read REG_VBUSINVALID) DEV_VBUSIN_VALID ≠ 0
    · rw [if_pos v] at h; exact ⟨_, Or.inl rfl, h⟩
    · rw [if_neg v] at h; exact ⟨_, Or.inr rfl, h⟩
  · intro hno4 hno5 hno6 hno7 hno8 hon
    have hid : attach_pass_identity cfg client st.usbsw.is_rustproof =
        if cfg.SEC_FACTORY = true then some Cable.CARDOCK
        else if cfg.MUIC_SUPPORT_RUSTPROOF = true then none
        else some Cable.JIG_UARTON := by
      unfold attach_pass_identity
      rw [if_pos hok, hv1, hv2]
      unfold attach_identity
      rw [if_neg hno1, if_neg hno2, if_neg hno3, if_neg hno4, if_neg hno5, if_neg hno6,
        if_neg hno7, if_neg hno8, if_pos hon]
    constructor
    · intro hf
      rw [attach_dev_calls, hid, if_pos hf]; rfl
    · intro hf hr
      have hf2 : ¬ cfg.SEC_FACTORY = true := by rw [hf]; decide
      have hr2 : ¬ cfg.MUIC_SUPPORT_RUSTPROOF = true := by rw [hr]; decide
      rw [attach_dev_calls, hid, if_neg hf2, if_neg hr2]; rfl

/-- Witness for C11: the UART bit of device_type_1 with VBUS and ADC code 0x1c,
in the build with `CONFIG_MUIC_SUPPORT_RUSTPROOF`, override clear. -/
theorem uart_signature_announcement_witness :
    ∃ c, (c = Cable.JIG_UARTOFF_VB ∨ c = Cable.JIG_UARTOFF) ∧
      cableCalls (eventsSince (State.init false)
        (sm5502_attach_dev Config.rustproof (regFile 0x08 0 0 0 0x02 0x1c 0x1e)
          (State.init false)).2) = [(c, true)] :=
  (uart_signature_announcement Config.rustproof (regFile 0x08 0 0 0 0x02 0x1c 0x1e)
    (State.init false) (by decide) (by decide) (by decide) (by decide) (by decide)
    (by decide) (by decide) (by decide) (by decide) (by decide)).1 (by decide)

/-! ## C12 -/

/-- C12 (counterexample): in a build with `CONFIG_USB_HOST_NOTIFY`, override
clear, the snapshot with the UART bit of device_type_1, bit 1 of the VBUS
register and ADC code 0x12 matches none of rules 1-3 and carries the UART-off
signature, yet the attach pass reports audio dock, not the UART-off-with-VBUS
identity. -/
theorem uart_off_variant_lost_on_audio_dock_adc :
    band ((regFile 0x08 0 0 0 0x02 0x12 0x1e).read REG_DEVICE_TYPE1) DEV_T1_UART_MASK ≠ 0 ∧
    band ((regFile 0x08 0 0 0 0x02 0x12 0x1e).read REG_DEVICE_TYPE1) DEV_USB = 0 ∧
    band ((regFile 0x08 0 0 0 0x02 0x12 0x1e).read REG_DEVICE_TYPE1) DEV_USB_CHG = 0 ∧
    band ((regFile 0x08 0 0 0 0x02 0x12 0x1e).read REG_VBUSINVALID) DEV_VBUSIN_VALID ≠ 0 ∧
    cableCalls (eventsSince (State.init false)
      (sm5502_attach_dev Config.host_rustproof (regFile 0x08 0 0 0 0x02 0x12 0x1e)
        (State.init false)).2) = [(Cable.AUDIODOCK, true)] := by
  decide

/-- C12 (amended): with `is_rustproof` clear, for every snapshot (all five
checked reads succeed) that carries the UART-off signature, matches none of
rules 1-3, and whose ADC code is not 0x12 when the build has
`CONFIG_USB_HOST_NOTIFY`: if bit 1 of the VBUS register is set the attach pass
reports exactly JIG_UARTOFF_VB attached, and if that bit is clear it reports
exactly JIG_UARTOFF attached, whatever the other bits of the VBUS register. -/
theorem uart_off_vbus_variant (cfg : Config) (client : I2cClient) (st : State)
    (hrp : st.usbsw.is_rustproof = false)
    (h1 : 0 ≤ client.read REG_DEVICE_TYPE1) (h2 : 0 ≤ client.read REG_DEVICE_TYPE2)
    (h3 : 0 ≤ client.read REG_DEVICE_TYPE3) (h4 : 0 ≤ client.read REG_CARKIT_STATUS)
    (h5 : 0 ≤ client.read REG_VBUSINVALID)
    (huart : band (client.read REG_DEVICE_TYPE1) DEV_T1_UART_MASK ≠ 0 ∨
      band (client.read REG_DEVICE_TYPE2) DEV_T2_UART_MASK ≠ 0)
    (hno1 : ¬ (band (client.read REG_DEVICE_TYPE1) DEV_USB ≠ 0 ∨
      band (client.read REG_DEVICE_TYPE2) DEV_T2_USB_MASK ≠ 0 ∨
      band (client.read REG_CARKIT_STATUS) DEV_CARKIT_CHARGER1_MASK ≠ 0))
    (hno2 : ¬ band (client.read REG_DEVICE_TYPE3) DEV_NON_STANDARD ≠ 0)
    (hno3 : ¬ band (client.read REG_DEVICE_TYPE1) DEV_USB_CHG ≠ 0)
    (hadc : cfg.USB_HOST_NOTIFY = true → client.read REG_ADC ≠ ADC_AUDIO_DOCK) :
    (band (client.read REG_VBUSINVALID) DEV_VBUSIN_VALID ≠ 0 →
      cableCalls (eventsSince st (sm5502_attach_dev cfg client st).2) =
        [(Cable.JIG_UARTOFF_VB, true)]) ∧
    (band (client.read REG_VBUSINVALID) DEV_VBUSIN_VALID = 0 →
      cableCalls (eventsSince st (sm5502_attach_dev cfg client st).2) =
        [(Cable.JIG_UARTOFF, true)]) := by
  have hok : attach_reads_ok client = true := by
    rw [attach_reads_ok_iff]; exact ⟨h1, h2, h3, h4, h5⟩
  have h := attach_uart_off_calls cfg client st hrp hok hno1 hno2 hno3 huart hadc
  constructor
  · intro v
    rw [if_pos v] at h; exact h
  · intro v
    have v2 : ¬ band (client.read REG_VBUSINVALID) DEV_VBUSIN_VALID ≠ 0 := by
      rw [v]; decide
    rw [if_neg v2] at h; exact h

/-- Witness for C12: the UART bit of device_type_1 and ADC code 0x1c, once with
VBUS register 0x03 (bit 1 set) and once with 0x01 (bit 1 clear). -/
theorem uart_off_vbus_variant_witness :
    cableCalls (eventsSince (State.init false)
      (sm5502_attach_dev Config.host_rustproof (regFile 0x08 0 0 0 0x03 0x1c 0x1e)
        (State.init false)).2) = [(Cable.JIG_UARTOFF_VB, true)] ∧
    cableCalls (eventsSince (State.init false)
      (sm5502_attach_dev Config.host_rustproof (regFile 0x08 0 0 0 0x01 0x1c 0x1e)
        (State.init false)).2) = [(Cable.JIG_UARTOFF, true)] :=
  ⟨(uart_off_vbus_variant Config.host_rustproof (regFile 0x08 0 0 0 0x03 0x1c 0x1e)
      (State.init false) (by decide) (by decide) (by decide) (by decide) (by decide)
      (by decide) (by decide) (by decide) (by decide) (by decide) (by decide)).1 (by decide),
    (uart_off_vbus_variant Config.host_rustproof (regFile 0x08 0 0 0 0x01 0x1c 0x1e)
      (State.init false) (by decide) (by decide) (by decide) (by decide) (by decide)
      (by decide) (by decide) (by decide) (by decide) (by decide) (by decide)).2 (by decide)⟩

/-! ## C13 -/

/-- C13: in a build with `CONFIG_USB_HOST_NOTIFY`, for every snapshot (all five
checked reads succeed) with the OTG bit (bit 7) of device_type_1 set and no match
of rules 1-5: if the ADC code is 0x00 the attach pass reports exactly USB_HOST
attached and writes 0x25 to manual-switch register 1, 0x00 to manual-switch
register 2 and the control register with bit 2 (manual switch) cleared (the byte
read from it masked with 0xFB); if the ADC code is not 0x00 the pass does not
report USB_HOST. -/
theorem otg_host_requires_adc_zero (cfg : Config) (client : I2cClient) (st : State)
    (hcfg : cfg.USB_HOST_NOTIFY = true)
    (h1 : 0 ≤ client.read REG_DEVICE_TYPE1) (h2 : 0 ≤ client.read REG_DEVICE_TYPE2)
    (h3 : 0 ≤ client.read REG_DEVICE_TYPE3) (h4 : 0 ≤ client.read REG_CARKIT_STATUS)
    (h5 : 0 ≤ client.read REG_VBUSINVALID)
    (hotg : band (client.read REG_DEVICE_TYPE1) DEV_USB_OTG ≠ 0)
    (hno1 : ¬ (band (client.read REG_DEVICE_TYPE1) DEV_USB ≠ 0 ∨
      band (client.read REG_DEVICE_TYPE2) DEV_T2_USB_MASK ≠ 0 ∨
      band (client.read REG_CARKIT_STATUS) DEV_CARKIT_CHARGER1_MASK ≠ 0))
    (hno2 : ¬ band (client.read REG_DEVICE_TYPE3) DEV_NON_STANDARD ≠ 0)
    (hno3 : ¬ band (client.read REG_DEVICE_TYPE1) DEV_USB_CHG ≠ 0)
    (hno4 : ¬ (band (client.read REG_DEVICE_TYPE1) DEV_T1_UART_MASK ≠ 0 ∨
      band (client.read REG_DEVICE_TYPE2) DEV_T2_UART_MASK ≠ 0))
    (hno5 : ¬ (band (client.read REG_DEVICE_TYPE1) DEV_T1_CHARGER_MASK ≠ 0 ∨
      band (client.read REG_DEVICE_TYPE3) DEV_T3_CHARGER_MASK ≠ 0)) :
    (client.read REG_ADC = 0x00 →
      cableCalls (eventsSince st (sm5502_attach_dev cfg client st).2) =
        [(Cable.USB_HOST, true)] ∧
      regWrites (eventsSince st (sm5502_attach_dev cfg client st).2) =
        [(REG_MANUAL_SW1, 0x25), (REG_MANUAL_SW2, 0x00),
          (REG_CONTROL, u8 (client.read REG_CONTROL) &&& 0xFB)] ∧
      (u8 (client.read REG_CONTROL) &&& 0xFB) &&& 4 = 0) ∧
    (client.read REG_ADC ≠ 0x00 →
      (Cable.USB_HOST, true) ∉
        cableCalls (eventsSince st (sm5502_attach_dev cfg client st).2)) := by
  have hok : attach_reads_ok client = true := by
    rw [attach_reads_ok_iff]; exact ⟨h1, h2, h3, h4, h5⟩
  constructor
  · intro hadc
    have hadc2 : cfg.USB_HOST_NOTIFY = true → client.read REG_ADC ≠ ADC_AUDIO_DOCK := by
      intro _; rw [hadc]; decide
    obtain ⟨hv1, hv2⟩ := attach_vals_plain cfg client hadc2
    have c6 : cfg.USB_HOST_NOTIFY = true ∧
        (band (client.read REG_DEVICE_TYPE1) DEV_USB_OTG ≠ 0 ∧ client.read REG_ADC = ADC_OTG) :=
      ⟨hcfg, hotg, hadc⟩
    have hbit : (u8 (client.read REG_CONTROL) &&& 0xFB) &&& 4 = 0 := by
      rw [← u8_band_FB]; exact u8_band_FB_bit2 _
    refine ⟨?_, ?_, hbit⟩
    · rw [attach_dev_calls]
      unfold attach_pass_identity
      rw [if_pos hok, hv1, hv2]
      unfold attach_identity
      rw [if_neg hno1, if_neg hno2, if_neg hno3, if_neg hno4, if_neg hno5, if_pos c6]
      rfl
    · rw [attach_dev_writes]
      unfold attach_pass_writes
      rw [if_pos hok, hv1, hv2]
      unfold attach_decision_writes
      rw [if_neg hno1, if_neg hno2, if_neg hno3, if_neg hno4, if_neg hno5, if_pos c6]
      have e1 : u8 0x25 = 0x25 := by decide
      have e2 : u8 0x00 = 0x00 := by decide
      unfold sm5502_set_otg_writes
      rw [if_pos rfl, e1, e2, u8_band_FB]
  · intro hadc hmem
    rw [attach_dev_calls] at hmem
    unfold attach_pass_identity at hmem
    rw [if_pos hok] at hmem
    cases hid : attach_identity cfg st.usbsw.is_rustproof (attach_val1 cfg client)
        (attach_val2 cfg client) (client.read REG_DEVICE_TYPE3)
        (client.read REG_CARKIT_STATUS) (client.read REG_VBUSINVALID)
        (client.read REG_ADC) with
    | none => rw [hid] at hmem; simp at hmem
    | some c =>
      rw [hid] at hmem
      simp at hmem
      rw [← hmem] at hid
      exact hadc (attach_identity_usb_host _ _ _ _ _ _ _ _ hid).2.2

/-- Witness for C13: only the OTG bit of device_type_1 set, ADC code 0x00. -/
theorem otg_host_requires_adc_zero_witness :
    cableCalls (eventsSince (State.init false)
      (sm5502_attach_dev Config.host_rustproof (regFile 0x80 0 0 0 0 0x00 0x1e)
        (State.init false)).2) = [(Cable.USB_HOST, true)] ∧
    regWrites (eventsSince (State.init false)
      (sm5502_attach_dev Config.host_rustproof (regFile 0x80 0 0 0 0 0x00 0x1e)
        (State.init false)).2) =
      [(REG_MANUAL_SW1, 0x25), (REG_MANUAL_SW2, 0x00),
        (REG_CONTROL, u8 ((regFile 0x80 0 0 0 0 0x00 0x1e).read REG_CONTROL) &&& 0xFB)] :=
  have h := (otg_host_requires_adc_zero Config.host_rustproof (regFile 0x80 0 0 0 0 0x00 0x1e)
    (State.init false) (by decide) (by decide) (by decide) (by decide) (by decide)
    (by decide) (by decide) (by decide) (by decide) (by decide) (by decide)
    (by decide)).1 (by decide)
  ⟨h.1, h.2.1⟩

/-! ## C14 -/

/-- C14: for every snapshot (all five checked reads succeed) that matches none
of the signatures of rules 1-10 and has bit 1 of the VBUS register clear, the
attach pass makes no Cable Sink call and no register write. The signatures are
those the chain tests: rules 6 (OTG bit with ADC code 0x00) and 10 (audio dock:
ADC code 0x12, which sets the audio-dock bit of `val2`) exist only with
`CONFIG_USB_HOST_NOTIFY`, rule 8 (MHL bit) only with `CONFIG_VIDEO_MHL_V2`. -/
theorem unmatched_snapshot_is_silent (cfg : Config) (client : I2cClient) (st : State)
    (h1 : 0 ≤ client.read REG_DEVICE_TYPE1) (h2 : 0 ≤ client.read REG_DEVICE_TYPE2)
    (h3 : 0 ≤ client.read REG_DEVICE_TYPE3) (h4 : 0 ≤ client.read REG_CARKIT_STATUS)
    (h5 : 0 ≤ client.read REG_VBUSINVALID)
    (hno1 : ¬ (band (client.read REG_DEVICE_TYPE1) DEV_USB ≠ 0 ∨
      band (client.read REG_DEVICE_TYPE2) DEV_T2_USB_MASK ≠ 0 ∨
      band (client.read REG_CARKIT_STATUS) DEV_CARKIT_CHARGER1_MASK ≠ 0))
    (hno2 : ¬ band (client.read REG_DEVICE_TYPE3) DEV_NON_STANDARD ≠ 0)
    (hno3 : ¬ band (client.read REG_DEVICE_TYPE1) DEV_USB_CHG ≠ 0)
    (hno4 : ¬ (band (client.read REG_DEVICE_TYPE1) DEV_T1_UART_MASK ≠ 0 ∨
      band (client.read REG_DEVICE_TYPE2) DEV_T2_UART_MASK ≠ 0))
    (hno5 : ¬ (band (client.read REG_DEVICE_TYPE1) DEV_T1_CHARGER_MASK ≠ 0 ∨
      band (client.read REG_DEVICE_TYPE3) DEV_T3_CHARGER_MASK ≠ 0))
    (hno6 : cfg.USB_HOST_NOTIFY = true →
      ¬ (band (client.read REG_DEVICE_TYPE1) DEV_USB_OTG ≠ 0 ∧ client.read REG_ADC = ADC_OTG))
    (hno7 : ¬ (band (client.read REG_DEVICE_TYPE2) DEV_AV ≠ 0 ∨
      band (client.read REG_DEVICE_TYPE3) DEV_AV_VBUS ≠ 0))
    (hno8 : cfg.VIDEO_MHL_V2 = true → ¬ band (client.read REG_DEVICE_TYPE3) DEV_MHL ≠ 0)
    (hno9 : ¬ band (client.read REG_DEVICE_TYPE2) DEV_JIG_UART_ON ≠ 0)
    (hno10 : cfg.USB_HOST_NOTIFY = true →
      client.read REG_ADC ≠ ADC_AUDIO_DOCK ∧
        ¬ band (client.read REG_DEVICE_TYPE2) DEV_AUDIO_DOCK ≠ 0)
    (hvbus : ¬ band (client.read REG_VBUSINVALID) DEV_VBUSIN_VALID ≠ 0) :
    cableCalls (eventsSince st (sm5502_attach_dev cfg client st).2) = [] ∧
    regWrites (eventsSince st (sm5502_attach_dev cfg client st).2) = [] := by
  have hok : attach_reads_ok client = true := by
    rw [attach_reads_ok_iff]; exact ⟨h1, h2, h3, h4, h5⟩
  have hadc : cfg.USB_HOST_NOTIFY = true → client.read REG_ADC ≠ ADC_AUDIO_DOCK :=
    fun h => (hno10 h).1
  obtain ⟨hv1, hv2⟩ := attach_vals_plain cfg client hadc
  have c6 : ¬ (cfg.USB_HOST_NOTIFY = true ∧
      (band (client.read REG_DEVICE_TYPE1) DEV_USB_OTG ≠ 0 ∧ client.read REG_ADC = ADC_OTG)) :=
    fun h => hno6 h.1 h.2
  have c8 : ¬ (cfg.VIDEO_MHL_V2 = true ∧ band (client.read REG_DEVICE_TYPE3) DEV_MHL ≠ 0) :=
    fun h => hno8 h.1 h.2
  have c10 : ¬ (cfg.USB_HOST_NOTIFY = true ∧
      band (client.read REG_DEVICE_TYPE2) DEV_AUDIO_DOCK ≠ 0) :=
    fun h => (hno10 h.1).2 h.2
  constructor
  · rw [attach_dev_calls]
    unfold attach_pass_identity
    rw [if_pos hok, hv1, hv2]
    unfold attach_identity
    rw [if_neg hno1, if_neg hno2, if_neg hno3, if_neg hno4, if_neg hno5, if_neg c6,
      if_neg hno7, if_neg c8, if_neg hno9, if_neg c10, if_neg hvbus]
    rfl
  · rw [attach_dev_writes]
    unfold attach_pass_writes
    rw [if_pos hok, hv1, hv2]
    unfold attach_decision_writes
    rw [if_neg hno1, if_neg hno2, if_neg hno3, if_neg hno4, if_neg hno5, if_neg c6,
      if_neg hno7, if_neg c8, if_neg hno9, if_neg c10, if_neg hvbus]

/-- Witness for C14: every register zero and ADC code 0x1f (OPEN), in the build
with `CONFIG_USB_HOST_NOTIFY` and `CONFIG_MUIC_SUPPORT_RUSTPROOF`. -/
theorem unmatched_snapshot_is_silent_witness :
    cableCalls (eventsSince (State.init false)
      (sm5502_attach_dev Config.host_rustproof (regFile 0 0 0 0 0 0x1f 0)
        (State.init false)).2) = [] ∧
    regWrites (eventsSince (State.init false)
      (sm5502_attach_dev Config.host_rustproof (regFile 0 0 0 0 0 0x1f 0)
        (State.init false)).2) = [] :=
  unmatched_snapshot_is_silent Config.host_rustproof (regFile 0 0 0 0 0 0x1f 0)
    (State.init false) (by decide) (by decide) (by decide) (by decide) (by decide)
    (by decide) (by decide) (by decide) (by decide) (by decide) (by decide) (by decide)
    (by decide) (by decide) (by decide) (by decide)

/-! ## C15 -/

/-- C15: when the dispatcher reads `intr1` equal to ATTACH|DETACH (0x03), then
if the ADC reads OPEN (0x1f), device_type_1 reads 0 and (device_type_3 reads 0
or the VBUS register reads 0), what it does between its register reads and the
unlock is exactly one detach pass, and its Cable Sink calls are those of the
detach pass (the retained identity, detached); otherwise it is exactly one
attach pass, and its Cable Sink calls are those of the attach pass (attached).
In particular ADC = OPEN, device_type_1 = 0 and device_type_3 = 0 give the
detach pass. -/
theorem both_interrupts_dispatch (cfg : Config) (client : I2cClient) (st : State)
    (hb : client.read REG_INT1 = INT_ATTACH + INT_DETACH) :
    ((client.read REG_ADC = ADC_OPEN ∧ client.read REG_DEVICE_TYPE1 = DATA_NONE ∧
        (client.read REG_DEVICE_TYPE3 = DATA_NONE ∨ client.read REG_VBUSINVALID = 0x00)) →
      sm5502_irq_thread cfg client st =
        mutex_unlock (sm5502_detach_dev cfg client (irq_pre_both client st)).2 ∧
      cableCalls (eventsSince st (sm5502_irq_thread cfg client st)) =
        announce (detach_identity cfg st.usbsw) false) ∧
    (¬ (client.read REG_ADC = ADC_OPEN ∧ client.read REG_DEVICE_TYPE1 = DATA_NONE ∧
        (client.read REG_DEVICE_TYPE3 = DATA_NONE ∨ client.read REG_VBUSINVALID = 0x00)) →
      sm5502_irq_thread cfg client st =
        mutex_unlock (sm5502_attach_dev cfg client (irq_pre_both client st)).2 ∧
      cableCalls (eventsSince st (sm5502_irq_thread cfg client st)) =
        announce (attach_pass_identity cfg client st.usbsw.is_rustproof) true) ∧
    (client.read REG_ADC = ADC_OPEN → client.read REG_DEVICE_TYPE1 = DATA_NONE →
      client.read REG_DEVICE_TYPE3 = DATA_NONE →
      sm5502_irq_thread cfg client st =
        mutex_unlock (sm5502_detach_dev cfg client (irq_pre_both client st)).2) := by
  have hdet : (client.read REG_ADC = ADC_OPEN ∧ client.read REG_DEVICE_TYPE1 = DATA_NONE ∧
        (client.read REG_DEVICE_TYPE3 = DATA_NONE ∨ client.read REG_VBUSINVALID = 0x00)) →
      sm5502_irq_thread cfg client st =
        mutex_unlock (sm5502_detach_dev cfg client (irq_pre_both client st)).2 := by
    intro hc
    apply irq_thread_cases cfg client st
      (fun s => s = mutex_unlock (sm5502_detach_dev cfg client (irq_pre_both client st)).2)
    case h_both_detach => intros; rfl
    case h_both_attach => intro _ c; exact absurd hc c
    all_goals intro c
    all_goals exact absurd hb c
  have hatt : ¬ (client.read REG_ADC = ADC_OPEN ∧ client.read REG_DEVICE_TYPE1 = DATA_NONE ∧
        (client.read REG_DEVICE_TYPE3 = DATA_NONE ∨ client.read REG_VBUSINVALID = 0x00)) →
      sm5502_irq_thread cfg client st =
        mutex_unlock (sm5502_attach_dev cfg client (irq_pre_both client st)).2 := by
    intro hc
    apply irq_thread_cases cfg client st
      (fun s => s = mutex_unlock (sm5502_attach_dev cfg client (irq_pre_both client st)).2)
    case h_both_attach => intros; rfl
    case h_both_detach => intro _ c; exact absurd c hc
    all_goals intro c
    all_goals exact absurd hb c
  refine ⟨fun hc => ⟨hdet hc, ?_⟩, fun hc => ⟨hatt hc, ?_⟩,
    fun ha h1 h3 => hdet ⟨ha, h1, Or.inl h3⟩⟩
  · rw [hdet hc]
    exact unlock_detach_calls cfg client st (irq_pre_both client st)
      (irq_prologue client ++ irq_both_reads client) rfl (by simp) rfl
  · rw [hatt hc]
    exact unlock_attach_calls cfg client st (irq_pre_both client st)
      (irq_prologue client ++ irq_both_reads client) rfl (by simp) rfl

/-- Witness for C15: both interrupts pending over an emptied device (ADC = OPEN,
device registers zero) while a USB cable is retained: the dispatcher retracts
USB. -/
theorem both_interrupts_dispatch_witness :
    cableCalls (eventsSince
        (sm5502_attach_dev Config.plain (regFile 0x04 0 0 0 0x02 0x1f 0x1e) (State.init false)).2
        (sm5502_irq_thread Config.plain (irqFile 0x03 0 (regFile 0 0 0 0 0 0x1f 0x1e))
          (sm5502_attach_dev Config.plain (regFile 0x04 0 0 0 0x02 0x1f 0x1e)
            (State.init false)).2)) =
      announce (detach_identity Config.plain
        (sm5502_attach_dev Config.plain (regFile 0x04 0 0 0 0x02 0x1f 0x1e)
          (State.init false)).2.usbsw) false :=
  ((both_interrupts_dispatch Config.plain (irqFile 0x03 0 (regFile 0 0 0 0 0 0x1f 0x1e))
    (sm5502_attach_dev Config.plain (regFile 0x04 0 0 0 0x02 0x1f 0x1e) (State.init false)).2
    (by decide)).1 (by decide)).2

/-! ## C16 -/

/-- C16: when the dispatcher reads `intr1` different from 0x03: if the ATTACH
bit of `intr1` or the RESERVED_ATTACH bit (bit 1) of `intr2` is set, what it
does between its register reads and the unlock is exactly one attach pass (also
when the DETACH bit is set as well), and its Cable Sink calls are those of the
attach pass; otherwise, if the DETACH bit of `intr1` is set, it is exactly one
detach pass, and its Cable Sink calls are those of the detach pass. -/
theorem single_interrupt_dispatch (cfg : Config) (client : I2cClient) (st : State)
    (hb : client.read REG_INT1 ≠ INT_ATTACH + INT_DETACH) :
    ((band (client.read REG_INT1) INT_ATTACH ≠ 0 ∨
        band (client.read REG_INT2) INT_RESERVED_ATTACH ≠ 0) →
      sm5502_irq_thread cfg client st =
        mutex_unlock (sm5502_attach_dev cfg client (irq_pre client st)).2 ∧
      cableCalls (eventsSince st (sm5502_irq_thread cfg client st)) =
        announce (attach_pass_identity cfg client st.usbsw.is_rustproof) true) ∧
    (¬ (band (client.read REG_INT1) INT_ATTACH ≠ 0 ∨
        band (client.read REG_INT2) INT_RESERVED_ATTACH ≠ 0) →
      band (client.read REG_INT1) INT_DETACH ≠ 0 →
      sm5502_irq_thread cfg client st =
        mutex_unlock (sm5502_detach_dev cfg client (irq_pre client st)).2 ∧
      cableCalls (eventsSince st (sm5502_irq_thread cfg client st)) =
        announce (detach_identity cfg st.usbsw) false) := by
  have hatt : (band (client.read REG_INT1) INT_ATTACH ≠ 0 ∨
        band (client.read REG_INT2) INT_RESERVED_ATTACH ≠ 0) →
      sm5502_irq_thread cfg client st =
        mutex_unlock (sm5502_attach_dev cfg client (irq_pre client st)).2 := by
    intro ha
    apply irq_thread_cases cfg client st
      (fun s => s = mutex_unlock (sm5502_attach_dev cfg client (irq_pre client st)).2)
    case h_attach => intros; rfl
    case h_both_detach => intro c; exact absurd c hb
    case h_both_attach => intro c; exact absurd c hb
    all_goals intro _ c
    all_goals exact absurd ha c
  have hdet : ¬ (band (client.read REG_INT1) INT_ATTACH ≠ 0 ∨
        band (client.read REG_INT2) INT_RESERVED_ATTACH ≠ 0) →
      band (client.read REG_INT1) INT_DETACH ≠ 0 →
      sm5502_irq_thread cfg client st =
        mutex_unlock (sm5502_detach_dev cfg client (irq_pre client st)).2 := by
    intro ha hd
    apply irq_thread_cases cfg client st
      (fun s => s = mutex_unlock (sm5502_detach_dev cfg client (irq_pre client st)).2)
    case h_detach => intros; rfl
    case h_both_detach => intro c; exact absurd c hb
    case h_both_attach => intro c; exact absurd c hb
    case h_attach => intro _ c; exact absurd c ha
    all_goals intro _ _ c
    all_goals exact absurd hd c
  refine ⟨fun ha => ⟨hatt ha, ?_⟩, fun ha hd => ⟨hdet ha hd, ?_⟩⟩
  · rw [hatt ha]
    exact unlock_attach_calls cfg client st (irq_pre client st) (irq_prologue client) rfl
      (by simp) rfl
  · rw [hdet ha hd]
    exact unlock_detach_calls cfg client st (irq_pre client st) (irq_prologue client) rfl
      (by simp) rfl

/-- Witness for C16: `intr1` = 0x07 (ATTACH and DETACH together with another
bit) over a USB snapshot: the dispatcher runs the attach pass. -/
theorem single_interrupt_dispatch_witness :
    sm5502_irq_thread Config.plain (irqFile 0x07 0 (regFile 0x04 0 0 0 0x02 0x1f 0x1e))
        (State.init false) =
      mutex_unlock (sm5502_attach_dev Config.plain
        (irqFile 0x07 0 (regFile 0x04 0 0 0 0x02 0x1f 0x1e))
        (irq_pre (irqFile 0x07 0 (regFile 0x04 0 0 0 0x02 0x1f 0x1e)) (State.init false))).2 :=
  ((single_interrupt_dispatch Config.plain (irqFile 0x07 0 (regFile 0x04 0 0 0 0x02 0x1f 0x1e))
    (State.init false) (by decide)).1 (by decide)).1

/-! ## C17 -/

/-- C17: when `intr1` has neither the ATTACH nor the DETACH bit and `intr2` is
exactly VBUS_ON (0x80): with ADC code 0x1c what the dispatcher does before the
unlock is exactly one attach pass; with ADC code 0x1a it makes exactly one Cable
Sink call, TA attached, runs no pass and keeps the Session State; with any
other ADC code it makes no Cable Sink call, runs no pass and keeps the Session
State. When `intr2` is exactly VBUS_OFF (0x01) the same holds with a detach
pass for ADC code 0x1c and one call TA detached for ADC code 0x1a. (In a
`CONFIG_USB_HOST_NOTIFY` build the VBUS branches first call `sec_otg_notify`,
the events `irq_otg_events`.) -/
theorem vbus_interrupt_dispatch (cfg : Config) (client : I2cClient) (st : State)
    (ha : band (client.read REG_INT1) INT_ATTACH = 0)
    (hd : band (client.read REG_INT1) INT_DETACH = 0) :
    (client.read REG_INT2 = INT_VBUSOUT_ON →
      (client.read REG_ADC = ADC_JIG_UART_OFF →
        sm5502_irq_thread cfg client st =
          mutex_unlock
            (sm5502_attach_dev cfg client (irq_otg_notify cfg true (irq_pre client st))).2 ∧
        cableCalls (eventsSince st (sm5502_irq_thread cfg client st)) =
          announce (attach_pass_identity cfg client st.usbsw.is_rustproof) true) ∧
      (client.read REG_ADC = ADC_DESKDOCK →
        eventsSince st (sm5502_irq_thread cfg client st) =
          irq_prologue client ++ irq_otg_events cfg true ++
            [Event.cable Cable.TA true, Event.mutex_unlock] ∧
        cableCalls (eventsSince st (sm5502_irq_thread cfg client st)) = [(Cable.TA, true)] ∧
        (sm5502_irq_thread cfg client st).session = st.session) ∧
      (client.read REG_ADC ≠ ADC_JIG_UART_OFF → client.read REG_ADC ≠ ADC_DESKDOCK →
        eventsSince st (sm5502_irq_thread cfg client st) =
          irq_prologue client ++ irq_otg_events cfg true ++ [Event.mutex_unlock] ∧
        cableCalls (eventsSince st (sm5502_irq_thread cfg client st)) = [] ∧
        (sm5502_irq_thread cfg client st).session = st.session)) ∧
    (client.read REG_INT2 = INT_VBUSOUT_OFF →
      (client.read REG_ADC = ADC_JIG_UART_OFF →
        sm5502_irq_thread cfg client st =
          mutex_unlock
            (sm5502_detach_dev cfg client (irq_otg_notify cfg false (irq_pre client st))).2 ∧
        cableCalls (eventsSince st (sm5502_irq_thread cfg client st)) =
          announce (detach_identity cfg st.usbsw) false) ∧
      (client.read REG_ADC = ADC_DESKDOCK →
        eventsSince st (sm5502_irq_thread cfg client st) =
          irq_prologue client ++ irq_otg_events cfg false ++
            [Event.cable Cable.TA false, Event.mutex_unlock] ∧
        cableCalls (eventsSince st (sm5502_irq_thread cfg client st)) = [(Cable.TA, false)] ∧
        (sm5502_irq_thread cfg client st).session = st.session) ∧
      (client.read REG_ADC ≠ ADC_JIG_UART_OFF → client.read REG_ADC ≠ ADC_DESKDOCK →
        eventsSince st (sm5502_irq_thread cfg client st) =
          irq_prologue client ++ irq_otg_events cfg false ++ [Event.mutex_unlock] ∧
        cableCalls (eventsSince st (sm5502_irq_thread cfg client st)) = [] ∧
        (sm5502_irq_thread cfg client st).session = st.session)) := by
  have ha2 : ¬ band (client.read REG_INT1) INT_ATTACH ≠ 0 := by rw [ha]; decide
  have hd2 : ¬ band (client.read REG_INT1) INT_DETACH ≠ 0 := by rw [hd]; decide
  have hb : ¬ client.read REG_INT1 = INT_ATTACH + INT_DETACH :=
    int1_ne_both_of_attach_clear _ ha2
  constructor
  · intro hon
    have hr : ¬ (band (client.read REG_INT1) INT_ATTACH ≠ 0 ∨
        band (client.read REG_INT2) INT_RESERVED_ATTACH ≠ 0) := by
      intro h
      rcases h with h | h
      · exact ha2 h
      · exact int2_on_no_reserved _ hon h
    have key : sm5502_irq_thread cfg client st =
        mutex_unlock
          (if client.read REG_ADC = ADC_JIG_UART_OFF then
            (sm5502_attach_dev cfg client (irq_otg_notify cfg true (irq_pre client st))).2
          else if client.read REG_ADC = ADC_DESKDOCK then
            extcon_set_cable_state Cable.TA attach (irq_otg_notify cfg true (irq_pre client st))
          else irq_otg_notify cfg true (irq_pre client st)) := by
      apply irq_thread_cases cfg client st
        (fun s => s = mutex_unlock
          (if client.read REG_ADC = ADC_JIG_UART_OFF then
            (sm5502_attach_dev cfg client (irq_otg_notify cfg true (irq_pre client st))).2
          else if client.read REG_ADC = ADC_DESKDOCK then
            extcon_set_cable_state Cable.TA attach (irq_otg_notify cfg true (irq_pre client st))
          else irq_otg_notify cfg true (irq_pre client st)))
      case h_on_attach => intro _ _ _ _ j; rw [if_pos j]
      case h_on_ta => intro _ _ _ _ j k; rw [if_neg j, if_pos k]
      case h_on_none => intro _ _ _ _ j k; rw [if_neg j, if_neg k]
      case h_both_detach => intro c; exact absurd c hb
      case h_both_attach => intro c; exact absurd c hb
      case h_attach => intro _ c; exact absurd c hr
      case h_detach => intro _ _ c; exact absurd c hd2
      all_goals intro _ _ _ c
      all_goals exact absurd hon c
    refine ⟨fun j => ?_, fun k => ?_, fun j k => ?_⟩
    · rw [key, if_pos j]
      exact ⟨rfl, unlock_attach_calls cfg client st _ _ (irq_pre_notify_trace cfg client true st)
        (by simp) (irq_pre_notify_usbsw cfg client true st)⟩
    · have j : ¬ client.read REG_ADC = ADC_JIG_UART_OFF := by rw [k]; decide
      rw [key, if_neg j, if_pos k, irq_otg_notify_eq]
      refine ⟨?_, ?_, rfl⟩
      · simp [eventsSince, mutex_unlock, extcon_set_cable_state, irq_pre, attach]
      · simp [eventsSince, mutex_unlock, extcon_set_cable_state, irq_pre, attach]
    · rw [key, if_neg j, if_neg k, irq_otg_notify_eq]
      refine ⟨?_, ?_, rfl⟩
      · simp [eventsSince, mutex_unlock, irq_pre]
      · simp [eventsSince, mutex_unlock, irq_pre]
  · intro hoff
    have hon : ¬ client.read REG_INT2 = INT_VBUSOUT_ON := int2_off_ne_on _ hoff
    have hr : ¬ (band (client.read REG_INT1) INT_ATTACH ≠ 0 ∨
        band (client.read REG_INT2) INT_RESERVED_ATTACH ≠ 0) := by
      intro h
      rcases h with h | h
      · exact ha2 h
      · exact int2_off_no_reserved _ hoff h
    have key : sm5502_irq_thread cfg client st =
        mutex_unlock
          (if client.read REG_ADC = ADC_JIG_UART_OFF then
            (sm5502_detach_dev cfg client (irq_otg_notify cfg false (irq_pre client st))).2
          else if client.read REG_ADC = ADC_DESKDOCK then
            extcon_set_cable_state Cable.TA detach (irq_otg_notify cfg false (irq_pre client st))
          else irq_otg_notify cfg false (irq_pre client st)) := by
      apply irq_thread_cases cfg client st
        (fun s => s = mutex_unlock
          (if client.read REG_ADC = ADC_JIG_UART_OFF then
            (sm5502_detach_dev cfg client (irq_otg_notify cfg false (irq_pre client st))).2
          else if client.read REG_ADC = ADC_DESKDOCK then
            extcon_set_cable_state Cable.TA detach (irq_otg_notify cfg false (irq_pre client st))
          else irq_otg_notify cfg false (irq_pre client st)))
      case h_off_detach => intro _ _ _ _ _ j; rw [if_pos j]
      case h_off_ta => intro _ _ _ _ _ j k; rw [if_neg j, if_pos k]
      case h_off_none => intro _ _ _ _ _ j k; rw [if_neg j, if_neg k]
      case h_both_detach => intro c; exact absurd c hb
      case h_both_attach => intro c; exact absurd c hb
      case h_attach => intro _ c; exact absurd c hr
      case h_detach => intro _ _ c; exact absurd c hd2
      case h_none => intro _ _ _ _ c; exact absurd hoff c
      all_goals intro _ _ _ c
      all_goals exact absurd c hon
    refine ⟨fun j => ?_, fun k => ?_, fun j k => ?_⟩
    · rw [key, if_pos j]
      exact ⟨rfl, unlock_detach_calls cfg client st _ _ (irq_pre_notify_trace cfg client false st)
        (by simp) (irq_pre_notify_usbsw cfg client false st)⟩
    · have j : ¬ client.read REG_ADC = ADC_JIG_UART_OFF := by rw [k]; decide
      rw [key, if_neg j, if_pos k, irq_otg_notify_eq]
      refine ⟨?_, ?_, rfl⟩
      · simp [eventsSince, mutex_unlock, extcon_set_cable_state, irq_pre, detach]
      · simp [eventsSince, mutex_unlock, extcon_set_cable_state, irq_pre, detach]
    · rw [key, if_neg j, if_neg k, irq_otg_notify_eq]
      refine ⟨?_, ?_, rfl⟩
      · simp [eventsSince, mutex_unlock, irq_pre]
      · simp [eventsSince, mutex_unlock, irq_pre]

/-- Witness for C17: `intr1` = 0, `intr2` = 0x80 and ADC code 0x1a over a desk
dock: one call, TA attached. -/
theorem vbus_interrupt_dispatch_witness :
    cableCalls (eventsSince (State.init false)
      (sm5502_irq_thread Config.host_rustproof
        (irqFile 0 0x80 (regFile 0 0x40 0 0 0x02 0x1a 0x1e)) (State.init false))) =
      [(Cable.TA, true)] :=
  (((vbus_interrupt_dispatch Config.host_rustproof
    (irqFile 0 0x80 (regFile 0 0x40 0 0 0x02 0x1a 0x1e)) (State.init false)
    (by decide) (by decide)).1 (by decide)).2.1 (by decide)).2.1

/-! ## C18 -/

/-- C18: when `intr1` has neither the ATTACH nor the DETACH bit, `intr2` does
not have the RESERVED_ATTACH bit and is neither 0x80 nor 0x01, the events of a
dispatcher pass are exactly its prologue (lock, the interrupt-status reads
between masking and unmasking, the ADC read) and the unlock: no Cable Sink call,
no read or write of an attach or detach pass; the instance fields, the Session
State and the flag `uart_sm5502_connecting` are unchanged. -/
theorem unrecognised_interrupt_is_noop (cfg : Config) (client : I2cClient) (st : State)
    (ha : band (client.read REG_INT1) INT_ATTACH = 0)
    (hd : band (client.read REG_INT1) INT_DETACH = 0)
    (hr : band (client.read REG_INT2) INT_RESERVED_ATTACH = 0)
    (hon : client.read REG_INT2 ≠ INT_VBUSOUT_ON)
    (hoff : client.read REG_INT2 ≠ INT_VBUSOUT_OFF) :
    eventsSince st (sm5502_irq_thread cfg client st) =
      irq_prologue client ++ [Event.mutex_unlock] ∧
    cableCalls (eventsSince st (sm5502_irq_thread cfg client st)) = [] ∧
    (sm5502_irq_thread cfg client st).usbsw = st.usbsw ∧
    (sm5502_irq_thread cfg client st).session = st.session ∧
    (sm5502_irq_thread cfg client st).uart_sm5502_connecting = st.uart_sm5502_connecting := by
  have ha2 : ¬ band (client.read REG_INT1) INT_ATTACH ≠ 0 := by rw [ha]; decide
  have hd2 : ¬ band (client.read REG_INT1) INT_DETACH ≠ 0 := by rw [hd]; decide
  have hr2 : ¬ band (client.read REG_INT2) INT_RESERVED_ATTACH ≠ 0 := by rw [hr]; decide
  have hb : ¬ client.read REG_INT1 = INT_ATTACH + INT_DETACH :=
    int1_ne_both_of_attach_clear _ ha2
  have har : ¬ (band (client.read REG_INT1) INT_ATTACH ≠ 0 ∨
      band (client.read REG_INT2) INT_RESERVED_ATTACH ≠ 0) := by
    intro h
    rcases h with h | h
    · exact ha2 h
    · exact hr2 h
  have key : sm5502_irq_thread cfg client st = mutex_unlock (irq_pre client st) := by
    apply irq_thread_cases cfg client st (fun s => s = mutex_unlock (irq_pre client st))
    case h_none => intros; rfl
    case h_both_detach => intro c; exact absurd c hb
    case h_both_attach => intro c; exact absurd c hb
    case h_attach => intro _ c; exact absurd c har
    case h_detach => intro _ _ c; exact absurd c hd2
    case h_on_attach => intro _ _ _ c; exact absurd c hon
    case h_on_ta => intro _ _ _ c; exact absurd c hon
    case h_on_none => intro _ _ _ c; exact absurd c hon
    all_goals intro _ _ _ _ c
    all_goals exact absurd c hoff
  rw [key]
  refine ⟨?_, ?_, rfl, rfl, rfl⟩
  · simp [eventsSince, mutex_unlock, irq_pre]
  · simp [eventsSince, mutex_unlock, irq_pre]

/-- Witness for C18: `intr1` = 0 and `intr2` = 0x04 over a USB snapshot. -/
theorem unrecognised_interrupt_is_noop_witness :
    cableCalls (eventsSince (State.init false)
      (sm5502_irq_thread Config.host_rustproof
        (irqFile 0 0x04 (regFile 0x04 0 0 0 0x02 0x1f 0x1e)) (State.init false))) = [] :=
  (unrecognised_interrupt_is_noop Config.host_rustproof
    (irqFile 0 0x04 (regFile 0x04 0 0 0 0x02 0x1f 0x1e)) (State.init false)
    (by decide) (by decide) (by decide) (by decide) (by decide)).2.1

/-! ## C19 -/

/-- C19 (failing input): in a build with `CONFIG_USB_HOST_NOTIFY`, over a device
whose device-type registers read 0 and whose ADC reads the audio-dock code 0x12,
a complete attach pass reports audio dock attached and retains `dev2` = 0x100,
the value the override put in `val2`, while the register reads 0; the resume
pass that follows, with the registers unchanged, finds `dev2` different from the
register, runs the attach pass again and reports audio dock attached a second
time. -/
theorem resume_reannounces_audio_dock :
    (sm5502_attach_dev Config.host_rustproof (regFile 0 0 0 0 0 0x12 0x1e)
      (State.init false)).1 = 0x12 ∧
    cableCalls (eventsSince (State.init false)
      (sm5502_attach_dev Config.host_rustproof (regFile 0 0 0 0 0 0x12 0x1e)
        (State.init false)).2) = [(Cable.AUDIODOCK, true)] ∧
    (sm5502_attach_dev Config.host_rustproof (regFile 0 0 0 0 0 0x12 0x1e)
      (State.init false)).2.usbsw.dev2 = 0x100 ∧
    (regFile 0 0 0 0 0 0x12 0x1e).read REG_DEVICE_TYPE2 = 0 ∧
    cableCalls (eventsSince
      (sm5502_attach_dev Config.host_rustproof (regFile 0 0 0 0 0 0x12 0x1e)
        (State.init false)).2
      (sm5502_resume Config.host_rustproof (regFile 0 0 0 0 0 0x12 0x1e)
        (sm5502_attach_dev Config.host_rustproof (regFile 0 0 0 0 0 0x12 0x1e)
          (State.init false)).2).2) = [(Cable.AUDIODOCK, true)] := by
  decide

/-! ## C20 -/

/-- C20: for every build, driver state (Session State and override setting
included) and two devices whose registers read the same, whatever their register
writes return: an attach pass makes the same Cable Sink calls, writes the same
bytes to the same registers in the same order, returns the same value and leaves
the same instance fields, Session State and flag `uart_sm5502_connecting` on
both devices, and so does a detach pass. -/
theorem write_outcome_does_not_matter (cfg : Config) (c1 c2 : I2cClient) (st : State)
    (h : c1.read = c2.read) :
    (cableCalls (eventsSince st (sm5502_attach_dev cfg c1 st).2) =
        cableCalls (eventsSince st (sm5502_attach_dev cfg c2 st).2) ∧
      regWrites (eventsSince st (sm5502_attach_dev cfg c1 st).2) =
        regWrites (eventsSince st (sm5502_attach_dev cfg c2 st).2) ∧
      (sm5502_attach_dev cfg c1 st).1 = (sm5502_attach_dev cfg c2 st).1 ∧
      (sm5502_attach_dev cfg c1 st).2.usbsw = (sm5502_attach_dev cfg c2 st).2.usbsw ∧
      (sm5502_attach_dev cfg c1 st).2.session = (sm5502_attach_dev cfg c2 st).2.session ∧
      (sm5502_attach_dev cfg c1 st).2.uart_sm5502_connecting =
        (sm5502_attach_dev cfg c2 st).2.uart_sm5502_connecting) ∧
    (cableCalls (eventsSince st (sm5502_detach_dev cfg c1 st).2) =
        cableCalls (eventsSince st (sm5502_detach_dev cfg c2 st).2) ∧
      regWrites (eventsSince st (sm5502_detach_dev cfg c1 st).2) =
        regWrites (eventsSince st (sm5502_detach_dev cfg c2 st).2) ∧
      (sm5502_detach_dev cfg c1 st).1 = (sm5502_detach_dev cfg c2 st).1 ∧
      (sm5502_detach_dev cfg c1 st).2.usbsw = (sm5502_detach_dev cfg c2 st).2.usbsw ∧
      (sm5502_detach_dev cfg c1 st).2.session = (sm5502_detach_dev cfg c2 st).2.session ∧
      (sm5502_detach_dev cfg c1 st).2.uart_sm5502_connecting =
        (sm5502_detach_dev cfg c2 st).2.uart_sm5502_connecting) := by
  obtain ⟨hi, hw, hu, hc, hr⟩ :=
    attach_pass_congr cfg c1 c2 h st.usbsw.is_rustproof st.usbsw st.uart_sm5502_connecting
  have hau : (sm5502_attach_dev cfg c1 st).2.usbsw = (sm5502_attach_dev cfg c2 st).2.usbsw := by
    rw [attach_dev_usbsw, attach_dev_usbsw, hu]
  have hdu : (sm5502_detach_dev cfg c1 st).2.usbsw = (sm5502_detach_dev cfg c2 st).2.usbsw := by
    rw [detach_dev_usbsw, detach_dev_usbsw]
  refine ⟨⟨?_, ?_, ?_, hau, ?_, ?_⟩, ⟨?_, ?_, ?_, hdu, ?_, ?_⟩⟩
  · rw [attach_dev_calls, attach_dev_calls, hi]
  · rw [attach_dev_writes, attach_dev_writes, hw]
  · rw [attach_dev_ret, attach_dev_ret, hr]
  · simp only [State.session, check_sm5502_jig_state, hau]
  · rw [attach_dev_uart, attach_dev_uart, hc]
  · rw [detach_dev_calls, detach_dev_calls]
  · rw [detach_dev_writes, detach_dev_writes, h]
  · rw [detach_dev_eq, detach_dev_eq]
  · simp only [State.session, check_sm5502_jig_state, hdu]
  · rw [detach_dev_uart, detach_dev_uart]

/-- Witness for C20: a desk dock with VBUS, once on a device whose writes
succeed and once on the same device with every write failing. -/
theorem write_outcome_does_not_matter_witness :
    cableCalls (eventsSince (State.init false)
        (sm5502_attach_dev Config.plain (regFile 0 0x40 0 0 0x02 0x1a 0x1e)
          (State.init false)).2) =
      cableCalls (eventsSince (State.init false)
        (sm5502_attach_dev Config.plain (writesFail (regFile 0 0x40 0 0 0x02 0x1a 0x1e))
          (State.init false)).2) ∧
    (sm5502_attach_dev Config.plain (regFile 0 0x40 0 0 0x02 0x1a 0x1e)
        (State.init false)).2.session =
      (sm5502_attach_dev Config.plain (writesFail (regFile 0 0x40 0 0 0x02 0x1a 0x1e))
        (State.init false)).2.session :=
  have h := (write_outcome_does_not_matter Config.plain (regFile 0 0x40 0 0 0x02 0x1a 0x1e)
    (writesFail (regFile 0 0x40 0 0 0x02 0x1a 0x1e)) (State.init false) rfl).1
  ⟨h.1, h.2.2.2.2.1⟩

/-! ## C21 -/

/-- C21: if every register read fails (returns a negative code, whichever), then
for every build, Session State and override setting: every Cable Sink call of a
dispatcher pass has attached = false, and the startup pass, the resume pass and
a write to `uart_en` (the forced re-detect, whatever is written) make no Cable
Sink call at all. -/
theorem dead_bus_never_attaches (cfg : Config) (client : I2cClient) (st : State)
    (buf : List Char) (hfail : ∀ reg, client.read reg < 0) :
    (∀ call ∈ cableCalls (eventsSince st (sm5502_irq_thread cfg client st)),
      call.2 = false) ∧
    cableCalls (eventsSince st (sm5502_init_detect cfg client st)) = [] ∧
    cableCalls (eventsSince st (sm5502_resume cfg client st).2) = [] ∧
    cableCalls (eventsSince st (uart_en_store cfg client buf st)) = [] := by
  have f1 := hfail REG_DEVICE_TYPE1
  have hb : ¬ client.read REG_INT1 = INT_ATTACH + INT_DETACH := by
    intro e
    have := hfail REG_INT1
    rw [e] at this
    exact absurd this (by decide)
  have hon : ¬ client.read REG_INT2 = INT_VBUSOUT_ON := by
    intro e
    have := hfail REG_INT2
    rw [e] at this
    exact absurd this (by decide)
  have hoff : ¬ client.read REG_INT2 = INT_VBUSOUT_OFF := by
    intro e
    have := hfail REG_INT2
    rw [e] at this
    exact absurd this (by decide)
  refine ⟨?_, ?_, ?_, ?_⟩
  · apply irq_thread_cases cfg client st
      (fun s => ∀ call ∈ cableCalls (eventsSince st s), call.2 = false)
    case h_attach =>
      intro _ _ call hc
      rw [unlock_attach_calls cfg client st (irq_pre client st) (irq_prologue client) rfl
        (by simp) rfl, attach_pass_identity_of_fail cfg client _ f1] at hc
      simp at hc
    case h_detach =>
      intro _ _ _ call hc
      rw [unlock_detach_calls cfg client st (irq_pre client st) (irq_prologue client) rfl
        (by simp) rfl] at hc
      exact announce_mem _ _ _ hc
    case h_none =>
      intro _ _ _ _ _ call hc
      have he : eventsSince st (mutex_unlock (irq_pre client st)) =
          irq_prologue client ++ [Event.mutex_unlock] :=
        eventsSince_unlock st (irq_pre client st) (irq_prologue client) rfl
      rw [he] at hc
      simp at hc
    case h_both_detach => intro c; exact absurd c hb
    case h_both_attach => intro c; exact absurd c hb
    case h_on_attach => intro _ _ _ c; exact absurd c hon
    case h_on_ta => intro _ _ _ c; exact absurd c hon
    case h_on_none => intro _ _ _ c; exact absurd c hon
    all_goals intro _ _ _ _ c
    all_goals exact absurd c hoff
  · rw [init_detect_calls, attach_pass_identity_of_fail cfg client _ f1]; rfl
  · rw [resume_first_read_fails cfg client st f1]; simp
  · rw [uart_en_store_calls, attach_pass_identity_of_fail cfg client _ f1]; rfl

/-- Witness for C21: the device on which every read returns -5, with a USB cable
retained from an earlier attach pass. -/
theorem dead_bus_never_attaches_witness :
    (∀ call ∈ cableCalls (eventsSince
        (sm5502_attach_dev Config.rustproof (regFile 0x04 0 0 0 0x02 0x1f 0x1e)
          (State.init false)).2
        (sm5502_irq_thread Config.rustproof deadBus
          (sm5502_attach_dev Config.rustproof (regFile 0x04 0 0 0 0x02 0x1f 0x1e)
            (State.init false)).2)),
      call.2 = false) ∧
    cableCalls (eventsSince
      (sm5502_attach_dev Config.rustproof (regFile 0x04 0 0 0 0x02 0x1f 0x1e)
        (State.init false)).2
      (sm5502_init_detect Config.rustproof deadBus
        (sm5502_attach_dev Config.rustproof (regFile 0x04 0 0 0 0x02 0x1f 0x1e)
          (State.init false)).2)) = [] :=
  have h := dead_bus_never_attaches Config.rustproof deadBus
    (sm5502_attach_dev Config.rustproof (regFile 0x04 0 0 0 0x02 0x1f 0x1e)
      (State.init false)).2 ['1'] (fun _ => (by decide : (-5 : Int) < 0))
  ⟨h.1, h.2.1⟩

/-! ## C22 -/

/-- C22 (failing input): in the build with `CONFIG_VIDEO_MHL_V2` and
`CONFIG_MHL_D3_SUPPORT`, over the snapshot with only the MHL bit (bit 0) of
device_type_3 set, the attach pass masks the interrupt (writes 0x1f to the
control register, which reads 0x1e), calls `mhl_onoff_ex(1)` and unmasks it
(writes 0x1e), but makes no Cable Sink call: MHL is not reported attached. The
detach pass that follows reports MHL with attached = false. -/
theorem mhl_attach_is_not_reported :
    band ((regFile 0 0 0x01 0 0 0x00 0x1e).read REG_DEVICE_TYPE3) DEV_MHL ≠ 0 ∧
    eventsSince (State.init false)
      (sm5502_attach_dev Config.mhl (regFile 0 0 0x01 0 0 0x00 0x1e) (State.init false)).2 =
      attach_reads (regFile 0 0 0x01 0 0 0x00 0x1e) ++
        [Event.read REG_CONTROL 0x1e, Event.write REG_CONTROL 0x1f 0, Event.mhl_onoff true,
          Event.read REG_CONTROL 0x1e, Event.write REG_CONTROL 0x1e 0] ∧
    cableCalls (eventsSince (State.init false)
      (sm5502_attach_dev Config.mhl (regFile 0 0 0x01 0 0 0x00 0x1e)
        (State.init false)).2) = [] ∧
    cableCalls (eventsSince
      (sm5502_attach_dev Config.mhl (regFile 0 0 0x01 0 0 0x00 0x1e) (State.init false)).2
      (sm5502_detach_dev Config.mhl (regFile 0 0 0 0 0 0x1f 0x1e)
        (sm5502_attach_dev Config.mhl (regFile 0 0 0x01 0 0 0x00 0x1e)
          (State.init false)).2).2) = [(Cable.MHL, false)] := by
  decide

/-! ## C23 -/

/-- C23: for every snapshot (all five checked reads succeed) that matches none
of the signatures of rules 1-10 and has bit 1 of the VBUS register set, the
attach pass makes exactly one Cable Sink call, INCOMPATIBLE attached, and no
register write. The signatures are those the chain tests, as in C14: rules 6
(OTG bit with ADC code 0x00) and 10 (audio dock: ADC code 0x12) exist only with
`CONFIG_USB_HOST_NOTIFY`, rule 8 (MHL bit) only with `CONFIG_VIDEO_MHL_V2`; the
OTG bit with another ADC code, and the audio, TTY, PPD and smart-dock bits, are
tested by no rule. -/
theorem vbus_fallback_is_incompatible (cfg : Config) (client : I2cClient) (st : State)
    (h1 : 0 ≤ client.read REG_DEVICE_TYPE1) (h2 : 0 ≤ client.read REG_DEVICE_TYPE2)
    (h3 : 0 ≤ client.read REG_DEVICE_TYPE3) (h4 : 0 ≤ client.read REG_CARKIT_STATUS)
    (h5 : 0 ≤ client.read REG_VBUSINVALID)
    (hno1 : ¬ (band (client.read REG_DEVICE_TYPE1) DEV_USB ≠ 0 ∨
      band (client.read REG_DEVICE_TYPE2) DEV_T2_USB_MASK ≠ 0 ∨
      band (client.read REG_CARKIT_STATUS) DEV_CARKIT_CHARGER1_MASK ≠ 0))
    (hno2 : ¬ band (client.read REG_DEVICE_TYPE3) DEV_NON_STANDARD ≠ 0)
    (hno3 : ¬ band (client.read REG_DEVICE_TYPE1) DEV_USB_CHG ≠ 0)
    (hno4 : ¬ (band (client.read REG_DEVICE_TYPE1) DEV_T1_UART_MASK ≠ 0 ∨
      band (client.read REG_DEVICE_TYPE2) DEV_T2_UART_MASK ≠ 0))
    (hno5 : ¬ (band (client.read REG_DEVICE_TYPE1) DEV_T1_CHARGER_MASK ≠ 0 ∨
      band (client.read REG_DEVICE_TYPE3) DEV_T3_CHARGER_MASK ≠ 0))
    (hno6 : cfg.USB_HOST_NOTIFY = true →
      ¬ (band (client.read REG_DEVICE_TYPE1) DEV_USB_OTG ≠ 0 ∧ client.read REG_ADC = ADC_OTG))
    (hno7 : ¬ (band (client.read REG_DEVICE_TYPE2) DEV_AV ≠ 0 ∨
      band (client.read REG_DEVICE_TYPE3) DEV_AV_VBUS ≠ 0))
    (hno8 : cfg.VIDEO_MHL_V2 = true → ¬ band (client.read REG_DEVICE_TYPE3) DEV_MHL ≠ 0)
    (hno9 : ¬ band (client.read REG_DEVICE_TYPE2) DEV_JIG_UART_ON ≠ 0)
    (hno10 : cfg.USB_HOST_NOTIFY = true →
      client.read REG_ADC ≠ ADC_AUDIO_DOCK ∧
        ¬ band (client.read REG_DEVICE_TYPE2) DEV_AUDIO_DOCK ≠ 0)
    (hvbus : band (client.read REG_VBUSINVALID) DEV_VBUSIN_VALID ≠ 0) :
    cableCalls (eventsSince st (sm5502_attach_dev cfg client st).2) =
      [(Cable.INCOMPATIBLE, true)] ∧
    regWrites (eventsSince st (sm5502_attach_dev cfg client st).2) = [] := by
  have hok : attach_reads_ok client = true := by
    rw [attach_reads_ok_iff]; exact ⟨h1, h2, h3, h4, h5⟩
  have hadc : cfg.USB_HOST_NOTIFY = true → client.read REG_ADC ≠ ADC_AUDIO_DOCK :=
    fun h => (hno10 h).1
  obtain ⟨hv1, hv2⟩ := attach_vals_plain cfg client hadc
  have c6 : ¬ (cfg.USB_HOST_NOTIFY = true ∧
      (band (client.read REG_DEVICE_TYPE1) DEV_USB_OTG ≠ 0 ∧ client.read REG_ADC = ADC_OTG)) :=
    fun h => hno6 h.1 h.2
  have c8 : ¬ (cfg.VIDEO_MHL_V2 = true ∧ band (client.read REG_DEVICE_TYPE3) DEV_MHL ≠ 0) :=
    fun h => hno8 h.1 h.2
  have c10 : ¬ (cfg.USB_HOST_NOTIFY = true ∧
      band (client.read REG_DEVICE_TYPE2) DEV_AUDIO_DOCK ≠ 0) :=
    fun h => (hno10 h.1).2 h.2
  constructor
  · rw [attach_dev_calls]
    unfold attach_pass_identity
    rw [if_pos hok, hv1, hv2]
    unfold attach_identity
    rw [if_neg hno1, if_neg hno2, if_neg hno3, if_neg hno4, if_neg hno5, if_neg c6,
      if_neg hno7, if_neg c8, if_neg hno9, if_neg c10, if_pos hvbus]
    rfl
  · rw [attach_dev_writes]
    unfold attach_pass_writes
    rw [if_pos hok, hv1, hv2]
    unfold attach_decision_writes
    rw [if_neg hno1, if_neg hno2, if_neg hno3, if_neg hno4, if_neg hno5, if_neg c6,
      if_neg hno7, if_neg c8, if_neg hno9, if_neg c10, if_pos hvbus]

/-- Witness for C23, in the build with `CONFIG_USB_HOST_NOTIFY`: only the OTG
bit of device_type_1 with ADC code 0x1f and VBUS; and only the two audio bits of
device_type_1 and the smart-dock, TTY and PPD bits of device_type_2, with
VBUS. -/
theorem vbus_fallback_is_incompatible_witness :
    cableCalls (eventsSince (State.init false)
      (sm5502_attach_dev Config.host_rustproof (regFile 0x80 0 0 0 0x02 0x1f 0x1e)
        (State.init false)).2) = [(Cable.INCOMPATIBLE, true)] ∧
    cableCalls (eventsSince (State.init false)
      (sm5502_attach_dev Config.host_rustproof (regFile 0x03 0xB0 0 0 0x02 0x1f 0x1e)
        (State.init false)).2) = [(Cable.INCOMPATIBLE, true)] :=
  ⟨(vbus_fallback_is_incompatible Config.host_rustproof (regFile 0x80 0 0 0 0x02 0x1f 0x1e)
      (State.init false) (by decide) (by decide) (by decide) (by decide) (by decide)
      (by decide) (by decide) (by decide) (by decide) (by decide) (by decide) (by decide)
      (by decide) (by decide) (by decide) (by decide)).1,
    (vbus_fallback_is_incompatible Config.host_rustproof (regFile 0x03 0xB0 0 0 0x02 0x1f 0x1e)
      (State.init false) (by decide) (by decide) (by decide) (by decide) (by decide)
      (by decide) (by decide) (by decide) (by decide) (by decide) (by decide) (by decide)
      (by decide) (by decide) (by decide) (by decide)).1⟩

/-! ## C24 -/

/-- C24: for every Session State, override setting and build, and any two
devices (whatever their registers read and their writes return), a detach pass
makes the same Cable Sink calls on both: the identity the retained fields and
the override flag select (`detach_identity`), with attached = false, or no
call. -/
theorem detach_identity_ignores_live_registers (cfg : Config) (c1 c2 : I2cClient)
    (st : State) :
    cableCalls (eventsSince st (sm5502_detach_dev cfg c1 st).2) =
      cableCalls (eventsSince st (sm5502_detach_dev cfg c2 st).2) ∧
    cableCalls (eventsSince st (sm5502_detach_dev cfg c1 st).2) =
      announce (detach_identity cfg st.usbsw) false := by
  rw [detach_dev_calls, detach_dev_calls]
  exact ⟨rfl, rfl⟩

/-! ## C25 -/

/-- C25 (failing input): in the build with `CONFIG_MUIC_SUPPORT_RUSTPROOF`, a
write of "1" to `uart_en` over a USB snapshot runs the attach pass, which
reports USB attached, without ever taking the lock: no lock event occurs, and
every event of the pass, the Cable Sink call included, happens outside the lock.
The startup pass over the same device starts by taking the lock, and only its
two final interrupt-status reads happen outside it. -/
theorem forced_redetect_runs_unlocked :
    cableCalls (eventsSince (State.init true)
      (uart_en_store Config.rustproof (regFile 0x04 0 0 0 0x02 0x1f 0x1e) ['1']
        (State.init true))) = [(Cable.USB, true)] ∧
    Event.mutex_lock ∉ eventsSince (State.init true)
      (uart_en_store Config.rustproof (regFile 0x04 0 0 0 0x02 0x1f 0x1e) ['1']
        (State.init true)) ∧
    outsideLock false (eventsSince (State.init true)
      (uart_en_store Config.rustproof (regFile 0x04 0 0 0 0x02 0x1f 0x1e) ['1']
        (State.init true))) =
      eventsSince (State.init true)
        (uart_en_store Config.rustproof (regFile 0x04 0 0 0 0x02 0x1f 0x1e) ['1']
          (State.init true)) ∧
    (eventsSince (State.init true)
      (sm5502_init_detect Config.rustproof (regFile 0x04 0 0 0 0x02 0x1f 0x1e)
        (State.init true))).head? = some Event.mutex_lock ∧
    outsideLock false (eventsSince (State.init true)
      (sm5502_init_detect Config.rustproof (regFile 0x04 0 0 0 0x02 0x1f 0x1e)
        (State.init true))) = [Event.read REG_INT1 0, Event.read REG_INT2 0] := by
  decide

/-! ## C26 -/

/-- C26 (counterexample): the byte a detach pass writes to the control register
is 0x1E, not 0x1A: bit 2 (manual switch) is set in it. Shown on the detach pass
of the engine at initialisation. -/
theorem control_default_is_not_0x1A :
    regWrites (eventsSince (State.init false)
      (sm5502_detach_dev Config.plain (regFile 0 0 0 0 0 0x1f 0x1e) (State.init false)).2) =
      [(REG_CONTROL, 0x1E)] ∧
    (0x1E : Nat) ≠ 0x1A ∧ (0x1E : Nat) &&& 4 ≠ 0 := by
  decide

/-- C26 (amended): for every Session State, override setting, build and device,
the last register write of a detach pass puts the byte 0x1E in the control
register: `CON_MASK`, which has exactly the switch-open (bit 4), raw-data
(bit 3), manual-switch (bit 2) and wait (bit 1) bits set and the interrupt-mask
bit (bit 0) clear. -/
theorem control_default_is_0x1E (cfg : Config) (client : I2cClient) (st : State) :
    (regWrites (eventsSince st (sm5502_detach_dev cfg client st).2)).getLast? =
      some (REG_CONTROL, 0x1E) ∧
    CON_MASK = 0x1E ∧
    (0x1E : Nat) = 2 ^ 4 + 2 ^ 3 + 2 ^ 2 + 2 ^ 1 ∧
    band CON_MASK CON_SWITCH_OPEN ≠ 0 ∧ band CON_MASK CON_RAW_DATA ≠ 0 ∧
    band CON_MASK CON_MANUAL_SW ≠ 0 ∧ band CON_MASK CON_WAIT ≠ 0 ∧
    band CON_MASK CON_INT_MASK = 0 := by
  have h : u8 CON_MASK = 0x1E := by decide
  refine ⟨?_, by decide, by decide, by decide, by decide, by decide, by decide, by decide⟩
  rw [detach_dev_last_write, h]

/-! ## C27 -/

/-- C27: in a build with `CONFIG_USB_HOST_NOTIFY`, for any two devices whose
five checked reads succeed, whose ADC reads 0x12 and which agree on
device_type_3, carkit_status and the VBUS register (device_type_1 and
device_type_2 may differ), and any two driver states, the attach pass makes the
same Cable Sink calls; when bit 1 of carkit_status is clear and device_type_3
has none of the non-standard, U200-charger, AV-VBUS and MHL bits, that is
exactly one call, AUDIODOCK attached, and the first register write of the pass
puts the host path 0x25 in manual-switch register 1. -/
theorem audio_dock_adc_overrides_device_types (cfg : Config) (c1 c2 : I2cClient)
    (st1 st2 : State)
    (hcfg : cfg.USB_HOST_NOTIFY = true)
    (ok1 : attach_reads_ok c1 = true) (ok2 : attach_reads_ok c2 = true)
    (a1 : c1.read REG_ADC = ADC_AUDIO_DOCK) (a2 : c2.read REG_ADC = ADC_AUDIO_DOCK)
    (e3 : c1.read REG_DEVICE_TYPE3 = c2.read REG_DEVICE_TYPE3)
    (e4 : c1.read REG_CARKIT_STATUS = c2.read REG_CARKIT_STATUS)
    (e5 : c1.read REG_VBUSINVALID = c2.read REG_VBUSINVALID) :
    cableCalls (eventsSince st1 (sm5502_attach_dev cfg c1 st1).2) =
      cableCalls (eventsSince st2 (sm5502_attach_dev cfg c2 st2).2) ∧
    (band (c1.read REG_CARKIT_STATUS) DEV_CARKIT_CHARGER1_MASK = 0 →
      band (c1.read REG_DEVICE_TYPE3) DEV_NON_STANDARD = 0 →
      band (c1.read REG_DEVICE_TYPE3) DEV_U200_CHARGER = 0 →
      band (c1.read REG_DEVICE_TYPE3) DEV_AV_VBUS = 0 →
      band (c1.read REG_DEVICE_TYPE3) DEV_MHL = 0 →
      cableCalls (eventsSince st1 (sm5502_attach_dev cfg c1 st1).2) =
        [(Cable.AUDIODOCK, true)] ∧
      (regWrites (eventsSince st1 (sm5502_attach_dev cfg c1 st1).2)).head? =
        some (REG_MANUAL_SW1, 0x25)) := by
  obtain ⟨v11, v12⟩ := attach_vals_audio_dock cfg c1 hcfg a1
  obtain ⟨v21, v22⟩ := attach_vals_audio_dock cfg c2 hcfg a2
  have id1 : attach_pass_identity cfg c1 st1.usbsw.is_rustproof =
      audio_dock_adc_identity cfg (c1.read REG_DEVICE_TYPE3) (c1.read REG_CARKIT_STATUS)
        (c1.read REG_VBUSINVALID) := by
    unfold attach_pass_identity
    rw [if_pos ok1, v11, v12, attach_identity_audio_dock _ _ _ _ _ _ hcfg]
  have id2 : attach_pass_identity cfg c2 st2.usbsw.is_rustproof =
      audio_dock_adc_identity cfg (c2.read REG_DEVICE_TYPE3) (c2.read REG_CARKIT_STATUS)
        (c2.read REG_VBUSINVALID) := by
    unfold attach_pass_identity
    rw [if_pos ok2, v21, v22, attach_identity_audio_dock _ _ _ _ _ _ hcfg]
  constructor
  · rw [attach_dev_calls, attach_dev_calls, id1, id2, e3, e4, e5]
  · intro k1 k2 k5 k7 k8
    have c1n : ¬ band (c1.read REG_CARKIT_STATUS) DEV_CARKIT_CHARGER1_MASK ≠ 0 := by
      rw [k1]; simp
    have c2n : ¬ band (c1.read REG_DEVICE_TYPE3) DEV_NON_STANDARD ≠ 0 := by rw [k2]; simp
    have c5n : ¬ band (c1.read REG_DEVICE_TYPE3) DEV_T3_CHARGER_MASK ≠ 0 := by
      show ¬ band (c1.read REG_DEVICE_TYPE3) DEV_U200_CHARGER ≠ 0
      rw [k5]; simp
    have c7n : ¬ band (c1.read REG_DEVICE_TYPE3) DEV_AV_VBUS ≠ 0 := by rw [k7]; simp
    have c8n : ¬ (cfg.VIDEO_MHL_V2 = true ∧ band (c1.read REG_DEVICE_TYPE3) DEV_MHL ≠ 0) := by
      rw [k8]; simp
    constructor
    · rw [attach_dev_calls, id1]
      unfold audio_dock_adc_identity
      rw [if_neg c1n, if_neg c2n, if_neg c5n, if_neg c7n, if_neg c8n]
      rfl
    · rw [attach_dev_writes]
      unfold attach_pass_writes
      rw [if_pos ok1, v11, v12,
        attach_writes_audio_dock cfg _ _ _ _ _ _ hcfg c1n c2n c5n c7n c8n]
      have ha : attach ≠ 0 := by decide
      have hp : u8 SW_DHOST = 0x25 := by decide
      unfold sm5502_dock_control_writes
      rw [if_pos ha, hp]
      rfl

/-- Witness for C27: ADC code 0x12 with VBUS, once over device_type_1 = 0x44 (USB
and dedicated charger), device_type_2 = 0x08 (JIG UART off), and once over both
registers zero. -/
theorem audio_dock_adc_overrides_device_types_witness :
    cableCalls (eventsSince (State.init false)
        (sm5502_attach_dev Config.host_rustproof (regFile 0x44 0x08 0 0 0x02 0x12 0x1e)
          (State.init false)).2) =
      cableCalls (eventsSince (State.init true)
        (sm5502_attach_dev Config.host_rustproof (regFile 0 0 0 0 0x02 0x12 0x1e)
          (State.init true)).2) ∧
    cableCalls (eventsSince (State.init false)
        (sm5502_attach_dev Config.host_rustproof (regFile 0x44 0x08 0 0 0x02 0x12 0x1e)
          (State.init false)).2) = [(Cable.AUDIODOCK, true)] :=
  have h := audio_dock_adc_overrides_device_types Config.host_rustproof
    (regFile 0x44 0x08 0 0 0x02 0x12 0x1e) (regFile 0 0 0 0 0x02 0x12 0x1e)
    (State.init false) (State.init true) (by decide) (by decide) (by decide) (by decide)
    (by decide) (by decide) (by decide) (by decide)
  ⟨h.1, (h.2 (by decide) (by decide) (by decide) (by decide) (by decide)).1⟩

/-! ## C28 -/

/-- C28: after every complete attach pass (all five checked reads succeed),
whatever the identity announced, `check_sm5502_jig_state` returns 1 if one of
the four JIG bits (bits 0-3) of the device_type_2 register just read is set and
0 otherwise; after every detach pass it returns 0. -/
theorem jig_flag_follows_device_type_2 (cfg : Config) (client client2 : I2cClient)
    (st : State) :
    (attach_reads_ok client = true →
      (check_sm5502_jig_state (sm5502_attach_dev cfg client st).2 = 1 ↔
        (band (client.read REG_DEVICE_TYPE2) DEV_JIG_USB_ON ≠ 0 ∨
          band (client.read REG_DEVICE_TYPE2) DEV_JIG_USB_OFF ≠ 0 ∨
          band (client.read REG_DEVICE_TYPE2) DEV_JIG_UART_ON ≠ 0 ∨
          band (client.read REG_DEVICE_TYPE2) DEV_JIG_UART_OFF ≠ 0)) ∧
      (check_sm5502_jig_state (sm5502_attach_dev cfg client st).2 = 0 ↔
        ¬ (band (client.read REG_DEVICE_TYPE2) DEV_JIG_USB_ON ≠ 0 ∨
          band (client.read REG_DEVICE_TYPE2) DEV_JIG_USB_OFF ≠ 0 ∨
          band (client.read REG_DEVICE_TYPE2) DEV_JIG_UART_ON ≠ 0 ∨
          band (client.read REG_DEVICE_TYPE2) DEV_JIG_UART_OFF ≠ 0))) ∧
    check_sm5502_jig_state (sm5502_detach_dev cfg client2 st).2 = 0 := by
  constructor
  · intro hok
    have hj : check_sm5502_jig_state (sm5502_attach_dev cfg client st).2 =
        attach_jig client := (attach_dev_fields_ok cfg client st hok).2.2.2.2.2.2.2
    rw [hj, ← band_jig_all]
    unfold attach_jig
    by_cases hm : band (client.read REG_DEVICE_TYPE2) DEV_T2_JIG_ALL_MASK ≠ 0
    · rw [if_pos hm]; simp [hm]
    · rw [if_neg hm]; simp [hm]
  · rw [detach_dev_eq]; rfl

/-- Witness for C28: a USB cable (no JIG bit, flag 0) and a JIG-UART-off fixture
(bit 3, flag 1). -/
theorem jig_flag_follows_device_type_2_witness :
    check_sm5502_jig_state
      (sm5502_attach_dev Config.plain (regFile 0x04 0 0 0 0x02 0x1f 0x1e)
        (State.init false)).2 = 0 ∧
    check_sm5502_jig_state
      (sm5502_attach_dev Config.plain (regFile 0 0x08 0 0 0 0x1c 0x1e)
        (State.init false)).2 = 1 :=
  ⟨(((jig_flag_follows_device_type_2 Config.plain (regFile 0x04 0 0 0 0x02 0x1f 0x1e)
      (regFile 0 0 0 0 0 0x1f 0x1e) (State.init false)).1 (by decide)).2).mpr (by decide),
    (((jig_flag_follows_device_type_2 Config.plain (regFile 0 0x08 0 0 0 0x1c 0x1e)
      (regFile 0 0 0 0 0 0x1f 0x1e) (State.init false)).1 (by decide)).1).mpr (by decide)⟩

/-! ## C29 -/

/-- C29 (failing input): over a device whose device_type_2 register reads 0x01
(a JIG bit) and whose device_type_3 read fails with -5, an attach pass started
in the empty Session State returns -5, makes no Cable Sink call and no register
write and keeps dev1, dev2, dev3, adc, vbus and carkit, but the jig flag, 0
before the pass, is 1 after it: the Session State is not what it was. -/
theorem aborted_attach_changes_jig_flag :
    (sm5502_attach_dev Config.plain (regFile 0 0x01 (-5) 0 0 0x1f 0x1e)
      (State.init false)).1 = -5 ∧
    cableCalls (eventsSince (State.init false)
      (sm5502_attach_dev Config.plain (regFile 0 0x01 (-5) 0 0 0x1f 0x1e)
        (State.init false)).2) = [] ∧
    regWrites (eventsSince (State.init false)
      (sm5502_attach_dev Config.plain (regFile 0 0x01 (-5) 0 0 0x1f 0x1e)
        (State.init false)).2) = [] ∧
    check_sm5502_jig_state (State.init false) = 0 ∧
    check_sm5502_jig_state
      (sm5502_attach_dev Config.plain (regFile 0 0x01 (-5) 0 0 0x1f 0x1e)
        (State.init false)).2 = 1 ∧
    (sm5502_attach_dev Config.plain (regFile 0 0x01 (-5) 0 0 0x1f 0x1e)
      (State.init false)).2.session =
      { (State.init false).session with jig_state := 1 } ∧
    (sm5502_attach_dev Config.plain (regFile 0 0x01 (-5) 0 0 0x1f 0x1e)
      (State.init false)).2.session ≠ (State.init false).session := by
  decide

/-! ## C30 -/

/-- C30 (failing input): in the build with `CONFIG_MUIC_SUPPORT_RUSTPROOF`, with
the override set, starting with the flag `uart_sm5502_connecting` at 0 and the
empty Session State, an attach pass over the snapshot with only the UART bit of
device_type_1 sets the flag to 1, and the detach pass that follows empties the
Session State but leaves the flag at 1. -/
theorem uart_flag_stays_set_in_rustproof_mode :
    (State.init true).uart_sm5502_connecting = 0 ∧
    (State.init true).session = Session.empty ∧
    (sm5502_attach_dev Config.rustproof (regFile 0x08 0 0 0 0 0x1c 0x1e)
      (State.init true)).2.uart_sm5502_connecting = 1 ∧
    (sm5502_detach_dev Config.rustproof (regFile 0 0 0 0 0 0x1f 0x1e)
      (sm5502_attach_dev Config.rustproof (regFile 0x08 0 0 0 0 0x1c 0x1e)
        (State.init true)).2).2.uart_sm5502_connecting = 1 ∧
    (sm5502_detach_dev Config.rustproof (regFile 0 0 0 0 0 0x1f 0x1e)
      (sm5502_attach_dev Config.rustproof (regFile 0x08 0 0 0 0 0x1c 0x1e)
        (State.init true)).2).2.session = Session.empty := by
  decide

end SM5502
